import Mathlib

/-!
# isocodes

A shallow embedding of the Go package `isocodes` (ISO 3166-1 country codes and
ISO 4217 currency codes): the error values of `errors.go`, the identifier
constants, the detail tables, the reverse indexes and the accessor, parsing
and marshalling functions of `country.go` and `currency.go`, followed by the
properties proved about them.

Conventions of the embedding.

* A Go `string` or `[]byte` is a list of bytes (`GoString`); a byte is a natural
  number below 256. `len` is `List.length`, `string(b)` is the identity and `+`
  on strings is `++`.
* `type CountryCode byte` and `type CurrencyCode byte` are `Fin 256`.
* A Go map literal is the list of its key/value pairs; `v, ok := m[k]` is
  `mapGet m k` and the one-value form `m[k]` is `mapIndex m k`, which yields the
  zero value of the element type for a missing key.
* A Go `error` result is `Option Error` (`none` is `nil`); a `[]byte` result that
  may be `nil` is `Option GoString`.
* A method with a pointer receiver takes the value the receiver points to and
  returns the value it points to afterwards, next to the method's results.
-/

namespace Isocodes

/-! ## Go values -/

/-- A Go `string` or `[]byte` value: a finite sequence of bytes. -/
abbrev GoString := List Nat

/-- The UTF-8 encoding of one code point, as the Go compiler stores the
characters of a string literal. -/
def utf8EncodeRune (r : Nat) : GoString :=
  if r < 0x80 then [r]
  else if r < 0x800 then [0xC0 + r / 0x40, 0x80 + r % 0x40]
  else if r < 0x10000 then [0xE0 + r / 0x1000, 0x80 + r / 0x40 % 0x40, 0x80 + r % 0x40]
  else [0xF0 + r / 0x40000, 0x80 + r / 0x1000 % 0x40, 0x80 + r / 0x40 % 0x40, 0x80 + r % 0x40]

/-- The bytes of a sequence of characters of the source text. -/
def litBytes : List Char → GoString
  | [] => []
  | c :: cs => utf8EncodeRune c.toNat ++ litBytes cs

/-- The value of a Go string literal: the UTF-8 bytes of its text. -/
def lit (s : String) : GoString := litBytes s.data

/-- The two-value map index `v, ok := m[k]` on a map literal: `some v` when the
key is present, `none` when it is not. -/
def mapGet {K V : Type} [DecidableEq K] : List (K × V) → K → Option V
  | [], _ => none
  | (k, v) :: m, x => if x = k then some v else mapGet m x

/-- The one-value map index `m[k]`: the zero value of the element type for a
missing key. -/
def mapIndex {K V : Type} [DecidableEq K] [Inhabited V] (m : List (K × V)) (x : K) : V :=
  (mapGet m x).getD default

/-- The keys of a map literal. -/
def mapKeys {K V : Type} (m : List (K × V)) : List K := m.map Prod.fst

/-- Go `strings.ToUpper`. A string of ASCII bytes only has each byte in
`'a'..'z'` lowered by `'a' - 'A'` and every other byte kept. A string with a byte
of `utf8.RuneSelf = 0x80` or above goes through `strings.Map(unicode.ToUpper, s)`;
the Unicode case tables of the Go standard library are not part of this
package, so that result is the parameter `mapUpper`. -/
def ToUpper (mapUpper : GoString → GoString) (s : GoString) : GoString :=
  if s.all (fun c => c < 0x80) then
    s.map (fun c => if 97 ≤ c ∧ c ≤ 122 then c - (97 - 65) else c)
  else mapUpper s

/-! ## errors.go -/

/-- The Go type `Error`, a string: `type Error string`. -/
structure Error where
  /-- The underlying string. -/
  text : GoString
deriving DecidableEq, Repr

set_option linter.dupNamespace false in
/-- Method `Error.Error`: `return string(e)`. -/
def Error.Error (e : Error) : GoString := e.text

/-- ErrMarshalJSON indicates an error in the process of marshalling code to json. -/
def ErrMarshalJSON : Error := ⟨lit "failed to marshal json"⟩

/-- ErrUnmarshalJSON indicates an error in the process of unmarshalling code to json. -/
def ErrUnmarshalJSON : Error := ⟨lit "failed to unmarshal json"⟩

/-- ErrInvalidStringCode indicates an error in the process of converting string
representation to code type. -/
def ErrInvalidStringCode : Error := ⟨lit "invalid string representation of the code"⟩

/-! ## country.go -/

/-- CountryCode represents an ISO 3166-1 Alpha2 country code: `type CountryCode byte`. -/
abbrev CountryCode := Fin 256

/-- CountryCodeDetails represents detailed information related to country code. -/
structure CountryCodeDetails where
  Alpha2 : GoString
  Alpha3 : GoString
  Flag : GoString
  Number : GoString
  Name : GoString
deriving DecidableEq, Repr

/-- The zero value of `CountryCodeDetails`: every field the empty string. -/
instance : Inhabited CountryCodeDetails := ⟨⟨[], [], [], [], []⟩⟩

/-! Enumeration of ISO 3166-1 country codes: `AD CountryCode = iota + 1` and the
constants after it, each `iota + 1` with `iota` its position in the block. The
constants `IO` and `GL` are written with their namespace. -/

def AD : CountryCode := 0 + 1
def AE : CountryCode := 1 + 1
def AF : CountryCode := 2 + 1
def AG : CountryCode := 3 + 1
def AI : CountryCode := 4 + 1
def AL : CountryCode := 5 + 1
def AM : CountryCode := 6 + 1
def AO : CountryCode := 7 + 1
def AQ : CountryCode := 8 + 1
def AR : CountryCode := 9 + 1
def AS : CountryCode := 10 + 1
def AT : CountryCode := 11 + 1
def AU : CountryCode := 12 + 1
def AW : CountryCode := 13 + 1
def AX : CountryCode := 14 + 1
def AZ : CountryCode := 15 + 1
def BA : CountryCode := 16 + 1
def BB : CountryCode := 17 + 1
def BD : CountryCode := 18 + 1
def BE : CountryCode := 19 + 1
def BF : CountryCode := 20 + 1
def BG : CountryCode := 21 + 1
def BH : CountryCode := 22 + 1
def BI : CountryCode := 23 + 1
def BJ : CountryCode := 24 + 1
def BL : CountryCode := 25 + 1
def BM : CountryCode := 26 + 1
def BN : CountryCode := 27 + 1
def BO : CountryCode := 28 + 1
def BQ : CountryCode := 29 + 1
def BR : CountryCode := 30 + 1
def BS : CountryCode := 31 + 1
def BT : CountryCode := 32 + 1
def BV : CountryCode := 33 + 1
def BW : CountryCode := 34 + 1
def BY : CountryCode := 35 + 1
def BZ : CountryCode := 36 + 1
def CA : CountryCode := 37 + 1
def CC : CountryCode := 38 + 1
def CD : CountryCode := 39 + 1
def CF : CountryCode := 40 + 1
def CG : CountryCode := 41 + 1
def CH : CountryCode := 42 + 1
def CI : CountryCode := 43 + 1
def CK : CountryCode := 44 + 1
def CL : CountryCode := 45 + 1
def CM : CountryCode := 46 + 1
def CN : CountryCode := 47 + 1
def CO : CountryCode := 48 + 1
def CR : CountryCode := 49 + 1
def CU : CountryCode := 50 + 1
def CV : CountryCode := 51 + 1
def CW : CountryCode := 52 + 1
def CX : CountryCode := 53 + 1
def CY : CountryCode := 54 + 1
def CZ : CountryCode := 55 + 1
def DE : CountryCode := 56 + 1
def DJ : CountryCode := 57 + 1
def DK : CountryCode := 58 + 1
def DM : CountryCode := 59 + 1
def DO : CountryCode := 60 + 1
def DZ : CountryCode := 61 + 1
def EC : CountryCode := 62 + 1
def EE : CountryCode := 63 + 1
def EG : CountryCode := 64 + 1
def EH : CountryCode := 65 + 1
def ER : CountryCode := 66 + 1
def ES : CountryCode := 67 + 1
def ET : CountryCode := 68 + 1
def FI : CountryCode := 69 + 1
def FJ : CountryCode := 70 + 1
def FK : CountryCode := 71 + 1
def FM : CountryCode := 72 + 1
def FO : CountryCode := 73 + 1
def FR : CountryCode := 74 + 1
def GA : CountryCode := 75 + 1
def GB : CountryCode := 76 + 1
def GD : CountryCode := 77 + 1
def GE : CountryCode := 78 + 1
def GF : CountryCode := 79 + 1
def GG : CountryCode := 80 + 1
def GH : CountryCode := 81 + 1
def GI : CountryCode := 82 + 1
end Isocodes
def Isocodes.GL : Isocodes.CountryCode := 83 + 1
namespace Isocodes
def GM : CountryCode := 84 + 1
def GN : CountryCode := 85 + 1
def GP : CountryCode := 86 + 1
def GQ : CountryCode := 87 + 1
def GR : CountryCode := 88 + 1
def GS : CountryCode := 89 + 1
def GT : CountryCode := 90 + 1
def GU : CountryCode := 91 + 1
def GW : CountryCode := 92 + 1
def GY : CountryCode := 93 + 1
def HK : CountryCode := 94 + 1
def HM : CountryCode := 95 + 1
def HN : CountryCode := 96 + 1
def HR : CountryCode := 97 + 1
def HT : CountryCode := 98 + 1
def HU : CountryCode := 99 + 1
def ID : CountryCode := 100 + 1
def IE : CountryCode := 101 + 1
def IL : CountryCode := 102 + 1
def IM : CountryCode := 103 + 1
def IN : CountryCode := 104 + 1
end Isocodes
def Isocodes.IO : Isocodes.CountryCode := 105 + 1
namespace Isocodes
def IQ : CountryCode := 106 + 1
def IR : CountryCode := 107 + 1
def IS : CountryCode := 108 + 1
def IT : CountryCode := 109 + 1
def JE : CountryCode := 110 + 1
def JM : CountryCode := 111 + 1
def JO : CountryCode := 112 + 1
def JP : CountryCode := 113 + 1
def KE : CountryCode := 114 + 1
def KG : CountryCode := 115 + 1
def KH : CountryCode := 116 + 1
def KI : CountryCode := 117 + 1
def KM : CountryCode := 118 + 1
def KN : CountryCode := 119 + 1
def KP : CountryCode := 120 + 1
def KR : CountryCode := 121 + 1
def KW : CountryCode := 122 + 1
def KY : CountryCode := 123 + 1
def KZ : CountryCode := 124 + 1
def LA : CountryCode := 125 + 1
def LB : CountryCode := 126 + 1
def LC : CountryCode := 127 + 1
def LI : CountryCode := 128 + 1
def LK : CountryCode := 129 + 1
def LR : CountryCode := 130 + 1
def LS : CountryCode := 131 + 1
def LT : CountryCode := 132 + 1
def LU : CountryCode := 133 + 1
def LV : CountryCode := 134 + 1
def LY : CountryCode := 135 + 1
def MA : CountryCode := 136 + 1
def MC : CountryCode := 137 + 1
def MD : CountryCode := 138 + 1
def ME : CountryCode := 139 + 1
def MF : CountryCode := 140 + 1
def MG : CountryCode := 141 + 1
def MH : CountryCode := 142 + 1
def MK : CountryCode := 143 + 1
def ML : CountryCode := 144 + 1
def MM : CountryCode := 145 + 1
def MN : CountryCode := 146 + 1
def MO : CountryCode := 147 + 1
def MP : CountryCode := 148 + 1
def MQ : CountryCode := 149 + 1
def MR : CountryCode := 150 + 1
def MS : CountryCode := 151 + 1
def MT : CountryCode := 152 + 1
def MU : CountryCode := 153 + 1
def MV : CountryCode := 154 + 1
def MW : CountryCode := 155 + 1
def MX : CountryCode := 156 + 1
def MY : CountryCode := 157 + 1
def MZ : CountryCode := 158 + 1
def NA : CountryCode := 159 + 1
def NC : CountryCode := 160 + 1
def NE : CountryCode := 161 + 1
def NF : CountryCode := 162 + 1
def NG : CountryCode := 163 + 1
def NI : CountryCode := 164 + 1
def NL : CountryCode := 165 + 1
def NO : CountryCode := 166 + 1
def NP : CountryCode := 167 + 1
def NR : CountryCode := 168 + 1
def NU : CountryCode := 169 + 1
def NZ : CountryCode := 170 + 1
def OM : CountryCode := 171 + 1
def PA : CountryCode := 172 + 1
def PE : CountryCode := 173 + 1
def PF : CountryCode := 174 + 1
def PG : CountryCode := 175 + 1
def PH : CountryCode := 176 + 1
def PK : CountryCode := 177 + 1
def PL : CountryCode := 178 + 1
def PM : CountryCode := 179 + 1
def PN : CountryCode := 180 + 1
def PR : CountryCode := 181 + 1
def PS : CountryCode := 182 + 1
def PT : CountryCode := 183 + 1
def PW : CountryCode := 184 + 1
def PY : CountryCode := 185 + 1
def QA : CountryCode := 186 + 1
def RE : CountryCode := 187 + 1
def RO : CountryCode := 188 + 1
def RS : CountryCode := 189 + 1
def RU : CountryCode := 190 + 1
def RW : CountryCode := 191 + 1
def SA : CountryCode := 192 + 1
def SB : CountryCode := 193 + 1
def SC : CountryCode := 194 + 1
def SD : CountryCode := 195 + 1
def SE : CountryCode := 196 + 1
def SG : CountryCode := 197 + 1
def SH : CountryCode := 198 + 1
def SI : CountryCode := 199 + 1
def SJ : CountryCode := 200 + 1
def SK : CountryCode := 201 + 1
def SL : CountryCode := 202 + 1
def SM : CountryCode := 203 + 1
def SN : CountryCode := 204 + 1
def SO : CountryCode := 205 + 1
def SR : CountryCode := 206 + 1
def SS : CountryCode := 207 + 1
def ST : CountryCode := 208 + 1
def SV : CountryCode := 209 + 1
def SX : CountryCode := 210 + 1
def SY : CountryCode := 211 + 1
def SZ : CountryCode := 212 + 1
def TC : CountryCode := 213 + 1
def TD : CountryCode := 214 + 1
def TF : CountryCode := 215 + 1
def TG : CountryCode := 216 + 1
def TH : CountryCode := 217 + 1
def TJ : CountryCode := 218 + 1
def TK : CountryCode := 219 + 1
def TL : CountryCode := 220 + 1
def TM : CountryCode := 221 + 1
def TN : CountryCode := 222 + 1
def TO : CountryCode := 223 + 1
def TR : CountryCode := 224 + 1
def TT : CountryCode := 225 + 1
def TV : CountryCode := 226 + 1
def TW : CountryCode := 227 + 1
def TZ : CountryCode := 228 + 1
def UA : CountryCode := 229 + 1
def UG : CountryCode := 230 + 1
def UM : CountryCode := 231 + 1
def US : CountryCode := 232 + 1
def UY : CountryCode := 233 + 1
def UZ : CountryCode := 234 + 1
def VA : CountryCode := 235 + 1
def VC : CountryCode := 236 + 1
def VE : CountryCode := 237 + 1
def VG : CountryCode := 238 + 1
def VI : CountryCode := 239 + 1
def VN : CountryCode := 240 + 1
def VU : CountryCode := 241 + 1
def WF : CountryCode := 242 + 1
def WS : CountryCode := 243 + 1
def YE : CountryCode := 244 + 1
def YT : CountryCode := 245 + 1
def ZA : CountryCode := 246 + 1
def ZM : CountryCode := 247 + 1
def ZW : CountryCode := 248 + 1

set_option maxRecDepth 100000 in
/-- The forward table `countryCodesDetails`. -/
def countryCodesDetails : List (CountryCode × CountryCodeDetails) :=
  (AD, { Alpha2 := lit "AD", Alpha3 := lit "AND", Flag := lit "🇦🇩", Number := lit "020", Name := lit "Andorra" }) ::
  (AE, { Alpha2 := lit "AE", Alpha3 := lit "ARE", Flag := lit "🇦🇪", Number := lit "784", Name := lit "United Arab Emirates" }) ::
  (AF, { Alpha2 := lit "AF", Alpha3 := lit "AFG", Flag := lit "🇦🇫", Number := lit "004", Name := lit "Afghanistan" }) ::
  (AG, { Alpha2 := lit "AG", Alpha3 := lit "ATG", Flag := lit "🇦🇬", Number := lit "028", Name := lit "Antigua and Barbuda" }) ::
  (AI, { Alpha2 := lit "AI", Alpha3 := lit "AIA", Flag := lit "🇦🇮", Number := lit "660", Name := lit "Anguilla" }) ::
  (AL, { Alpha2 := lit "AL", Alpha3 := lit "ALB", Flag := lit "🇦🇱", Number := lit "008", Name := lit "Albania" }) ::
  (AM, { Alpha2 := lit "AM", Alpha3 := lit "ARM", Flag := lit "🇦🇲", Number := lit "051", Name := lit "Armenia" }) ::
  (AO, { Alpha2 := lit "AO", Alpha3 := lit "AGO", Flag := lit "🇦🇴", Number := lit "024", Name := lit "Angola" }) ::
  (AQ, { Alpha2 := lit "AQ", Alpha3 := lit "ATA", Flag := lit "🇦🇶", Number := lit "010", Name := lit "Antarctica" }) ::
  (AR, { Alpha2 := lit "AR", Alpha3 := lit "ARG", Flag := lit "🇦🇷", Number := lit "032", Name := lit "Argentina" }) ::
  (AS, { Alpha2 := lit "AS", Alpha3 := lit "ASM", Flag := lit "🇦🇸", Number := lit "016", Name := lit "American Samoa" }) ::
  (AT, { Alpha2 := lit "AT", Alpha3 := lit "AUT", Flag := lit "🇦🇹", Number := lit "040", Name := lit "Austria" }) ::
  (AU, { Alpha2 := lit "AU", Alpha3 := lit "AUS", Flag := lit "🇦🇺", Number := lit "036", Name := lit "Australia" }) ::
  (AW, { Alpha2 := lit "AW", Alpha3 := lit "ABW", Flag := lit "🇦🇼", Number := lit "533", Name := lit "Aruba" }) ::
  (AX, { Alpha2 := lit "AX", Alpha3 := lit "ALA", Flag := lit "🇦🇽", Number := lit "248", Name := lit "Åland Islands" }) ::
  (AZ, { Alpha2 := lit "AZ", Alpha3 := lit "AZE", Flag := lit "🇦🇿", Number := lit "031", Name := lit "Azerbaijan" }) ::
  (BA, { Alpha2 := lit "BA", Alpha3 := lit "BIH", Flag := lit "🇧🇦", Number := lit "070", Name := lit "Bosnia and Herzegovina" }) ::
  (BB, { Alpha2 := lit "BB", Alpha3 := lit "BRB", Flag := lit "🇧🇧", Number := lit "052", Name := lit "Barbados" }) ::
  (BD, { Alpha2 := lit "BD", Alpha3 := lit "BGD", Flag := lit "🇧🇩", Number := lit "050", Name := lit "Bangladesh" }) ::
  (BE, { Alpha2 := lit "BE", Alpha3 := lit "BEL", Flag := lit "🇧🇪", Number := lit "056", Name := lit "Belgium" }) ::
  (BF, { Alpha2 := lit "BF", Alpha3 := lit "BFA", Flag := lit "🇧🇫", Number := lit "854", Name := lit "Burkina Faso" }) ::
  (BG, { Alpha2 := lit "BG", Alpha3 := lit "BGR", Flag := lit "🇧🇬", Number := lit "100", Name := lit "Bulgaria" }) ::
  (BH, { Alpha2 := lit "BH", Alpha3 := lit "BHR", Flag := lit "🇧🇭", Number := lit "048", Name := lit "Bahrain" }) ::
  (BI, { Alpha2 := lit "BI", Alpha3 := lit "BDI", Flag := lit "🇧🇮", Number := lit "108", Name := lit "Burundi" }) ::
  (BJ, { Alpha2 := lit "BJ", Alpha3 := lit "BEN", Flag := lit "🇧🇯", Number := lit "204", Name := lit "Benin" }) ::
  (BL, { Alpha2 := lit "BL", Alpha3 := lit "BLM", Flag := lit "🇧🇱", Number := lit "652", Name := lit "Saint Barthélemy" }) ::
  (BM, { Alpha2 := lit "BM", Alpha3 := lit "BMU", Flag := lit "🇧🇲", Number := lit "060", Name := lit "Bermuda" }) ::
  (BN, { Alpha2 := lit "BN", Alpha3 := lit "BRN", Flag := lit "🇧🇳", Number := lit "096", Name := lit "Brunei Darussalam" }) ::
  (BO, { Alpha2 := lit "BO", Alpha3 := lit "BOL", Flag := lit "🇧🇴", Number := lit "068", Name := lit "Bolivia (Plurinational State of)" }) ::
  (BQ, { Alpha2 := lit "BQ", Alpha3 := lit "BES", Flag := lit "🇧🇶", Number := lit "535", Name := lit "Bonaire, Sint Eustatius and Saba" }) ::
  (BR, { Alpha2 := lit "BR", Alpha3 := lit "BRA", Flag := lit "🇧🇷", Number := lit "076", Name := lit "Brazil" }) ::
  (BS, { Alpha2 := lit "BS", Alpha3 := lit "BHS", Flag := lit "🇧🇸", Number := lit "044", Name := lit "Bahamas" }) ::
  (BT, { Alpha2 := lit "BT", Alpha3 := lit "BTN", Flag := lit "🇧🇹", Number := lit "064", Name := lit "Bhutan" }) ::
  (BV, { Alpha2 := lit "BV", Alpha3 := lit "BVT", Flag := lit "🇧🇻", Number := lit "074", Name := lit "Bouvet Island" }) ::
  (BW, { Alpha2 := lit "BW", Alpha3 := lit "BWA", Flag := lit "🇧🇼", Number := lit "072", Name := lit "Botswana" }) ::
  (BY, { Alpha2 := lit "BY", Alpha3 := lit "BLR", Flag := lit "🇧🇾", Number := lit "112", Name := lit "Belarus" }) ::
  (BZ, { Alpha2 := lit "BZ", Alpha3 := lit "BLZ", Flag := lit "🇧🇿", Number := lit "084", Name := lit "Belize" }) ::
  (CA, { Alpha2 := lit "CA", Alpha3 := lit "CAN", Flag := lit "🇨🇦", Number := lit "124", Name := lit "Canada" }) ::
  (CC, { Alpha2 := lit "CC", Alpha3 := lit "CCK", Flag := lit "🇨🇨", Number := lit "166", Name := lit "Cocos (Keeling) Islands" }) ::
  (CD, { Alpha2 := lit "CD", Alpha3 := lit "COD", Flag := lit "🇨🇩", Number := lit "180", Name := lit "Congo, Democratic Republic of the" }) ::
  (CF, { Alpha2 := lit "CF", Alpha3 := lit "CAF", Flag := lit "🇨🇫", Number := lit "140", Name := lit "Central African Republic" }) ::
  (CG, { Alpha2 := lit "CG", Alpha3 := lit "COG", Flag := lit "🇨🇬", Number := lit "178", Name := lit "Congo" }) ::
  (CH, { Alpha2 := lit "CH", Alpha3 := lit "CHE", Flag := lit "🇨🇭", Number := lit "756", Name := lit "Switzerland" }) ::
  (CI, { Alpha2 := lit "CI", Alpha3 := lit "CIV", Flag := lit "🇨🇮", Number := lit "384", Name := lit "Côte d'Ivoire" }) ::
  (CK, { Alpha2 := lit "CK", Alpha3 := lit "COK", Flag := lit "🇨🇰", Number := lit "184", Name := lit "Cook Islands" }) ::
  (CL, { Alpha2 := lit "CL", Alpha3 := lit "CHL", Flag := lit "🇨🇱", Number := lit "152", Name := lit "Chile" }) ::
  (CM, { Alpha2 := lit "CM", Alpha3 := lit "CMR", Flag := lit "🇨🇲", Number := lit "120", Name := lit "Cameroon" }) ::
  (CN, { Alpha2 := lit "CN", Alpha3 := lit "CHN", Flag := lit "🇨🇳", Number := lit "156", Name := lit "China" }) ::
  (CO, { Alpha2 := lit "CO", Alpha3 := lit "COL", Flag := lit "🇨🇴", Number := lit "170", Name := lit "Colombia" }) ::
  (CR, { Alpha2 := lit "CR", Alpha3 := lit "CRI", Flag := lit "🇨🇷", Number := lit "188", Name := lit "Costa Rica" }) ::
  (CU, { Alpha2 := lit "CU", Alpha3 := lit "CUB", Flag := lit "🇨🇺", Number := lit "192", Name := lit "Cuba" }) ::
  (CV, { Alpha2 := lit "CV", Alpha3 := lit "CPV", Flag := lit "🇨🇻", Number := lit "132", Name := lit "Cabo Verde" }) ::
  (CW, { Alpha2 := lit "CW", Alpha3 := lit "CUW", Flag := lit "🇨🇼", Number := lit "531", Name := lit "Curaçao" }) ::
  (CX, { Alpha2 := lit "CX", Alpha3 := lit "CXR", Flag := lit "🇨🇽", Number := lit "162", Name := lit "Christmas Island" }) ::
  (CY, { Alpha2 := lit "CY", Alpha3 := lit "CYP", Flag := lit "🇨🇾", Number := lit "196", Name := lit "Cyprus" }) ::
  (CZ, { Alpha2 := lit "CZ", Alpha3 := lit "CZE", Flag := lit "🇨🇿", Number := lit "203", Name := lit "Czechia" }) ::
  (DE, { Alpha2 := lit "DE", Alpha3 := lit "DEU", Flag := lit "🇩🇪", Number := lit "276", Name := lit "Germany" }) ::
  (DJ, { Alpha2 := lit "DJ", Alpha3 := lit "DJI", Flag := lit "🇩🇯", Number := lit "262", Name := lit "Djibouti" }) ::
  (DK, { Alpha2 := lit "DK", Alpha3 := lit "DNK", Flag := lit "🇩🇰", Number := lit "208", Name := lit "Denmark" }) ::
  (DM, { Alpha2 := lit "DM", Alpha3 := lit "DMA", Flag := lit "🇩🇲", Number := lit "212", Name := lit "Dominica" }) ::
  (DO, { Alpha2 := lit "DO", Alpha3 := lit "DOM", Flag := lit "🇩🇴", Number := lit "214", Name := lit "Dominican Republic" }) ::
  (DZ, { Alpha2 := lit "DZ", Alpha3 := lit "DZA", Flag := lit "🇩🇿", Number := lit "012", Name := lit "Algeria" }) ::
  (EC, { Alpha2 := lit "EC", Alpha3 := lit "ECU", Flag := lit "🇪🇨", Number := lit "218", Name := lit "Ecuador" }) ::
  (EE, { Alpha2 := lit "EE", Alpha3 := lit "EST", Flag := lit "🇪🇪", Number := lit "233", Name := lit "Estonia" }) ::
  (EG, { Alpha2 := lit "EG", Alpha3 := lit "EGY", Flag := lit "🇪🇬", Number := lit "818", Name := lit "Egypt" }) ::
  (EH, { Alpha2 := lit "EH", Alpha3 := lit "ESH", Flag := lit "🇪🇭", Number := lit "732", Name := lit "Western Sahara" }) ::
  (ER, { Alpha2 := lit "ER", Alpha3 := lit "ERI", Flag := lit "🇪🇷", Number := lit "232", Name := lit "Eritrea" }) ::
  (ES, { Alpha2 := lit "ES", Alpha3 := lit "ESP", Flag := lit "🇪🇸", Number := lit "724", Name := lit "Spain" }) ::
  (ET, { Alpha2 := lit "ET", Alpha3 := lit "ETH", Flag := lit "🇪🇹", Number := lit "231", Name := lit "Ethiopia" }) ::
  (FI, { Alpha2 := lit "FI", Alpha3 := lit "FIN", Flag := lit "🇫🇮", Number := lit "246", Name := lit "Finland" }) ::
  (FJ, { Alpha2 := lit "FJ", Alpha3 := lit "FJI", Flag := lit "🇫🇯", Number := lit "242", Name := lit "Fiji" }) ::
  (FK, { Alpha2 := lit "FK", Alpha3 := lit "FLK", Flag := lit "🇫🇰", Number := lit "238", Name := lit "Falkland Islands (Malvinas)" }) ::
  (FM, { Alpha2 := lit "FM", Alpha3 := lit "FSM", Flag := lit "🇫🇲", Number := lit "583", Name := lit "Micronesia (Federated States of)" }) ::
  (FO, { Alpha2 := lit "FO", Alpha3 := lit "FRO", Flag := lit "🇫🇴", Number := lit "234", Name := lit "Faroe Islands" }) ::
  (FR, { Alpha2 := lit "FR", Alpha3 := lit "FRA", Flag := lit "🇫🇷", Number := lit "250", Name := lit "France" }) ::
  (GA, { Alpha2 := lit "GA", Alpha3 := lit "GAB", Flag := lit "🇬🇦", Number := lit "266", Name := lit "Gabon" }) ::
  (GB, { Alpha2 := lit "GB", Alpha3 := lit "GBR", Flag := lit "🇬🇧", Number := lit "826", Name := lit "United Kingdom of Great Britain and Northern Ireland" }) ::
  (GD, { Alpha2 := lit "GD", Alpha3 := lit "GRD", Flag := lit "🇬🇩", Number := lit "308", Name := lit "Grenada" }) ::
  (GE, { Alpha2 := lit "GE", Alpha3 := lit "GEO", Flag := lit "🇬🇪", Number := lit "268", Name := lit "Georgia" }) ::
  (GF, { Alpha2 := lit "GF", Alpha3 := lit "GUF", Flag := lit "🇬🇫", Number := lit "254", Name := lit "French Guiana" }) ::
  (GG, { Alpha2 := lit "GG", Alpha3 := lit "GGY", Flag := lit "🇬🇬", Number := lit "831", Name := lit "Guernsey" }) ::
  (GH, { Alpha2 := lit "GH", Alpha3 := lit "GHA", Flag := lit "🇬🇭", Number := lit "288", Name := lit "Ghana" }) ::
  (GI, { Alpha2 := lit "GI", Alpha3 := lit "GIB", Flag := lit "🇬🇮", Number := lit "292", Name := lit "Gibraltar" }) ::
  ( Isocodes.GL, { Alpha2 := lit "GL", Alpha3 := lit "GRL", Flag := lit "🇬🇱", Number := lit "304", Name := lit "Greenland" }) ::
  (GM, { Alpha2 := lit "GM", Alpha3 := lit "GMB", Flag := lit "🇬🇲", Number := lit "270", Name := lit "Gambia" }) ::
  (GN, { Alpha2 := lit "GN", Alpha3 := lit "GIN", Flag := lit "🇬🇳", Number := lit "324", Name := lit "Guinea" }) ::
  (GP, { Alpha2 := lit "GP", Alpha3 := lit "GLP", Flag := lit "🇬🇵", Number := lit "312", Name := lit "Guadeloupe" }) ::
  (GQ, { Alpha2 := lit "GQ", Alpha3 := lit "GNQ", Flag := lit "🇬🇶", Number := lit "226", Name := lit "Equatorial Guinea" }) ::
  (GR, { Alpha2 := lit "GR", Alpha3 := lit "GRC", Flag := lit "🇬🇷", Number := lit "300", Name := lit "Greece" }) ::
  (GS, { Alpha2 := lit "GS", Alpha3 := lit "SGS", Flag := lit "🇬🇸", Number := lit "239", Name := lit "South Georgia and the South Sandwich Islands" }) ::
  (GT, { Alpha2 := lit "GT", Alpha3 := lit "GTM", Flag := lit "🇬🇹", Number := lit "320", Name := lit "Guatemala" }) ::
  (GU, { Alpha2 := lit "GU", Alpha3 := lit "GUM", Flag := lit "🇬🇺", Number := lit "316", Name := lit "Guam" }) ::
  (GW, { Alpha2 := lit "GW", Alpha3 := lit "GNB", Flag := lit "🇬🇼", Number := lit "624", Name := lit "Guinea-Bissau" }) ::
  (GY, { Alpha2 := lit "GY", Alpha3 := lit "GUY", Flag := lit "🇬🇾", Number := lit "328", Name := lit "Guyana" }) ::
  (HK, { Alpha2 := lit "HK", Alpha3 := lit "HKG", Flag := lit "🇭🇰", Number := lit "344", Name := lit "Hong Kong" }) ::
  (HM, { Alpha2 := lit "HM", Alpha3 := lit "HMD", Flag := lit "🇭🇲", Number := lit "334", Name := lit "Heard Island and McDonald Islands" }) ::
  (HN, { Alpha2 := lit "HN", Alpha3 := lit "HND", Flag := lit "🇭🇳", Number := lit "340", Name := lit "Honduras" }) ::
  (HR, { Alpha2 := lit "HR", Alpha3 := lit "HRV", Flag := lit "🇭🇷", Number := lit "191", Name := lit "Croatia" }) ::
  (HT, { Alpha2 := lit "HT", Alpha3 := lit "HTI", Flag := lit "🇭🇹", Number := lit "332", Name := lit "Haiti" }) ::
  (HU, { Alpha2 := lit "HU", Alpha3 := lit "HUN", Flag := lit "🇭🇺", Number := lit "348", Name := lit "Hungary" }) ::
  (ID, { Alpha2 := lit "ID", Alpha3 := lit "IDN", Flag := lit "🇮🇩", Number := lit "360", Name := lit "Indonesia" }) ::
  (IE, { Alpha2 := lit "IE", Alpha3 := lit "IRL", Flag := lit "🇮🇪", Number := lit "372", Name := lit "Ireland" }) ::
  (IL, { Alpha2 := lit "IL", Alpha3 := lit "ISR", Flag := lit "🇮🇱", Number := lit "376", Name := lit "Israel" }) ::
  (IM, { Alpha2 := lit "IM", Alpha3 := lit "IMN", Flag := lit "🇮🇲", Number := lit "833", Name := lit "Isle of Man" }) ::
  (IN, { Alpha2 := lit "IN", Alpha3 := lit "IND", Flag := lit "🇮🇳", Number := lit "356", Name := lit "India" }) ::
  ( Isocodes.IO, { Alpha2 := lit "IO", Alpha3 := lit "IOT", Flag := lit "🇮🇴", Number := lit "086", Name := lit "British Indian Ocean Territory" }) ::
  (IQ, { Alpha2 := lit "IQ", Alpha3 := lit "IRQ", Flag := lit "🇮🇶", Number := lit "368", Name := lit "Iraq" }) ::
  (IR, { Alpha2 := lit "IR", Alpha3 := lit "IRN", Flag := lit "🇮🇷", Number := lit "364", Name := lit "Iran (Islamic Republic of)" }) ::
  (IS, { Alpha2 := lit "IS", Alpha3 := lit "ISL", Flag := lit "🇮🇸", Number := lit "352", Name := lit "Iceland" }) ::
  (IT, { Alpha2 := lit "IT", Alpha3 := lit "ITA", Flag := lit "🇮🇹", Number := lit "380", Name := lit "Italy" }) ::
  (JE, { Alpha2 := lit "JE", Alpha3 := lit "JEY", Flag := lit "🇯🇪", Number := lit "832", Name := lit "Jersey" }) ::
  (JM, { Alpha2 := lit "JM", Alpha3 := lit "JAM", Flag := lit "🇯🇲", Number := lit "388", Name := lit "Jamaica" }) ::
  (JO, { Alpha2 := lit "JO", Alpha3 := lit "JOR", Flag := lit "🇯🇴", Number := lit "400", Name := lit "Jordan" }) ::
  (JP, { Alpha2 := lit "JP", Alpha3 := lit "JPN", Flag := lit "🇯🇵", Number := lit "392", Name := lit "Japan" }) ::
  (KE, { Alpha2 := lit "KE", Alpha3 := lit "KEN", Flag := lit "🇰🇪", Number := lit "404", Name := lit "Kenya" }) ::
  (KG, { Alpha2 := lit "KG", Alpha3 := lit "KGZ", Flag := lit "🇰🇬", Number := lit "417", Name := lit "Kyrgyzstan" }) ::
  (KH, { Alpha2 := lit "KH", Alpha3 := lit "KHM", Flag := lit "🇰🇭", Number := lit "116", Name := lit "Cambodia" }) ::
  (KI, { Alpha2 := lit "KI", Alpha3 := lit "KIR", Flag := lit "🇰🇮", Number := lit "296", Name := lit "Kiribati" }) ::
  (KM, { Alpha2 := lit "KM", Alpha3 := lit "COM", Flag := lit "🇰🇲", Number := lit "174", Name := lit "Comoros" }) ::
  (KN, { Alpha2 := lit "KN", Alpha3 := lit "KNA", Flag := lit "🇰🇳", Number := lit "659", Name := lit "Saint Kitts and Nevis" }) ::
  (KP, { Alpha2 := lit "KP", Alpha3 := lit "PRK", Flag := lit "🇰🇵", Number := lit "408", Name := lit "Korea (Democratic People's Republic of)" }) ::
  (KR, { Alpha2 := lit "KR", Alpha3 := lit "KOR", Flag := lit "🇰🇷", Number := lit "410", Name := lit "Korea, Republic of" }) ::
  (KW, { Alpha2 := lit "KW", Alpha3 := lit "KWT", Flag := lit "🇰🇼", Number := lit "414", Name := lit "Kuwait" }) ::
  (KY, { Alpha2 := lit "KY", Alpha3 := lit "CYM", Flag := lit "🇰🇾", Number := lit "136", Name := lit "Cayman Islands" }) ::
  (KZ, { Alpha2 := lit "KZ", Alpha3 := lit "KAZ", Flag := lit "🇰🇿", Number := lit "398", Name := lit "Kazakhstan" }) ::
  (LA, { Alpha2 := lit "LA", Alpha3 := lit "LAO", Flag := lit "🇱🇦", Number := lit "418", Name := lit "Lao People's Democratic Republic" }) ::
  (LB, { Alpha2 := lit "LB", Alpha3 := lit "LBN", Flag := lit "🇱🇧", Number := lit "422", Name := lit "Lebanon" }) ::
  (LC, { Alpha2 := lit "LC", Alpha3 := lit "LCA", Flag := lit "🇱🇨", Number := lit "662", Name := lit "Saint Lucia" }) ::
  (LI, { Alpha2 := lit "LI", Alpha3 := lit "LIE", Flag := lit "🇱🇮", Number := lit "438", Name := lit "Liechtenstein" }) ::
  (LK, { Alpha2 := lit "LK", Alpha3 := lit "LKA", Flag := lit "🇱🇰", Number := lit "144", Name := lit "Sri Lanka" }) ::
  (LR, { Alpha2 := lit "LR", Alpha3 := lit "LBR", Flag := lit "🇱🇷", Number := lit "430", Name := lit "Liberia" }) ::
  (LS, { Alpha2 := lit "LS", Alpha3 := lit "LSO", Flag := lit "🇱🇸", Number := lit "426", Name := lit "Lesotho" }) ::
  (LT, { Alpha2 := lit "LT", Alpha3 := lit "LTU", Flag := lit "🇱🇹", Number := lit "440", Name := lit "Lithuania" }) ::
  (LU, { Alpha2 := lit "LU", Alpha3 := lit "LUX", Flag := lit "🇱🇺", Number := lit "442", Name := lit "Luxembourg" }) ::
  (LV, { Alpha2 := lit "LV", Alpha3 := lit "LVA", Flag := lit "🇱🇻", Number := lit "428", Name := lit "Latvia" }) ::
  (LY, { Alpha2 := lit "LY", Alpha3 := lit "LBY", Flag := lit "🇱🇾", Number := lit "434", Name := lit "Libya" }) ::
  (MA, { Alpha2 := lit "MA", Alpha3 := lit "MAR", Flag := lit "🇲🇦", Number := lit "504", Name := lit "Morocco" }) ::
  (MC, { Alpha2 := lit "MC", Alpha3 := lit "MCO", Flag := lit "🇲🇨", Number := lit "492", Name := lit "Monaco" }) ::
  (MD, { Alpha2 := lit "MD", Alpha3 := lit "MDA", Flag := lit "🇲🇩", Number := lit "498", Name := lit "Moldova, Republic of" }) ::
  (ME, { Alpha2 := lit "ME", Alpha3 := lit "MNE", Flag := lit "🇲🇪", Number := lit "499", Name := lit "Montenegro" }) ::
  (MF, { Alpha2 := lit "MF", Alpha3 := lit "MAF", Flag := lit "🇲🇫", Number := lit "663", Name := lit "Saint Martin (French part)" }) ::
  (MG, { Alpha2 := lit "MG", Alpha3 := lit "MDG", Flag := lit "🇲🇬", Number := lit "450", Name := lit "Madagascar" }) ::
  (MH, { Alpha2 := lit "MH", Alpha3 := lit "MHL", Flag := lit "🇲🇭", Number := lit "584", Name := lit "Marshall Islands" }) ::
  (MK, { Alpha2 := lit "MK", Alpha3 := lit "MKD", Flag := lit "🇲🇰", Number := lit "807", Name := lit "North Macedonia" }) ::
  (ML, { Alpha2 := lit "ML", Alpha3 := lit "MLI", Flag := lit "🇲🇱", Number := lit "466", Name := lit "Mali" }) ::
  (MM, { Alpha2 := lit "MM", Alpha3 := lit "MMR", Flag := lit "🇲🇲", Number := lit "104", Name := lit "Myanmar" }) ::
  (MN, { Alpha2 := lit "MN", Alpha3 := lit "MNG", Flag := lit "🇲🇳", Number := lit "496", Name := lit "Mongolia" }) ::
  (MO, { Alpha2 := lit "MO", Alpha3 := lit "MAC", Flag := lit "🇲🇴", Number := lit "446", Name := lit "Macao" }) ::
  (MP, { Alpha2 := lit "MP", Alpha3 := lit "MNP", Flag := lit "🇲🇵", Number := lit "580", Name := lit "Northern Mariana Islands" }) ::
  (MQ, { Alpha2 := lit "MQ", Alpha3 := lit "MTQ", Flag := lit "🇲🇶", Number := lit "474", Name := lit "Martinique" }) ::
  (MR, { Alpha2 := lit "MR", Alpha3 := lit "MRT", Flag := lit "🇲🇷", Number := lit "478", Name := lit "Mauritania" }) ::
  (MS, { Alpha2 := lit "MS", Alpha3 := lit "MSR", Flag := lit "🇲🇸", Number := lit "500", Name := lit "Montserrat" }) ::
  (MT, { Alpha2 := lit "MT", Alpha3 := lit "MLT", Flag := lit "🇲🇹", Number := lit "470", Name := lit "Malta" }) ::
  (MU, { Alpha2 := lit "MU", Alpha3 := lit "MUS", Flag := lit "🇲🇺", Number := lit "480", Name := lit "Mauritius" }) ::
  (MV, { Alpha2 := lit "MV", Alpha3 := lit "MDV", Flag := lit "🇲🇻", Number := lit "462", Name := lit "Maldives" }) ::
  (MW, { Alpha2 := lit "MW", Alpha3 := lit "MWI", Flag := lit "🇲🇼", Number := lit "454", Name := lit "Malawi" }) ::
  (MX, { Alpha2 := lit "MX", Alpha3 := lit "MEX", Flag := lit "🇲🇽", Number := lit "484", Name := lit "Mexico" }) ::
  (MY, { Alpha2 := lit "MY", Alpha3 := lit "MYS", Flag := lit "🇲🇾", Number := lit "458", Name := lit "Malaysia" }) ::
  (MZ, { Alpha2 := lit "MZ", Alpha3 := lit "MOZ", Flag := lit "🇲🇿", Number := lit "508", Name := lit "Mozambique" }) ::
  (NA, { Alpha2 := lit "NA", Alpha3 := lit "NAM", Flag := lit "🇳🇦", Number := lit "516", Name := lit "Namibia" }) ::
  (NC, { Alpha2 := lit "NC", Alpha3 := lit "NCL", Flag := lit "🇳🇨", Number := lit "540", Name := lit "New Caledonia" }) ::
  (NE, { Alpha2 := lit "NE", Alpha3 := lit "NER", Flag := lit "🇳🇪", Number := lit "562", Name := lit "Niger" }) ::
  (NF, { Alpha2 := lit "NF", Alpha3 := lit "NFK", Flag := lit "🇳🇫", Number := lit "574", Name := lit "Norfolk Island" }) ::
  (NG, { Alpha2 := lit "NG", Alpha3 := lit "NGA", Flag := lit "🇳🇬", Number := lit "566", Name := lit "Nigeria" }) ::
  (NI, { Alpha2 := lit "NI", Alpha3 := lit "NIC", Flag := lit "🇳🇮", Number := lit "558", Name := lit "Nicaragua" }) ::
  (NL, { Alpha2 := lit "NL", Alpha3 := lit "NLD", Flag := lit "🇳🇱", Number := lit "528", Name := lit "Netherlands" }) ::
  (NO, { Alpha2 := lit "NO", Alpha3 := lit "NOR", Flag := lit "🇳🇴", Number := lit "578", Name := lit "Norway" }) ::
  (NP, { Alpha2 := lit "NP", Alpha3 := lit "NPL", Flag := lit "🇳🇵", Number := lit "524", Name := lit "Nepal" }) ::
  (NR, { Alpha2 := lit "NR", Alpha3 := lit "NRU", Flag := lit "🇳🇷", Number := lit "520", Name := lit "Nauru" }) ::
  (NU, { Alpha2 := lit "NU", Alpha3 := lit "NIU", Flag := lit "🇳🇺", Number := lit "570", Name := lit "Niue" }) ::
  (NZ, { Alpha2 := lit "NZ", Alpha3 := lit "NZL", Flag := lit "🇳🇿", Number := lit "554", Name := lit "New Zealand" }) ::
  (OM, { Alpha2 := lit "OM", Alpha3 := lit "OMN", Flag := lit "🇴🇲", Number := lit "512", Name := lit "Oman" }) ::
  (PA, { Alpha2 := lit "PA", Alpha3 := lit "PAN", Flag := lit "🇵🇦", Number := lit "591", Name := lit "Panama" }) ::
  (PE, { Alpha2 := lit "PE", Alpha3 := lit "PER", Flag := lit "🇵🇪", Number := lit "604", Name := lit "Peru" }) ::
  (PF, { Alpha2 := lit "PF", Alpha3 := lit "PYF", Flag := lit "🇵🇫", Number := lit "258", Name := lit "French Polynesia" }) ::
  (PG, { Alpha2 := lit "PG", Alpha3 := lit "PNG", Flag := lit "🇵🇬", Number := lit "598", Name := lit "Papua New Guinea" }) ::
  (PH, { Alpha2 := lit "PH", Alpha3 := lit "PHL", Flag := lit "🇵🇭", Number := lit "608", Name := lit "Philippines" }) ::
  (PK, { Alpha2 := lit "PK", Alpha3 := lit "PAK", Flag := lit "🇵🇰", Number := lit "586", Name := lit "Pakistan" }) ::
  (PL, { Alpha2 := lit "PL", Alpha3 := lit "POL", Flag := lit "🇵🇱", Number := lit "616", Name := lit "Poland" }) ::
  (PM, { Alpha2 := lit "PM", Alpha3 := lit "SPM", Flag := lit "🇵🇲", Number := lit "666", Name := lit "Saint Pierre and Miquelon" }) ::
  (PN, { Alpha2 := lit "PN", Alpha3 := lit "PCN", Flag := lit "🇵🇳", Number := lit "612", Name := lit "Pitcairn" }) ::
  (PR, { Alpha2 := lit "PR", Alpha3 := lit "PRI", Flag := lit "🇵🇷", Number := lit "630", Name := lit "Puerto Rico" }) ::
  (PS, { Alpha2 := lit "PS", Alpha3 := lit "PSE", Flag := lit "🇵🇸", Number := lit "275", Name := lit "Palestine, State of" }) ::
  (PT, { Alpha2 := lit "PT", Alpha3 := lit "PRT", Flag := lit "🇵🇹", Number := lit "620", Name := lit "Portugal" }) ::
  (PW, { Alpha2 := lit "PW", Alpha3 := lit "PLW", Flag := lit "🇵🇼", Number := lit "585", Name := lit "Palau" }) ::
  (PY, { Alpha2 := lit "PY", Alpha3 := lit "PRY", Flag := lit "🇵🇾", Number := lit "600", Name := lit "Paraguay" }) ::
  (QA, { Alpha2 := lit "QA", Alpha3 := lit "QAT", Flag := lit "🇶🇦", Number := lit "634", Name := lit "Qatar" }) ::
  (RE, { Alpha2 := lit "RE", Alpha3 := lit "REU", Flag := lit "🇷🇪", Number := lit "638", Name := lit "Réunion" }) ::
  (RO, { Alpha2 := lit "RO", Alpha3 := lit "ROU", Flag := lit "🇷🇴", Number := lit "642", Name := lit "Romania" }) ::
  (RS, { Alpha2 := lit "RS", Alpha3 := lit "SRB", Flag := lit "🇷🇸", Number := lit "688", Name := lit "Serbia" }) ::
  (RU, { Alpha2 := lit "RU", Alpha3 := lit "RUS", Flag := lit "🇷🇺", Number := lit "643", Name := lit "Russian Federation" }) ::
  (RW, { Alpha2 := lit "RW", Alpha3 := lit "RWA", Flag := lit "🇷🇼", Number := lit "646", Name := lit "Rwanda" }) ::
  (SA, { Alpha2 := lit "SA", Alpha3 := lit "SAU", Flag := lit "🇸🇦", Number := lit "682", Name := lit "Saudi Arabia" }) ::
  (SB, { Alpha2 := lit "SB", Alpha3 := lit "SLB", Flag := lit "🇸🇧", Number := lit "090", Name := lit "Solomon Islands" }) ::
  (SC, { Alpha2 := lit "SC", Alpha3 := lit "SYC", Flag := lit "🇸🇨", Number := lit "690", Name := lit "Seychelles" }) ::
  (SD, { Alpha2 := lit "SD", Alpha3 := lit "SDN", Flag := lit "🇸🇩", Number := lit "729", Name := lit "Sudan" }) ::
  (SE, { Alpha2 := lit "SE", Alpha3 := lit "SWE", Flag := lit "🇸🇪", Number := lit "752", Name := lit "Sweden" }) ::
  (SG, { Alpha2 := lit "SG", Alpha3 := lit "SGP", Flag := lit "🇸🇬", Number := lit "702", Name := lit "Singapore" }) ::
  (SH, { Alpha2 := lit "SH", Alpha3 := lit "SHN", Flag := lit "🇸🇭", Number := lit "654", Name := lit "Saint Helena, Ascension and Tristan da Cunha" }) ::
  (SI, { Alpha2 := lit "SI", Alpha3 := lit "SVN", Flag := lit "🇸🇮", Number := lit "705", Name := lit "Slovenia" }) ::
  (SJ, { Alpha2 := lit "SJ", Alpha3 := lit "SJM", Flag := lit "🇸🇯", Number := lit "744", Name := lit "Svalbard and Jan Mayen" }) ::
  (SK, { Alpha2 := lit "SK", Alpha3 := lit "SVK", Flag := lit "🇸🇰", Number := lit "703", Name := lit "Slovakia" }) ::
  (SL, { Alpha2 := lit "SL", Alpha3 := lit "SLE", Flag := lit "🇸🇱", Number := lit "694", Name := lit "Sierra Leone" }) ::
  (SM, { Alpha2 := lit "SM", Alpha3 := lit "SMR", Flag := lit "🇸🇲", Number := lit "674", Name := lit "San Marino" }) ::
  (SN, { Alpha2 := lit "SN", Alpha3 := lit "SEN", Flag := lit "🇸🇳", Number := lit "686", Name := lit "Senegal" }) ::
  (SO, { Alpha2 := lit "SO", Alpha3 := lit "SOM", Flag := lit "🇸🇴", Number := lit "706", Name := lit "Somalia" }) ::
  (SR, { Alpha2 := lit "SR", Alpha3 := lit "SUR", Flag := lit "🇸🇷", Number := lit "740", Name := lit "Suriname" }) ::
  (SS, { Alpha2 := lit "SS", Alpha3 := lit "SSD", Flag := lit "🇸🇸", Number := lit "728", Name := lit "South Sudan" }) ::
  (ST, { Alpha2 := lit "ST", Alpha3 := lit "STP", Flag := lit "🇸🇹", Number := lit "678", Name := lit "Sao Tome and Principe" }) ::
  (SV, { Alpha2 := lit "SV", Alpha3 := lit "SLV", Flag := lit "🇸🇻", Number := lit "222", Name := lit "El Salvador" }) ::
  (SX, { Alpha2 := lit "SX", Alpha3 := lit "SXM", Flag := lit "🇸🇽", Number := lit "534", Name := lit "Sint Maarten (Dutch part)" }) ::
  (SY, { Alpha2 := lit "SY", Alpha3 := lit "SYR", Flag := lit "🇸🇾", Number := lit "760", Name := lit "Syrian Arab Republic" }) ::
  (SZ, { Alpha2 := lit "SZ", Alpha3 := lit "SWZ", Flag := lit "🇸🇿", Number := lit "748", Name := lit "Eswatini" }) ::
  (TC, { Alpha2 := lit "TC", Alpha3 := lit "TCA", Flag := lit "🇹🇨", Number := lit "796", Name := lit "Turks and Caicos Islands" }) ::
  (TD, { Alpha2 := lit "TD", Alpha3 := lit "TCD", Flag := lit "🇹🇩", Number := lit "148", Name := lit "Chad" }) ::
  (TF, { Alpha2 := lit "TF", Alpha3 := lit "ATF", Flag := lit "🇹🇫", Number := lit "260", Name := lit "French Southern Territories" }) ::
  (TG, { Alpha2 := lit "TG", Alpha3 := lit "TGO", Flag := lit "🇹🇬", Number := lit "768", Name := lit "Togo" }) ::
  (TH, { Alpha2 := lit "TH", Alpha3 := lit "THA", Flag := lit "🇹🇭", Number := lit "764", Name := lit "Thailand" }) ::
  (TJ, { Alpha2 := lit "TJ", Alpha3 := lit "TJK", Flag := lit "🇹🇯", Number := lit "762", Name := lit "Tajikistan" }) ::
  (TK, { Alpha2 := lit "TK", Alpha3 := lit "TKL", Flag := lit "🇹🇰", Number := lit "772", Name := lit "Tokelau" }) ::
  (TL, { Alpha2 := lit "TL", Alpha3 := lit "TLS", Flag := lit "🇹🇱", Number := lit "626", Name := lit "Timor-Leste" }) ::
  (TM, { Alpha2 := lit "TM", Alpha3 := lit "TKM", Flag := lit "🇹🇲", Number := lit "795", Name := lit "Turkmenistan" }) ::
  (TN, { Alpha2 := lit "TN", Alpha3 := lit "TUN", Flag := lit "🇹🇳", Number := lit "788", Name := lit "Tunisia" }) ::
  (TO, { Alpha2 := lit "TO", Alpha3 := lit "TON", Flag := lit "🇹🇴", Number := lit "776", Name := lit "Tonga" }) ::
  (TR, { Alpha2 := lit "TR", Alpha3 := lit "TUR", Flag := lit "🇹🇷", Number := lit "792", Name := lit "Turkey" }) ::
  (TT, { Alpha2 := lit "TT", Alpha3 := lit "TTO", Flag := lit "🇹🇹", Number := lit "780", Name := lit "Trinidad and Tobago" }) ::
  (TV, { Alpha2 := lit "TV", Alpha3 := lit "TUV", Flag := lit "🇹🇻", Number := lit "798", Name := lit "Tuvalu" }) ::
  (TW, { Alpha2 := lit "TW", Alpha3 := lit "TWN", Flag := lit "🇹🇼", Number := lit "158", Name := lit "Taiwan, Province of China" }) ::
  (TZ, { Alpha2 := lit "TZ", Alpha3 := lit "TZA", Flag := lit "🇹🇿", Number := lit "834", Name := lit "Tanzania, United Republic of" }) ::
  (UA, { Alpha2 := lit "UA", Alpha3 := lit "UKR", Flag := lit "🇺🇦", Number := lit "804", Name := lit "Ukraine" }) ::
  (UG, { Alpha2 := lit "UG", Alpha3 := lit "UGA", Flag := lit "🇺🇬", Number := lit "800", Name := lit "Uganda" }) ::
  (UM, { Alpha2 := lit "UM", Alpha3 := lit "UMI", Flag := lit "🇺🇲", Number := lit "581", Name := lit "United States Minor Outlying Islands" }) ::
  (US, { Alpha2 := lit "US", Alpha3 := lit "USA", Flag := lit "🇺🇸", Number := lit "840", Name := lit "United States of America" }) ::
  (UY, { Alpha2 := lit "UY", Alpha3 := lit "URY", Flag := lit "🇺🇾", Number := lit "858", Name := lit "Uruguay" }) ::
  (UZ, { Alpha2 := lit "UZ", Alpha3 := lit "UZB", Flag := lit "🇺🇿", Number := lit "860", Name := lit "Uzbekistan" }) ::
  (VA, { Alpha2 := lit "VA", Alpha3 := lit "VAT", Flag := lit "🇻🇦", Number := lit "336", Name := lit "Holy See" }) ::
  (VC, { Alpha2 := lit "VC", Alpha3 := lit "VCT", Flag := lit "🇻🇨", Number := lit "670", Name := lit "Saint Vincent and the Grenadines" }) ::
  (VE, { Alpha2 := lit "VE", Alpha3 := lit "VEN", Flag := lit "🇻🇪", Number := lit "862", Name := lit "Venezuela (Bolivarian Republic of)" }) ::
  (VG, { Alpha2 := lit "VG", Alpha3 := lit "VGB", Flag := lit "🇻🇬", Number := lit "092", Name := lit "Virgin Islands (British)" }) ::
  (VI, { Alpha2 := lit "VI", Alpha3 := lit "VIR", Flag := lit "🇻🇮", Number := lit "850", Name := lit "Virgin Islands (U.S.)" }) ::
  (VN, { Alpha2 := lit "VN", Alpha3 := lit "VNM", Flag := lit "🇻🇳", Number := lit "704", Name := lit "Viet Nam" }) ::
  (VU, { Alpha2 := lit "VU", Alpha3 := lit "VUT", Flag := lit "🇻🇺", Number := lit "548", Name := lit "Vanuatu" }) ::
  (WF, { Alpha2 := lit "WF", Alpha3 := lit "WLF", Flag := lit "🇼🇫", Number := lit "876", Name := lit "Wallis and Futuna" }) ::
  (WS, { Alpha2 := lit "WS", Alpha3 := lit "WSM", Flag := lit "🇼🇸", Number := lit "882", Name := lit "Samoa" }) ::
  (YE, { Alpha2 := lit "YE", Alpha3 := lit "YEM", Flag := lit "🇾🇪", Number := lit "887", Name := lit "Yemen" }) ::
  (YT, { Alpha2 := lit "YT", Alpha3 := lit "MYT", Flag := lit "🇾🇹", Number := lit "175", Name := lit "Mayotte" }) ::
  (ZA, { Alpha2 := lit "ZA", Alpha3 := lit "ZAF", Flag := lit "🇿🇦", Number := lit "710", Name := lit "South Africa" }) ::
  (ZM, { Alpha2 := lit "ZM", Alpha3 := lit "ZMB", Flag := lit "🇿🇲", Number := lit "894", Name := lit "Zambia" }) ::
  (ZW, { Alpha2 := lit "ZW", Alpha3 := lit "ZWE", Flag := lit "🇿🇼", Number := lit "716", Name := lit "Zimbabwe" }) ::
  []

/-- The reverse index `stringToCountryCode`. -/
def stringToCountryCode : List (GoString × CountryCode) := [
  (lit "AD", AD), (lit "AE", AE), (lit "AF", AF), (lit "AG", AG), (lit "AI", AI), (lit "AL", AL), (lit "AM", AM), (lit "AO", AO), (lit "AQ", AQ), (lit "AR", AR),
  (lit "AS", AS), (lit "AT", AT), (lit "AU", AU), (lit "AW", AW), (lit "AX", AX), (lit "AZ", AZ), (lit "BA", BA), (lit "BB", BB), (lit "BD", BD), (lit "BE", BE),
  (lit "BF", BF), (lit "BG", BG), (lit "BH", BH), (lit "BI", BI), (lit "BJ", BJ), (lit "BL", BL), (lit "BM", BM), (lit "BN", BN), (lit "BO", BO), (lit "BQ", BQ),
  (lit "BR", BR), (lit "BS", BS), (lit "BT", BT), (lit "BV", BV), (lit "BW", BW), (lit "BY", BY), (lit "BZ", BZ), (lit "CA", CA), (lit "CC", CC), (lit "CD", CD),
  (lit "CF", CF), (lit "CG", CG), (lit "CH", CH), (lit "CI", CI), (lit "CK", CK), (lit "CL", CL), (lit "CM", CM), (lit "CN", CN), (lit "CO", CO), (lit "CR", CR),
  (lit "CU", CU), (lit "CV", CV), (lit "CW", CW), (lit "CX", CX), (lit "CY", CY), (lit "CZ", CZ), (lit "DE", DE), (lit "DJ", DJ), (lit "DK", DK), (lit "DM", DM),
  (lit "DO", DO), (lit "DZ", DZ), (lit "EC", EC), (lit "EE", EE), (lit "EG", EG), (lit "EH", EH), (lit "ER", ER), (lit "ES", ES), (lit "ET", ET), (lit "FI", FI),
  (lit "FJ", FJ), (lit "FK", FK), (lit "FM", FM), (lit "FO", FO), (lit "FR", FR), (lit "GA", GA), (lit "GB", GB), (lit "GD", GD), (lit "GE", GE), (lit "GF", GF),
  (lit "GG", GG), (lit "GH", GH), (lit "GI", GI), (lit "GL", Isocodes.GL), (lit "GM", GM), (lit "GN", GN), (lit "GP", GP), (lit "GQ", GQ), (lit "GR", GR), (lit "GS", GS),
  (lit "GT", GT), (lit "GU", GU), (lit "GW", GW), (lit "GY", GY), (lit "HK", HK), (lit "HM", HM), (lit "HN", HN), (lit "HR", HR), (lit "HT", HT), (lit "HU", HU),
  (lit "ID", ID), (lit "IE", IE), (lit "IL", IL), (lit "IM", IM), (lit "IN", IN), (lit "IO", Isocodes.IO), (lit "IQ", IQ), (lit "IR", IR), (lit "IS", IS), (lit "IT", IT),
  (lit "JE", JE), (lit "JM", JM), (lit "JO", JO), (lit "JP", JP), (lit "KE", KE), (lit "KG", KG), (lit "KH", KH), (lit "KI", KI), (lit "KM", KM), (lit "KN", KN),
  (lit "KP", KP), (lit "KR", KR), (lit "KW", KW), (lit "KY", KY), (lit "KZ", KZ), (lit "LA", LA), (lit "LB", LB), (lit "LC", LC), (lit "LI", LI), (lit "LK", LK),
  (lit "LR", LR), (lit "LS", LS), (lit "LT", LT), (lit "LU", LU), (lit "LV", LV), (lit "LY", LY), (lit "MA", MA), (lit "MC", MC), (lit "MD", MD), (lit "ME", ME),
  (lit "MF", MF), (lit "MG", MG), (lit "MH", MH), (lit "MK", MK), (lit "ML", ML), (lit "MM", MM), (lit "MN", MN), (lit "MO", MO), (lit "MP", MP), (lit "MQ", MQ),
  (lit "MR", MR), (lit "MS", MS), (lit "MT", MT), (lit "MU", MU), (lit "MV", MV), (lit "MW", MW), (lit "MX", MX), (lit "MY", MY), (lit "MZ", MZ), (lit "NA", NA),
  (lit "NC", NC), (lit "NE", NE), (lit "NF", NF), (lit "NG", NG), (lit "NI", NI), (lit "NL", NL), (lit "NO", NO), (lit "NP", NP), (lit "NR", NR), (lit "NU", NU),
  (lit "NZ", NZ), (lit "OM", OM), (lit "PA", PA), (lit "PE", PE), (lit "PF", PF), (lit "PG", PG), (lit "PH", PH), (lit "PK", PK), (lit "PL", PL), (lit "PM", PM),
  (lit "PN", PN), (lit "PR", PR), (lit "PS", PS), (lit "PT", PT), (lit "PW", PW), (lit "PY", PY), (lit "QA", QA), (lit "RE", RE), (lit "RO", RO), (lit "RS", RS),
  (lit "RU", RU), (lit "RW", RW), (lit "SA", SA), (lit "SB", SB), (lit "SC", SC), (lit "SD", SD), (lit "SE", SE), (lit "SG", SG), (lit "SH", SH), (lit "SI", SI),
  (lit "SJ", SJ), (lit "SK", SK), (lit "SL", SL), (lit "SM", SM), (lit "SN", SN), (lit "SO", SO), (lit "SR", SR), (lit "SS", SS), (lit "ST", ST), (lit "SV", SV),
  (lit "SX", SX), (lit "SY", SY), (lit "SZ", SZ), (lit "TC", TC), (lit "TD", TD), (lit "TF", TF), (lit "TG", TG), (lit "TH", TH), (lit "TJ", TJ), (lit "TK", TK),
  (lit "TL", TL), (lit "TM", TM), (lit "TN", TN), (lit "TO", TO), (lit "TR", TR), (lit "TT", TT), (lit "TV", TV), (lit "TW", TW), (lit "TZ", TZ), (lit "UA", UA),
  (lit "UG", UG), (lit "UM", UM), (lit "US", US), (lit "UY", UY), (lit "UZ", UZ), (lit "VA", VA), (lit "VC", VC), (lit "VE", VE), (lit "VG", VG), (lit "VI", VI),
  (lit "VN", VN), (lit "VU", VU), (lit "WF", WF), (lit "WS", WS), (lit "YE", YE), (lit "YT", YT), (lit "ZA", ZA), (lit "ZM", ZM), (lit "ZW", ZW)
]

/-- String returns an Alpha2 string representation of the code. -/
def CountryCode.String (c : CountryCode) : GoString := (mapIndex countryCodesDetails c).Alpha2

/-- Alpha3 returns an Alpha3 string representation of the code. -/
def CountryCode.Alpha3 (c : CountryCode) : GoString := (mapIndex countryCodesDetails c).Alpha3

/-- Name returns a country name related to CountryCode. -/
def CountryCode.Name (c : CountryCode) : GoString := (mapIndex countryCodesDetails c).Name

/-- Number returns a country number related to the CountryCode. -/
def CountryCode.Number (c : CountryCode) : GoString := (mapIndex countryCodesDetails c).Number

/-- Flag returns an emoji flag for the country code. -/
def CountryCode.Flag (c : CountryCode) : GoString := (mapIndex countryCodesDetails c).Flag

/-- Method `(c *CountryCode) UnmarshalJSON(b []byte) error`: the first argument is
the receiver's value before the call, the first result its value after. -/
def CountryCode.UnmarshalJSON (c : CountryCode) (b : GoString) : CountryCode × Option Error :=
  if b.length = 0 then (c, some ErrUnmarshalJSON)
  else
    match mapGet stringToCountryCode b with
    | none => (c, some ErrUnmarshalJSON)
    | some code => (code, none)

/-- Method `(c CountryCode) MarshalJSON() ([]byte, error)`. -/
def CountryCode.MarshalJSON (c : CountryCode) : Option GoString × Option Error :=
  let code := CountryCode.String c
  if code = lit "" then (none, some ErrMarshalJSON)
  else (some (lit "\"" ++ code ++ lit "\""), none)

/-- Method `UnmarshalText`: `return c.UnmarshalJSON(b)`. -/
def CountryCode.UnmarshalText (c : CountryCode) (b : GoString) : CountryCode × Option Error :=
  CountryCode.UnmarshalJSON c b

/-- Method `MarshalText`: `return c.MarshalJSON()`. -/
def CountryCode.MarshalText (c : CountryCode) : Option GoString × Option Error :=
  CountryCode.MarshalJSON c

/-- StringToCountryCode takes string representation of ISO 3166-1 Alpha2 country
code and returns a CountryCode. -/
def StringToCountryCode (mapUpper : GoString → GoString) (code : GoString) :
    CountryCode × Option Error :=
  if code.length > 2 then (0, some ErrInvalidStringCode)
  else
    match mapGet stringToCountryCode (ToUpper mapUpper code) with
    | none => (0, some ErrInvalidStringCode)
    | some c => (c, none)

/-! ## currency.go -/

/-- CurrencyCode represents an ISO currency code: `type CurrencyCode byte`. -/
abbrev CurrencyCode := Fin 256

/-- CurrencyCodeDetails represents detailed information related to the currency code. -/
structure CurrencyCodeDetails where
  Code : GoString
  Name : GoString
  Number : GoString
  Flag : GoString
  Decimals : Int
deriving DecidableEq, Repr

/-- The zero value of `CurrencyCodeDetails`: empty strings and 0. -/
instance : Inhabited CurrencyCodeDetails := ⟨⟨[], [], [], [], 0⟩⟩

/-! The currency constants: `AED CurrencyCode = iota + 1` and the constants
after it. -/

def AED : CurrencyCode := 0 + 1
def AFN : CurrencyCode := 1 + 1
def ALL : CurrencyCode := 2 + 1
def AMD : CurrencyCode := 3 + 1
def ANG : CurrencyCode := 4 + 1
def AOA : CurrencyCode := 5 + 1
def ARS : CurrencyCode := 6 + 1
def AUD : CurrencyCode := 7 + 1
def AWG : CurrencyCode := 8 + 1
def AZN : CurrencyCode := 9 + 1
def BAM : CurrencyCode := 10 + 1
def BBD : CurrencyCode := 11 + 1
def BDT : CurrencyCode := 12 + 1
def BGN : CurrencyCode := 13 + 1
def BHD : CurrencyCode := 14 + 1
def BIF : CurrencyCode := 15 + 1
def BMD : CurrencyCode := 16 + 1
def BND : CurrencyCode := 17 + 1
def BOB : CurrencyCode := 18 + 1
def BOV : CurrencyCode := 19 + 1
def BRL : CurrencyCode := 20 + 1
def BSD : CurrencyCode := 21 + 1
def BTN : CurrencyCode := 22 + 1
def BWP : CurrencyCode := 23 + 1
def BYR : CurrencyCode := 24 + 1
def BZD : CurrencyCode := 25 + 1
def CAD : CurrencyCode := 26 + 1
def CDF : CurrencyCode := 27 + 1
def CHE : CurrencyCode := 28 + 1
def CHF : CurrencyCode := 29 + 1
def CHW : CurrencyCode := 30 + 1
def CLF : CurrencyCode := 31 + 1
def CLP : CurrencyCode := 32 + 1
def CNY : CurrencyCode := 33 + 1
def COP : CurrencyCode := 34 + 1
def COU : CurrencyCode := 35 + 1
def CRC : CurrencyCode := 36 + 1
def CUC : CurrencyCode := 37 + 1
def CUP : CurrencyCode := 38 + 1
def CVE : CurrencyCode := 39 + 1
def CZK : CurrencyCode := 40 + 1
def DJF : CurrencyCode := 41 + 1
def DKK : CurrencyCode := 42 + 1
def DOP : CurrencyCode := 43 + 1
def DZD : CurrencyCode := 44 + 1
def EGP : CurrencyCode := 45 + 1
def ERN : CurrencyCode := 46 + 1
def ETB : CurrencyCode := 47 + 1
def EUR : CurrencyCode := 48 + 1
def FJD : CurrencyCode := 49 + 1
def FKP : CurrencyCode := 50 + 1
def GBP : CurrencyCode := 51 + 1
def GEL : CurrencyCode := 52 + 1
def GHS : CurrencyCode := 53 + 1
def GIP : CurrencyCode := 54 + 1
def GMD : CurrencyCode := 55 + 1
def GNF : CurrencyCode := 56 + 1
def GTQ : CurrencyCode := 57 + 1
def GYD : CurrencyCode := 58 + 1
def HKD : CurrencyCode := 59 + 1
def HNL : CurrencyCode := 60 + 1
def HRK : CurrencyCode := 61 + 1
def HTG : CurrencyCode := 62 + 1
def HUF : CurrencyCode := 63 + 1
def IDR : CurrencyCode := 64 + 1
def ILS : CurrencyCode := 65 + 1
def INR : CurrencyCode := 66 + 1
def IQD : CurrencyCode := 67 + 1
def IRR : CurrencyCode := 68 + 1
def ISK : CurrencyCode := 69 + 1
def JMD : CurrencyCode := 70 + 1
def JOD : CurrencyCode := 71 + 1
def JPY : CurrencyCode := 72 + 1
def KES : CurrencyCode := 73 + 1
def KGS : CurrencyCode := 74 + 1
def KHR : CurrencyCode := 75 + 1
def KMF : CurrencyCode := 76 + 1
def KPW : CurrencyCode := 77 + 1
def KRW : CurrencyCode := 78 + 1
def KWD : CurrencyCode := 79 + 1
def KYD : CurrencyCode := 80 + 1
def KZT : CurrencyCode := 81 + 1
def LAK : CurrencyCode := 82 + 1
def LBP : CurrencyCode := 83 + 1
def LKR : CurrencyCode := 84 + 1
def LRD : CurrencyCode := 85 + 1
def LSL : CurrencyCode := 86 + 1
def LTL : CurrencyCode := 87 + 1
def LVL : CurrencyCode := 88 + 1
def LYD : CurrencyCode := 89 + 1
def MAD : CurrencyCode := 90 + 1
def MDL : CurrencyCode := 91 + 1
def MGA : CurrencyCode := 92 + 1
def MKD : CurrencyCode := 93 + 1
def MMK : CurrencyCode := 94 + 1
def MNT : CurrencyCode := 95 + 1
def MOP : CurrencyCode := 96 + 1
def MRO : CurrencyCode := 97 + 1
def MUR : CurrencyCode := 98 + 1
def MVR : CurrencyCode := 99 + 1
def MWK : CurrencyCode := 100 + 1
def MXN : CurrencyCode := 101 + 1
def MXV : CurrencyCode := 102 + 1
def MYR : CurrencyCode := 103 + 1
def MZN : CurrencyCode := 104 + 1
def NAD : CurrencyCode := 105 + 1
def NGN : CurrencyCode := 106 + 1
def NIO : CurrencyCode := 107 + 1
def NOK : CurrencyCode := 108 + 1
def NPR : CurrencyCode := 109 + 1
def NZD : CurrencyCode := 110 + 1
def OMR : CurrencyCode := 111 + 1
def PAB : CurrencyCode := 112 + 1
def PEN : CurrencyCode := 113 + 1
def PGK : CurrencyCode := 114 + 1
def PHP : CurrencyCode := 115 + 1
def PKR : CurrencyCode := 116 + 1
def PLN : CurrencyCode := 117 + 1
def PYG : CurrencyCode := 118 + 1
def QAR : CurrencyCode := 119 + 1
def RON : CurrencyCode := 120 + 1
def RSD : CurrencyCode := 121 + 1
def RUB : CurrencyCode := 122 + 1
def RWF : CurrencyCode := 123 + 1
def SAR : CurrencyCode := 124 + 1
def SBD : CurrencyCode := 125 + 1
def SCR : CurrencyCode := 126 + 1
def SDG : CurrencyCode := 127 + 1
def SEK : CurrencyCode := 128 + 1
def SGD : CurrencyCode := 129 + 1
def SHP : CurrencyCode := 130 + 1
def SLL : CurrencyCode := 131 + 1
def SOS : CurrencyCode := 132 + 1
def SRD : CurrencyCode := 133 + 1
def SSP : CurrencyCode := 134 + 1
def STD : CurrencyCode := 135 + 1
def SYP : CurrencyCode := 136 + 1
def SZL : CurrencyCode := 137 + 1
def THB : CurrencyCode := 138 + 1
def TJS : CurrencyCode := 139 + 1
def TMT : CurrencyCode := 140 + 1
def TND : CurrencyCode := 141 + 1
def TOP : CurrencyCode := 142 + 1
def TRY : CurrencyCode := 143 + 1
def TTD : CurrencyCode := 144 + 1
def TWD : CurrencyCode := 145 + 1
def TZS : CurrencyCode := 146 + 1
def UAH : CurrencyCode := 147 + 1
def UGX : CurrencyCode := 148 + 1
def USD : CurrencyCode := 149 + 1
def USN : CurrencyCode := 150 + 1
def USS : CurrencyCode := 151 + 1
def UYI : CurrencyCode := 152 + 1
def UYU : CurrencyCode := 153 + 1
def UZS : CurrencyCode := 154 + 1
def VEF : CurrencyCode := 155 + 1
def VND : CurrencyCode := 156 + 1
def VUV : CurrencyCode := 157 + 1
def WST : CurrencyCode := 158 + 1
def XAF : CurrencyCode := 159 + 1
def XAG : CurrencyCode := 160 + 1
def XAU : CurrencyCode := 161 + 1
def XBA : CurrencyCode := 162 + 1
def XBB : CurrencyCode := 163 + 1
def XBC : CurrencyCode := 164 + 1
def XBD : CurrencyCode := 165 + 1
def XCD : CurrencyCode := 166 + 1
def XDR : CurrencyCode := 167 + 1
def XFU : CurrencyCode := 168 + 1
def XOF : CurrencyCode := 169 + 1
def XPD : CurrencyCode := 170 + 1
def XPF : CurrencyCode := 171 + 1
def XPT : CurrencyCode := 172 + 1
def XTS : CurrencyCode := 173 + 1
def XXX : CurrencyCode := 174 + 1
def YER : CurrencyCode := 175 + 1
def ZAR : CurrencyCode := 176 + 1
def ZMW : CurrencyCode := 177 + 1

set_option maxRecDepth 100000 in
/-- The forward table `currencyCodesDetails`. -/
def currencyCodesDetails : List (CurrencyCode × CurrencyCodeDetails) :=
  (AED, { Code := lit "AED", Name := lit "United Arab Emirates dirham", Number := lit "784", Flag := lit "ðŸ‡¦ðŸ‡ª", Decimals := 2 }) ::
  (AFN, { Code := lit "AFN", Name := lit "Afghan afghani", Number := lit "971", Flag := lit "ðŸ‡¦ðŸ‡«", Decimals := 2 }) ::
  (ALL, { Code := lit "ALL", Name := lit "Albanian lek", Number := lit "8", Flag := lit "ðŸ‡¦ðŸ‡±", Decimals := 2 }) ::
  (AMD, { Code := lit "AMD", Name := lit "Armenian dram", Number := lit "51", Flag := lit "ðŸ‡¦ðŸ‡²", Decimals := 2 }) ::
  (ANG, { Code := lit "ANG", Name := lit "Netherlands Antillean guilder", Number := lit "532", Flag := lit "ðŸ‡³ðŸ‡±", Decimals := 2 }) ::
  (AOA, { Code := lit "AOA", Name := lit "Angolan kwanza", Number := lit "973", Flag := lit "ðŸ‡¦ðŸ‡´", Decimals := 2 }) ::
  (ARS, { Code := lit "ARS", Name := lit "Argentine peso", Number := lit "32", Flag := lit "ðŸ‡¦ðŸ‡·", Decimals := 2 }) ::
  (AUD, { Code := lit "AUD", Name := lit "Australian dollar", Number := lit "36", Flag := lit "ðŸ‡¦ðŸ‡º", Decimals := 2 }) ::
  (AWG, { Code := lit "AWG", Name := lit "Aruban florin", Number := lit "533", Flag := lit "ðŸ‡¦ðŸ‡¼", Decimals := 2 }) ::
  (AZN, { Code := lit "AZN", Name := lit "Azerbaijani manat", Number := lit "944", Flag := lit "ðŸ‡¦ðŸ‡¿", Decimals := 2 }) ::
  (BAM, { Code := lit "BAM", Name := lit "Bosnia and Herzegovina convertible mark", Number := lit "977", Flag := lit "ðŸ‡§ðŸ‡¦", Decimals := 2 }) ::
  (BBD, { Code := lit "BBD", Name := lit "Barbados dollar", Number := lit "52", Flag := lit "ðŸ‡§ðŸ‡§", Decimals := 2 }) ::
  (BDT, { Code := lit "BDT", Name := lit "Bangladeshi taka", Number := lit "50", Flag := lit "ðŸ‡§ðŸ‡©", Decimals := 2 }) ::
  (BGN, { Code := lit "BGN", Name := lit "Bulgarian lev", Number := lit "975", Flag := lit "ðŸ‡§ðŸ‡¬", Decimals := 2 }) ::
  (BHD, { Code := lit "BHD", Name := lit "Bahraini dinar", Number := lit "48", Flag := lit "", Decimals := 3 }) ::
  (BIF, { Code := lit "BIF", Name := lit "Burundian franc", Number := lit "108", Flag := lit "ðŸ‡§ðŸ‡®", Decimals := 0 }) ::
  (BMD, { Code := lit "BMD", Name := lit "Bermudian dollar (customarily known as Bermuda dollar)", Number := lit "60", Flag := lit "ðŸ‡§ðŸ‡²", Decimals := 2 }) ::
  (BND, { Code := lit "BND", Name := lit "Brunei dollar", Number := lit "96", Flag := lit "ðŸ‡§ðŸ‡³", Decimals := 2 }) ::
  (BOB, { Code := lit "BOB", Name := lit "Boliviano", Number := lit "68", Flag := lit "ðŸ‡§ðŸ‡´", Decimals := 2 }) ::
  (BOV, { Code := lit "BOV", Name := lit "Bolivian Mvdol (funds code)", Number := lit "984", Flag := lit "", Decimals := 2 }) ::
  (BRL, { Code := lit "BRL", Name := lit "Brazilian real", Number := lit "986", Flag := lit "ðŸ‡§ðŸ‡·", Decimals := 2 }) ::
  (BSD, { Code := lit "BSD", Name := lit "Bahamian dollar", Number := lit "44", Flag := lit "ðŸ‡§ðŸ‡¸", Decimals := 2 }) ::
  (BTN, { Code := lit "BTN", Name := lit "Bhutanese ngultrum", Number := lit "64", Flag := lit "", Decimals := 2 }) ::
  (BWP, { Code := lit "BWP", Name := lit "Botswana pula", Number := lit "72", Flag := lit "ðŸ‡§ðŸ‡¼", Decimals := 2 }) ::
  (BYR, { Code := lit "BYR", Name := lit "Belarusian ruble", Number := lit "974", Flag := lit "", Decimals := 0 }) ::
  (BZD, { Code := lit "BZD", Name := lit "Belize dollar", Number := lit "84", Flag := lit "ðŸ‡§ðŸ‡¿", Decimals := 2 }) ::
  (CAD, { Code := lit "CAD", Name := lit "Canadian dollar", Number := lit "124", Flag := lit "ðŸ‡¨ðŸ‡¦", Decimals := 2 }) ::
  (CDF, { Code := lit "CDF", Name := lit "Congolese franc", Number := lit "976", Flag := lit "ðŸ‡¨ðŸ‡©", Decimals := 2 }) ::
  (CHE, { Code := lit "CHE", Name := lit "WIR Euro (complementary currency)", Number := lit "947", Flag := lit "", Decimals := 2 }) ::
  (CHF, { Code := lit "CHF", Name := lit "Swiss franc", Number := lit "756", Flag := lit "ðŸ‡¨ðŸ‡\u00ad", Decimals := 2 }) ::
  (CHW, { Code := lit "CHW", Name := lit "WIR Franc (complementary currency)", Number := lit "948", Flag := lit "", Decimals := 2 }) ::
  (CLF, { Code := lit "CLF", Name := lit "Unidad de Fomento (funds code)", Number := lit "990", Flag := lit "", Decimals := 0 }) ::
  (CLP, { Code := lit "CLP", Name := lit "Chilean peso", Number := lit "152", Flag := lit "ðŸ‡¨ðŸ‡±", Decimals := 0 }) ::
  (CNY, { Code := lit "CNY", Name := lit "Chinese yuan", Number := lit "156", Flag := lit "ðŸ‡¨ðŸ‡³", Decimals := 2 }) ::
  (COP, { Code := lit "COP", Name := lit "Colombian peso", Number := lit "170", Flag := lit "ðŸ‡¨ðŸ‡´", Decimals := 2 }) ::
  (COU, { Code := lit "COU", Name := lit "Unidad de Valor Real", Number := lit "970", Flag := lit "", Decimals := 2 }) ::
  (CRC, { Code := lit "CRC", Name := lit "Costa Rican colon", Number := lit "188", Flag := lit "ðŸ‡¨ðŸ‡·", Decimals := 2 }) ::
  (CUC, { Code := lit "CUC", Name := lit "Cuban convertible peso", Number := lit "931", Flag := lit "", Decimals := 2 }) ::
  (CUP, { Code := lit "CUP", Name := lit "Cuban peso", Number := lit "192", Flag := lit "", Decimals := 2 }) ::
  (CVE, { Code := lit "CVE", Name := lit "Cape Verde escudo", Number := lit "132", Flag := lit "ðŸ‡¨ðŸ‡»", Decimals := 0 }) ::
  (CZK, { Code := lit "CZK", Name := lit "Czech koruna", Number := lit "203", Flag := lit "ðŸ‡¨ðŸ‡¿", Decimals := 2 }) ::
  (DJF, { Code := lit "DJF", Name := lit "Djiboutian franc", Number := lit "262", Flag := lit "ðŸ‡©ðŸ‡¯", Decimals := 0 }) ::
  (DKK, { Code := lit "DKK", Name := lit "Danish krone", Number := lit "208", Flag := lit "ðŸ‡©ðŸ‡°", Decimals := 2 }) ::
  (DOP, { Code := lit "DOP", Name := lit "Dominican peso", Number := lit "214", Flag := lit "ðŸ‡©ðŸ‡´", Decimals := 2 }) ::
  (DZD, { Code := lit "DZD", Name := lit "Algerian dinar", Number := lit "12", Flag := lit "ðŸ‡©ðŸ‡¿", Decimals := 2 }) ::
  (EGP, { Code := lit "EGP", Name := lit "Egyptian pound", Number := lit "818", Flag := lit "ðŸ‡ªðŸ‡¬", Decimals := 2 }) ::
  (ERN, { Code := lit "ERN", Name := lit "Eritrean nakfa", Number := lit "232", Flag := lit "", Decimals := 2 }) ::
  (ETB, { Code := lit "ETB", Name := lit "Ethiopian birr", Number := lit "230", Flag := lit "ðŸ‡ªðŸ‡¹", Decimals := 2 }) ::
  (EUR, { Code := lit "EUR", Name := lit "Euro", Number := lit "978", Flag := lit "ðŸ‡ªðŸ‡º", Decimals := 2 }) ::
  (FJD, { Code := lit "FJD", Name := lit "Fiji dollar", Number := lit "242", Flag := lit "ðŸ‡«ðŸ‡¯", Decimals := 2 }) ::
  (FKP, { Code := lit "FKP", Name := lit "Falkland Islands pound", Number := lit "238", Flag := lit "ðŸ‡«ðŸ‡°", Decimals := 2 }) ::
  (GBP, { Code := lit "GBP", Name := lit "Pound sterling", Number := lit "826", Flag := lit "ðŸ‡¬ðŸ‡§", Decimals := 2 }) ::
  (GEL, { Code := lit "GEL", Name := lit "Georgian lari", Number := lit "981", Flag := lit "ðŸ‡¬ðŸ‡ª", Decimals := 2 }) ::
  (GHS, { Code := lit "GHS", Name := lit "Ghanaian cedi", Number := lit "936", Flag := lit "", Decimals := 2 }) ::
  (GIP, { Code := lit "GIP", Name := lit "Gibraltar pound", Number := lit "292", Flag := lit "ðŸ‡¬ðŸ‡®", Decimals := 2 }) ::
  (GMD, { Code := lit "GMD", Name := lit "Gambian dalasi", Number := lit "270", Flag := lit "ðŸ‡¬ðŸ‡²", Decimals := 2 }) ::
  (GNF, { Code := lit "GNF", Name := lit "Guinean franc", Number := lit "324", Flag := lit "ðŸ‡¬ðŸ‡³", Decimals := 0 }) ::
  (GTQ, { Code := lit "GTQ", Name := lit "Guatemalan quetzal", Number := lit "320", Flag := lit "ðŸ‡¬ðŸ‡¹", Decimals := 2 }) ::
  (GYD, { Code := lit "GYD", Name := lit "Guyanese dollar", Number := lit "328", Flag := lit "ðŸ‡¬ðŸ‡¾", Decimals := 2 }) ::
  (HKD, { Code := lit "HKD", Name := lit "Hong Kong dollar", Number := lit "344", Flag := lit "ðŸ‡\u00adðŸ‡°", Decimals := 2 }) ::
  (HNL, { Code := lit "HNL", Name := lit "Honduran lempira", Number := lit "340", Flag := lit "ðŸ‡\u00adðŸ‡³", Decimals := 2 }) ::
  (HRK, { Code := lit "HRK", Name := lit "Croatian kuna", Number := lit "191", Flag := lit "ðŸ‡\u00adðŸ‡·", Decimals := 2 }) ::
  (HTG, { Code := lit "HTG", Name := lit "Haitian gourde", Number := lit "332", Flag := lit "ðŸ‡\u00adðŸ‡¹", Decimals := 2 }) ::
  (HUF, { Code := lit "HUF", Name := lit "Hungarian forint", Number := lit "348", Flag := lit "ðŸ‡\u00adðŸ‡º", Decimals := 2 }) ::
  (IDR, { Code := lit "IDR", Name := lit "Indonesian rupiah", Number := lit "360", Flag := lit "ðŸ‡®ðŸ‡©", Decimals := 2 }) ::
  (ILS, { Code := lit "ILS", Name := lit "Israeli new shekel", Number := lit "376", Flag := lit "ðŸ‡®ðŸ‡±", Decimals := 2 }) ::
  (INR, { Code := lit "INR", Name := lit "Indian rupee", Number := lit "356", Flag := lit "ðŸ‡®ðŸ‡³", Decimals := 2 }) ::
  (IQD, { Code := lit "IQD", Name := lit "Iraqi dinar", Number := lit "368", Flag := lit "", Decimals := 3 }) ::
  (IRR, { Code := lit "IRR", Name := lit "Iranian rial", Number := lit "364", Flag := lit "", Decimals := 0 }) ::
  (ISK, { Code := lit "ISK", Name := lit "Icelandic krÃ³na", Number := lit "352", Flag := lit "ðŸ‡®ðŸ‡¸", Decimals := 0 }) ::
  (JMD, { Code := lit "JMD", Name := lit "Jamaican dollar", Number := lit "388", Flag := lit "ðŸ‡¯ðŸ‡²", Decimals := 2 }) ::
  (JOD, { Code := lit "JOD", Name := lit "Jordanian dinar", Number := lit "400", Flag := lit "", Decimals := 3 }) ::
  (JPY, { Code := lit "JPY", Name := lit "Japanese yen", Number := lit "392", Flag := lit "ðŸ‡¯ðŸ‡µ", Decimals := 0 }) ::
  (KES, { Code := lit "KES", Name := lit "Kenyan shilling", Number := lit "404", Flag := lit "ðŸ‡°ðŸ‡ª", Decimals := 2 }) ::
  (KGS, { Code := lit "KGS", Name := lit "Kyrgyzstani som", Number := lit "417", Flag := lit "ðŸ‡°ðŸ‡¬", Decimals := 2 }) ::
  (KHR, { Code := lit "KHR", Name := lit "Cambodian riel", Number := lit "116", Flag := lit "ðŸ‡°ðŸ‡\u00ad", Decimals := 2 }) ::
  (KMF, { Code := lit "KMF", Name := lit "Comoro franc", Number := lit "174", Flag := lit "ðŸ‡°ðŸ‡²", Decimals := 0 }) ::
  (KPW, { Code := lit "KPW", Name := lit "North Korean won", Number := lit "408", Flag := lit "", Decimals := 0 }) ::
  (KRW, { Code := lit "KRW", Name := lit "South Korean won", Number := lit "410", Flag := lit "ðŸ‡°ðŸ‡·", Decimals := 0 }) ::
  (KWD, { Code := lit "KWD", Name := lit "Kuwaiti dinar", Number := lit "414", Flag := lit "", Decimals := 3 }) ::
  (KYD, { Code := lit "KYD", Name := lit "Cayman Islands dollar", Number := lit "136", Flag := lit "ðŸ‡°ðŸ‡¾", Decimals := 2 }) ::
  (KZT, { Code := lit "KZT", Name := lit "Kazakhstani tenge", Number := lit "398", Flag := lit "ðŸ‡°ðŸ‡¿", Decimals := 2 }) ::
  (LAK, { Code := lit "LAK", Name := lit "Lao kip", Number := lit "418", Flag := lit "ðŸ‡±ðŸ‡¦", Decimals := 0 }) ::
  (LBP, { Code := lit "LBP", Name := lit "Lebanese pound", Number := lit "422", Flag := lit "ðŸ‡±ðŸ‡§", Decimals := 0 }) ::
  (LKR, { Code := lit "LKR", Name := lit "Sri Lankan rupee", Number := lit "144", Flag := lit "ðŸ‡±ðŸ‡°", Decimals := 2 }) ::
  (LRD, { Code := lit "LRD", Name := lit "Liberian dollar", Number := lit "430", Flag := lit "ðŸ‡±ðŸ‡·", Decimals := 2 }) ::
  (LSL, { Code := lit "LSL", Name := lit "Lesotho loti", Number := lit "426", Flag := lit "ðŸ‡±ðŸ‡¸", Decimals := 2 }) ::
  (LTL, { Code := lit "LTL", Name := lit "Lithuanian litas", Number := lit "440", Flag := lit "", Decimals := 2 }) ::
  (LVL, { Code := lit "LVL", Name := lit "Latvian lats", Number := lit "428", Flag := lit "", Decimals := 2 }) ::
  (LYD, { Code := lit "LYD", Name := lit "Libyan dinar", Number := lit "434", Flag := lit "", Decimals := 3 }) ::
  (MAD, { Code := lit "MAD", Name := lit "Moroccan dirham", Number := lit "504", Flag := lit "ðŸ‡²ðŸ‡¦", Decimals := 2 }) ::
  (MDL, { Code := lit "MDL", Name := lit "Moldovan leu", Number := lit "498", Flag := lit "ðŸ‡²ðŸ‡©", Decimals := 2 }) ::
  (MGA, { Code := lit "MGA", Name := lit "Malagasy ariary", Number := lit "969", Flag := lit "ðŸ‡²ðŸ‡¬", Decimals := 0 }) ::
  (MKD, { Code := lit "MKD", Name := lit "Macedonian denar", Number := lit "807", Flag := lit "ðŸ‡²ðŸ‡°", Decimals := 0 }) ::
  (MMK, { Code := lit "MMK", Name := lit "Myanma kyat", Number := lit "104", Flag := lit "ðŸ‡²ðŸ‡²", Decimals := 0 }) ::
  (MNT, { Code := lit "MNT", Name := lit "Mongolian tugrik", Number := lit "496", Flag := lit "ðŸ‡²ðŸ‡³", Decimals := 2 }) ::
  (MOP, { Code := lit "MOP", Name := lit "Macanese pataca", Number := lit "446", Flag := lit "ðŸ‡²ðŸ‡´", Decimals := 2 }) ::
  (MRO, { Code := lit "MRO", Name := lit "Mauritanian ouguiya", Number := lit "478", Flag := lit "ðŸ‡²ðŸ‡·", Decimals := 0 }) ::
  (MUR, { Code := lit "MUR", Name := lit "Mauritian rupee", Number := lit "480", Flag := lit "ðŸ‡²ðŸ‡º", Decimals := 2 }) ::
  (MVR, { Code := lit "MVR", Name := lit "Maldivian rufiyaa", Number := lit "462", Flag := lit "ðŸ‡²ðŸ‡»", Decimals := 2 }) ::
  (MWK, { Code := lit "MWK", Name := lit "Malawian kwacha", Number := lit "454", Flag := lit "ðŸ‡²ðŸ‡¼", Decimals := 2 }) ::
  (MXN, { Code := lit "MXN", Name := lit "Mexican peso", Number := lit "484", Flag := lit "ðŸ‡²ðŸ‡½", Decimals := 2 }) ::
  (MXV, { Code := lit "MXV", Name := lit "Mexican Unidad de Inversion (UDI) (funds code)", Number := lit "979", Flag := lit "", Decimals := 2 }) ::
  (MYR, { Code := lit "MYR", Name := lit "Malaysian ringgit", Number := lit "458", Flag := lit "ðŸ‡²ðŸ‡¾", Decimals := 2 }) ::
  (MZN, { Code := lit "MZN", Name := lit "Mozambican metical", Number := lit "943", Flag := lit "ðŸ‡²ðŸ‡¿", Decimals := 2 }) ::
  (NAD, { Code := lit "NAD", Name := lit "Namibian dollar", Number := lit "516", Flag := lit "ðŸ‡³ðŸ‡¦", Decimals := 2 }) ::
  (NGN, { Code := lit "NGN", Name := lit "Nigerian naira", Number := lit "566", Flag := lit "ðŸ‡³ðŸ‡¬", Decimals := 2 }) ::
  ( NIO, { Code := lit "NIO", Name := lit "Nicaraguan cÃ³rdoba", Number := lit "558", Flag := lit "ðŸ‡³ðŸ‡®", Decimals := 2 }) ::
  (NOK, { Code := lit "NOK", Name := lit "Norwegian krone", Number := lit "578", Flag := lit "ðŸ‡³ðŸ‡´", Decimals := 2 }) ::
  (NPR, { Code := lit "NPR", Name := lit "Nepalese rupee", Number := lit "524", Flag := lit "ðŸ‡³ðŸ‡µ", Decimals := 2 }) ::
  (NZD, { Code := lit "NZD", Name := lit "New Zealand dollar", Number := lit "554", Flag := lit "ðŸ‡³ðŸ‡¿", Decimals := 2 }) ::
  (OMR, { Code := lit "OMR", Name := lit "Omani rial", Number := lit "512", Flag := lit "", Decimals := 3 }) ::
  (PAB, { Code := lit "PAB", Name := lit "Panamanian balboa", Number := lit "590", Flag := lit "ðŸ‡µðŸ‡¦", Decimals := 2 }) ::
  (PEN, { Code := lit "PEN", Name := lit "Peruvian nuevo sol", Number := lit "604", Flag := lit "ðŸ‡µðŸ‡ª", Decimals := 2 }) ::
  (PGK, { Code := lit "PGK", Name := lit "Papua New Guinean kina", Number := lit "598", Flag := lit "ðŸ‡µðŸ‡¬", Decimals := 2 }) ::
  (PHP, { Code := lit "PHP", Name := lit "Philippine peso", Number := lit "608", Flag := lit "ðŸ‡µðŸ‡\u00ad", Decimals := 2 }) ::
  (PKR, { Code := lit "PKR", Name := lit "Pakistani rupee", Number := lit "586", Flag := lit "ðŸ‡µðŸ‡°", Decimals := 2 }) ::
  (PLN, { Code := lit "PLN", Name := lit "Polish zÅ‚oty", Number := lit "985", Flag := lit "ðŸ‡µðŸ‡±", Decimals := 2 }) ::
  (PYG, { Code := lit "PYG", Name := lit "Paraguayan guaranÃ\u00ad", Number := lit "600", Flag := lit "ðŸ‡µðŸ‡¾", Decimals := 0 }) ::
  (QAR, { Code := lit "QAR", Name := lit "Qatari riyal", Number := lit "634", Flag := lit "ðŸ‡¶ðŸ‡¦", Decimals := 2 }) ::
  (RON, { Code := lit "RON", Name := lit "Romanian new leu", Number := lit "946", Flag := lit "ðŸ‡·ðŸ‡´", Decimals := 2 }) ::
  (RSD, { Code := lit "RSD", Name := lit "Serbian dinar", Number := lit "941", Flag := lit "ðŸ‡·ðŸ‡¸", Decimals := 2 }) ::
  (RUB, { Code := lit "RUB", Name := lit "Russian rouble", Number := lit "643", Flag := lit "ðŸ‡·ðŸ‡º", Decimals := 2 }) ::
  (RWF, { Code := lit "RWF", Name := lit "Rwandan franc", Number := lit "646", Flag := lit "ðŸ‡·ðŸ‡¼", Decimals := 0 }) ::
  (SAR, { Code := lit "SAR", Name := lit "Saudi riyal", Number := lit "682", Flag := lit "ðŸ‡¸ðŸ‡¦", Decimals := 2 }) ::
  (SBD, { Code := lit "SBD", Name := lit "Solomon Islands dollar", Number := lit "90", Flag := lit "ðŸ‡¸ðŸ‡§", Decimals := 2 }) ::
  (SCR, { Code := lit "SCR", Name := lit "Seychelles rupee", Number := lit "690", Flag := lit "ðŸ‡¸ðŸ‡¨", Decimals := 2 }) ::
  (SDG, { Code := lit "SDG", Name := lit "Sudanese pound", Number := lit "938", Flag := lit "", Decimals := 2 }) ::
  (SEK, { Code := lit "SEK", Name := lit "Swedish krona/kronor", Number := lit "752", Flag := lit "ðŸ‡¸ðŸ‡ª", Decimals := 2 }) ::
  (SGD, { Code := lit "SGD", Name := lit "Singapore dollar", Number := lit "702", Flag := lit "ðŸ‡¸ðŸ‡¬", Decimals := 2 }) ::
  (SHP, { Code := lit "SHP", Name := lit "Saint Helena pound", Number := lit "654", Flag := lit "ðŸ‡¸ðŸ‡\u00ad", Decimals := 2 }) ::
  (SLL, { Code := lit "SLL", Name := lit "Sierra Leonean leone", Number := lit "694", Flag := lit "ðŸ‡¸ðŸ‡±", Decimals := 0 }) ::
  (SOS, { Code := lit "SOS", Name := lit "Somali shilling", Number := lit "706", Flag := lit "ðŸ‡¸ðŸ‡´", Decimals := 2 }) ::
  (SRD, { Code := lit "SRD", Name := lit "Surinamese dollar", Number := lit "968", Flag := lit "ðŸ‡¸ðŸ‡·", Decimals := 2 }) ::
  (SSP, { Code := lit "SSP", Name := lit "South Sudanese pound", Number := lit "728", Flag := lit "", Decimals := 2 }) ::
  (STD, { Code := lit "STD", Name := lit "SÃ£o TomÃ© and PrÃ\u00adncipe dobra", Number := lit "678", Flag := lit "ðŸ‡¸ðŸ‡¹", Decimals := 0 }) ::
  (SYP, { Code := lit "SYP", Name := lit "Syrian pound", Number := lit "760", Flag := lit "", Decimals := 2 }) ::
  (SZL, { Code := lit "SZL", Name := lit "Swazi lilangeni", Number := lit "748", Flag := lit "ðŸ‡¸ðŸ‡¿", Decimals := 2 }) ::
  (THB, { Code := lit "THB", Name := lit "Thai baht", Number := lit "764", Flag := lit "ðŸ‡¹ðŸ‡\u00ad", Decimals := 2 }) ::
  (TJS, { Code := lit "TJS", Name := lit "Tajikistani somoni", Number := lit "972", Flag := lit "ðŸ‡¹ðŸ‡¯", Decimals := 2 }) ::
  (TMT, { Code := lit "TMT", Name := lit "Turkmenistani manat", Number := lit "934", Flag := lit "", Decimals := 2 }) ::
  (TND, { Code := lit "TND", Name := lit "Tunisian dinar", Number := lit "788", Flag := lit "", Decimals := 3 }) ::
  (TOP, { Code := lit "TOP", Name := lit "Tongan paÊ»anga", Number := lit "776", Flag := lit "ðŸ‡¹ðŸ‡´", Decimals := 2 }) ::
  (TRY, { Code := lit "TRY", Name := lit "Turkish lira", Number := lit "949", Flag := lit "ðŸ‡¹ðŸ‡·", Decimals := 2 }) ::
  (TTD, { Code := lit "TTD", Name := lit "Trinidad and Tobago dollar", Number := lit "780", Flag := lit "ðŸ‡¹ðŸ‡¹", Decimals := 2 }) ::
  (TWD, { Code := lit "TWD", Name := lit "New Taiwan dollar", Number := lit "901", Flag := lit "ðŸ‡¹ðŸ‡¼", Decimals := 2 }) ::
  (TZS, { Code := lit "TZS", Name := lit "Tanzanian shilling", Number := lit "834", Flag := lit "ðŸ‡¹ðŸ‡¿", Decimals := 2 }) ::
  (UAH, { Code := lit "UAH", Name := lit "Ukrainian hryvnia", Number := lit "980", Flag := lit "ðŸ‡ºðŸ‡¦", Decimals := 2 }) ::
  (UGX, { Code := lit "UGX", Name := lit "Ugandan shilling", Number := lit "800", Flag := lit "ðŸ‡ºðŸ‡¬", Decimals := 2 }) ::
  (USD, { Code := lit "USD", Name := lit "United States dollar", Number := lit "840", Flag := lit "ðŸ‡ºðŸ‡¸", Decimals := 2 }) ::
  (USN, { Code := lit "USN", Name := lit "United States dollar (next day) (funds code)", Number := lit "997", Flag := lit "", Decimals := 2 }) ::
  (USS, { Code := lit "USS", Name := lit "United States dollar (same day) (funds code)", Number := lit "998", Flag := lit "", Decimals := 2 }) ::
  (UYI, { Code := lit "UYI", Name := lit "Uruguay Peso en Unidades Indexadas (URUIURUI) (funds code)", Number := lit "940", Flag := lit "", Decimals := 0 }) ::
  (UYU, { Code := lit "UYU", Name := lit "Uruguayan peso", Number := lit "858", Flag := lit "ðŸ‡ºðŸ‡¾", Decimals := 2 }) ::
  (UZS, { Code := lit "UZS", Name := lit "Uzbekistan som", Number := lit "860", Flag := lit "ðŸ‡ºðŸ‡¿", Decimals := 2 }) ::
  (VEF, { Code := lit "VEF", Name := lit "Venezuelan bolÃ\u00advar fuerte", Number := lit "937", Flag := lit "", Decimals := 2 }) ::
  (VND, { Code := lit "VND", Name := lit "Vietnamese dong", Number := lit "704", Flag := lit "ðŸ‡»ðŸ‡³", Decimals := 0 }) ::
  (VUV, { Code := lit "VUV", Name := lit "Vanuatu vatu", Number := lit "548", Flag := lit "ðŸ‡»ðŸ‡º", Decimals := 0 }) ::
  (WST, { Code := lit "WST", Name := lit "Samoan tala", Number := lit "882", Flag := lit "ðŸ‡¼ðŸ‡¸", Decimals := 2 }) ::
  (XAF, { Code := lit "XAF", Name := lit "CFA franc BEAC", Number := lit "950", Flag := lit "ðŸ‡¨ðŸ‡²", Decimals := 0 }) ::
  (XAG, { Code := lit "XAG", Name := lit "Silver (one troy ounce)", Number := lit "961", Flag := lit "", Decimals := 0 }) ::
  (XAU, { Code := lit "XAU", Name := lit "Gold (one troy ounce)", Number := lit "959", Flag := lit "", Decimals := 0 }) ::
  (XBA, { Code := lit "XBA", Name := lit "European Composite Unit (EURCO) (bond market unit)", Number := lit "955", Flag := lit "", Decimals := 0 }) ::
  (XBB, { Code := lit "XBB", Name := lit "European Monetary Unit (E.M.U.-6) (bond market unit)", Number := lit "956", Flag := lit "", Decimals := 0 }) ::
  (XBC, { Code := lit "XBC", Name := lit "European Unit of Account 9 (E.U.A.-9) (bond market unit)", Number := lit "957", Flag := lit "", Decimals := 0 }) ::
  (XBD, { Code := lit "XBD", Name := lit "European Unit of Account 17 (E.U.A.-17) (bond market unit)", Number := lit "958", Flag := lit "", Decimals := 0 }) ::
  (XCD, { Code := lit "XCD", Name := lit "East Caribbean dollar", Number := lit "951", Flag := lit "ðŸ‡¦ðŸ‡®", Decimals := 2 }) ::
  (XDR, { Code := lit "XDR", Name := lit "Special drawing rights", Number := lit "960", Flag := lit "", Decimals := 0 }) ::
  (XFU, { Code := lit "XFU", Name := lit "UIC franc (special settlement currency)", Number := lit "Nil", Flag := lit "", Decimals := 0 }) ::
  (XOF, { Code := lit "XOF", Name := lit "CFA franc BCEAO", Number := lit "952", Flag := lit "ðŸ‡§ðŸ‡¯", Decimals := 0 }) ::
  (XPD, { Code := lit "XPD", Name := lit "Palladium (one troy ounce)", Number := lit "964", Flag := lit "", Decimals := 0 }) ::
  (XPF, { Code := lit "XPF", Name := lit "CFP franc", Number := lit "953", Flag := lit "ðŸ‡µðŸ‡«", Decimals := 0 }) ::
  (XPT, { Code := lit "XPT", Name := lit "Platinum (one troy ounce)", Number := lit "962", Flag := lit "", Decimals := 0 }) ::
  (XTS, { Code := lit "XTS", Name := lit "Code reserved for testing purposes", Number := lit "963", Flag := lit "", Decimals := 0 }) ::
  (XXX, { Code := lit "XXX", Name := lit "No currency", Number := lit "999", Flag := lit "", Decimals := 0 }) ::
  (YER, { Code := lit "YER", Name := lit "Yemeni rial", Number := lit "886", Flag := lit "ðŸ‡¾ðŸ‡ª", Decimals := 2 }) ::
  (ZAR, { Code := lit "ZAR", Name := lit "South African rand", Number := lit "710", Flag := lit "ðŸ‡¿ðŸ‡¦", Decimals := 2 }) ::
  (ZMW, { Code := lit "ZMW", Name := lit "Zambian kwacha", Number := lit "967", Flag := lit "ðŸ‡¿ðŸ‡²", Decimals := 2 }) ::
  []

/-- The reverse index `stringToCurrencyCode`. -/
def stringToCurrencyCode : List (GoString × CurrencyCode) := [
  (lit "AED", AED), (lit "AFN", AFN), (lit "ALL", ALL), (lit "AMD", AMD), (lit "ANG", ANG), (lit "AOA", AOA), (lit "ARS", ARS), (lit "AUD", AUD), (lit "AWG", AWG), (lit "AZN", AZN),
  (lit "BAM", BAM), (lit "BBD", BBD), (lit "BDT", BDT), (lit "BGN", BGN), (lit "BHD", BHD), (lit "BIF", BIF), (lit "BMD", BMD), (lit "BND", BND), (lit "BOB", BOB), (lit "BOV", BOV),
  (lit "BRL", BRL), (lit "BSD", BSD), (lit "BTN", BTN), (lit "BWP", BWP), (lit "BYR", BYR), (lit "BZD", BZD), (lit "CAD", CAD), (lit "CDF", CDF), (lit "CHE", CHE), (lit "CHF", CHF),
  (lit "CHW", CHW), (lit "CLF", CLF), (lit "CLP", CLP), (lit "CNY", CNY), (lit "COP", COP), (lit "COU", COU), (lit "CRC", CRC), (lit "CUC", CUC), (lit "CUP", CUP), (lit "CVE", CVE),
  (lit "CZK", CZK), (lit "DJF", DJF), (lit "DKK", DKK), (lit "DOP", DOP), (lit "DZD", DZD), (lit "EGP", EGP), (lit "ERN", ERN), (lit "ETB", ETB), (lit "EUR", EUR), (lit "FJD", FJD),
  (lit "FKP", FKP), (lit "GBP", GBP), (lit "GEL", GEL), (lit "GHS", GHS), (lit "GIP", GIP), (lit "GMD", GMD), (lit "GNF", GNF), (lit "GTQ", GTQ), (lit "GYD", GYD), (lit "HKD", HKD),
  (lit "HNL", HNL), (lit "HRK", HRK), (lit "HTG", HTG), (lit "HUF", HUF), (lit "IDR", IDR), (lit "ILS", ILS), (lit "INR", INR), (lit "IQD", IQD), (lit "IRR", IRR), (lit "ISK", ISK),
  (lit "JMD", JMD), (lit "JOD", JOD), (lit "JPY", JPY), (lit "KES", KES), (lit "KGS", KGS), (lit "KHR", KHR), (lit "KMF", KMF), (lit "KPW", KPW), (lit "KRW", KRW), (lit "KWD", KWD),
  (lit "KYD", KYD), (lit "KZT", KZT), (lit "LAK", LAK), (lit "LBP", LBP), (lit "LKR", LKR), (lit "LRD", LRD), (lit "LSL", LSL), (lit "LTL", LTL), (lit "LVL", LVL), (lit "LYD", LYD),
  (lit "MAD", MAD), (lit "MDL", MDL), (lit "MGA", MGA), (lit "MKD", MKD), (lit "MMK", MMK), (lit "MNT", MNT), (lit "MOP", MOP), (lit "MRO", MRO), (lit "MUR", MUR), (lit "MVR", MVR),
  (lit "MWK", MWK), (lit "MXN", MXN), (lit "MXV", MXV), (lit "MYR", MYR), (lit "MZN", MZN), (lit "NAD", NAD), (lit "NGN", NGN), (lit "NIO", NIO), (lit "NOK", NOK), (lit "NPR", NPR),
  (lit "NZD", NZD), (lit "OMR", OMR), (lit "PAB", PAB), (lit "PEN", PEN), (lit "PGK", PGK), (lit "PHP", PHP), (lit "PKR", PKR), (lit "PLN", PLN), (lit "PYG", PYG), (lit "QAR", QAR),
  (lit "RON", RON), (lit "RSD", RSD), (lit "RUB", RUB), (lit "RWF", RWF), (lit "SAR", SAR), (lit "SBD", SBD), (lit "SCR", SCR), (lit "SDG", SDG), (lit "SEK", SEK), (lit "SGD", SGD),
  (lit "SHP", SHP), (lit "SLL", SLL), (lit "SOS", SOS), (lit "SRD", SRD), (lit "SSP", SSP), (lit "STD", STD), (lit "SYP", SYP), (lit "SZL", SZL), (lit "THB", THB), (lit "TJS", TJS),
  (lit "TMT", TMT), (lit "TND", TND), (lit "TOP", TOP), (lit "TRY", TRY), (lit "TTD", TTD), (lit "TWD", TWD), (lit "TZS", TZS), (lit "UAH", UAH), (lit "UGX", UGX), (lit "USD", USD),
  (lit "USN", USN), (lit "USS", USS), (lit "UYI", UYI), (lit "UYU", UYU), (lit "UZS", UZS), (lit "VEF", VEF), (lit "VND", VND), (lit "VUV", VUV), (lit "WST", WST), (lit "XAF", XAF),
  (lit "XAG", XAG), (lit "XAU", XAU), (lit "XBA", XBA), (lit "XBB", XBB), (lit "XBC", XBC), (lit "XBD", XBD), (lit "XCD", XCD), (lit "XDR", XDR), (lit "XFU", XFU), (lit "XOF", XOF),
  (lit "XPD", XPD), (lit "XPF", XPF), (lit "XPT", XPT), (lit "XTS", XTS), (lit "XXX", XXX), (lit "YER", YER), (lit "ZAR", ZAR), (lit "ZMW", ZMW)
]

/-- String returns string representation of the code. -/
def CurrencyCode.String (c : CurrencyCode) : GoString := (mapIndex currencyCodesDetails c).Code

/-- Name returns a currency name. -/
def CurrencyCode.Name (c : CurrencyCode) : GoString := (mapIndex currencyCodesDetails c).Name

/-- Number returns a currency number related to the CurrencyCode. -/
def CurrencyCode.Number (c : CurrencyCode) : GoString := (mapIndex currencyCodesDetails c).Number

/-- Flag returns an emoji flag for the country code. -/
def CurrencyCode.Flag (c : CurrencyCode) : GoString := (mapIndex currencyCodesDetails c).Flag

/-- Method `(c *CurrencyCode) UnmarshalJSON(b []byte) error`: the first argument is
the receiver's value before the call, the first result its value after. -/
def CurrencyCode.UnmarshalJSON (c : CurrencyCode) (b : GoString) : CurrencyCode × Option Error :=
  if b.length = 0 then (c, some ErrUnmarshalJSON)
  else
    match mapGet stringToCurrencyCode b with
    | none => (c, some ErrUnmarshalJSON)
    | some code => (code, none)

/-- Method `(c CurrencyCode) MarshalJSON() ([]byte, error)`. -/
def CurrencyCode.MarshalJSON (c : CurrencyCode) : Option GoString × Option Error :=
  let code := CurrencyCode.String c
  if code = lit "" then (none, some ErrMarshalJSON)
  else (some (lit "\"" ++ code ++ lit "\""), none)

/-- Method `UnmarshalText`: `return c.UnmarshalJSON(b)`. -/
def CurrencyCode.UnmarshalText (c : CurrencyCode) (b : GoString) : CurrencyCode × Option Error :=
  CurrencyCode.UnmarshalJSON c b

/-- Method `MarshalText`: `return c.MarshalJSON()`. -/
def CurrencyCode.MarshalText (c : CurrencyCode) : Option GoString × Option Error :=
  CurrencyCode.MarshalJSON c

/-- StringToCurrencyCode takes string representation of an ISO currency code
and returns a CurrencyCode. -/
def StringToCurrencyCode (mapUpper : GoString → GoString) (code : GoString) :
    CurrencyCode × Option Error :=
  if code.length > 3 then (0, some ErrInvalidStringCode)
  else
    match mapGet stringToCurrencyCode (ToUpper mapUpper code) with
    | none => (0, some ErrInvalidStringCode)
    | some c => (c, none)

/-! ## The constant blocks -/

/-- The constants of the `CountryCode` block, in the order of their declaration. -/
def countryCodeConstants : List CountryCode := [
  AD, AE, AF, AG, AI, AL, AM, AO, AQ, AR, AS, AT,
  AU, AW, AX, AZ, BA, BB, BD, BE, BF, BG, BH, BI,
  BJ, BL, BM, BN, BO, BQ, BR, BS, BT, BV, BW, BY,
  BZ, CA, CC, CD, CF, CG, CH, CI, CK, CL, CM, CN,
  CO, CR, CU, CV, CW, CX, CY, CZ, DE, DJ, DK, DM,
  DO, DZ, EC, EE, EG, EH, ER, ES, ET, FI, FJ, FK,
  FM, FO, FR, GA, GB, GD, GE, GF, GG, GH, GI, Isocodes.GL,
  GM, GN, GP, GQ, GR, GS, GT, GU, GW, GY, HK, HM,
  HN, HR, HT, HU, ID, IE, IL, IM, IN, Isocodes.IO, IQ, IR,
  IS, IT, JE, JM, JO, JP, KE, KG, KH, KI, KM, KN,
  KP, KR, KW, KY, KZ, LA, LB, LC, LI, LK, LR, LS,
  LT, LU, LV, LY, MA, MC, MD, ME, MF, MG, MH, MK,
  ML, MM, MN, MO, MP, MQ, MR, MS, MT, MU, MV, MW,
  MX, MY, MZ, NA, NC, NE, NF, NG, NI, NL, NO, NP,
  NR, NU, NZ, OM, PA, PE, PF, PG, PH, PK, PL, PM,
  PN, PR, PS, PT, PW, PY, QA, RE, RO, RS, RU, RW,
  SA, SB, SC, SD, SE, SG, SH, SI, SJ, SK, SL, SM,
  SN, SO, SR, SS, ST, SV, SX, SY, SZ, TC, TD, TF,
  TG, TH, TJ, TK, TL, TM, TN, TO, TR, TT, TV, TW,
  TZ, UA, UG, UM, US, UY, UZ, VA, VC, VE, VG, VI,
  VN, VU, WF, WS, YE, YT, ZA, ZM, ZW
]

/-- The constants of the `CurrencyCode` block, in the order of their declaration. -/
def currencyCodeConstants : List CurrencyCode := [
  AED, AFN, ALL, AMD, ANG, AOA, ARS, AUD, AWG, AZN,
  BAM, BBD, BDT, BGN, BHD, BIF, BMD, BND, BOB, BOV,
  BRL, BSD, BTN, BWP, BYR, BZD, CAD, CDF, CHE, CHF,
  CHW, CLF, CLP, CNY, COP, COU, CRC, CUC, CUP, CVE,
  CZK, DJF, DKK, DOP, DZD, EGP, ERN, ETB, EUR, FJD,
  FKP, GBP, GEL, GHS, GIP, GMD, GNF, GTQ, GYD, HKD,
  HNL, HRK, HTG, HUF, IDR, ILS, INR, IQD, IRR, ISK,
  JMD, JOD, JPY, KES, KGS, KHR, KMF, KPW, KRW, KWD,
  KYD, KZT, LAK, LBP, LKR, LRD, LSL, LTL, LVL, LYD,
  MAD, MDL, MGA, MKD, MMK, MNT, MOP, MRO, MUR, MVR,
  MWK, MXN, MXV, MYR, MZN, NAD, NGN, NIO, NOK, NPR,
  NZD, OMR, PAB, PEN, PGK, PHP, PKR, PLN, PYG, QAR,
  RON, RSD, RUB, RWF, SAR, SBD, SCR, SDG, SEK, SGD,
  SHP, SLL, SOS, SRD, SSP, STD, SYP, SZL, THB, TJS,
  TMT, TND, TOP, TRY, TTD, TWD, TZS, UAH, UGX, USD,
  USN, USS, UYI, UYU, UZS, VEF, VND, VUV, WST, XAF,
  XAG, XAU, XBA, XBB, XBC, XBD, XCD, XDR, XFU, XOF,
  XPD, XPF, XPT, XTS, XXX, YER, ZAR, ZMW
]

/-! ## ListCountryCodes -/

/-- Go's `<` on strings: the byte-wise lexicographic order. -/
def strLt : GoString → GoString → Bool
  | _, [] => false
  | [], _ :: _ => true
  | a :: s, b :: t => if a < b then true else if b < a then false else strLt s t

/-- The function `ListCountryCodes` passes to `sort.Slice`:
`codes[i].String() < codes[j].String()`. -/
def countryLess (a b : CountryCode) : Bool :=
  strLt (CountryCode.String a) (CountryCode.String b)

/-- One element put into a list, after the elements at its front that are less
than it. -/
def insertByLess {α : Type} (less : α → α → Bool) (a : α) : List α → List α
  | [] => [a]
  | b :: l => if less b a then b :: insertByLess less a l else a :: b :: l

/-- Go `sort.Slice(x, less)`, run as an insertion sort. The algorithm of the
standard library is another one and is not stable; what any of them guarantees
is `SortSliceResult`. -/
def sortSlice {α : Type} (less : α → α → Bool) : List α → List α
  | [] => []
  | a :: l => insertByLess less a (sortSlice less l)

/-- What `sort.Slice(x, less)` guarantees of the slice `out` it leaves for the
slice `inp` it was given: the same elements, rearranged so that no element is
less than one that stands before it. -/
def SortSliceResult {α : Type} (less : α → α → Bool) (inp out : List α) : Prop :=
  out.Perm inp ∧ out.Pairwise (fun a b => less b a = false)

/-- The body of `ListCountryCodes` for one order in which `range` visits the
entries of `stringToCountryCode`: the values appended in that order, then sorted
with `countryLess`. -/
def ListCountryCodesIn (order : List (GoString × CountryCode)) : List CountryCode :=
  sortSlice countryLess (order.map Prod.snd)

/-- ListCountryCodes returns a list of CountryCode. Here `range` visits the map in
the order of the literal; Go leaves the order open, see `ListCountryCodesReturns`. -/
def ListCountryCodes : List CountryCode := ListCountryCodesIn stringToCountryCode

/-- The lists a call of `ListCountryCodes` may return: for some order in which
`range` visits the entries of the map, a result of `sort.Slice` on the values
appended in that order. -/
def ListCountryCodesReturns (out : List CountryCode) : Prop :=
  ∃ order : List (GoString × CountryCode), order.Perm stringToCountryCode ∧
    SortSliceResult countryLess (order.map Prod.snd) out

/-! ## Upper case outside ASCII -/

/-- Go `utf8.RuneError`, the rune U+FFFD. -/
def RuneError : Nat := 0xFFFD

/-- Go `utf8.DecodeRuneInString`: the first rune of the string and the number of
bytes it takes. A byte that starts no well-formed UTF-8 sequence is `RuneError`
of width 1. -/
def decodeRune : GoString → Nat × Nat
  | [] => (RuneError, 0)
  | s0 :: rest =>
    if s0 < 0x80 then (s0, 1)
    else if s0 < 0xC2 then (RuneError, 1)
    else if s0 < 0xE0 then
      match rest with
      | s1 :: _ =>
        if 0x80 ≤ s1 ∧ s1 ≤ 0xBF then (s0 % 0x20 * 0x40 + s1 % 0x40, 2) else (RuneError, 1)
      | [] => (RuneError, 1)
    else if s0 < 0xF0 then
      match rest with
      | s1 :: s2 :: _ =>
        if (if s0 = 0xE0 then 0xA0 else 0x80) ≤ s1 ∧ s1 ≤ (if s0 = 0xED then 0x9F else 0xBF) ∧
            0x80 ≤ s2 ∧ s2 ≤ 0xBF then
          (s0 % 0x10 * 0x1000 + s1 % 0x40 * 0x40 + s2 % 0x40, 3)
        else (RuneError, 1)
      | _ => (RuneError, 1)
    else if s0 < 0xF5 then
      match rest with
      | s1 :: s2 :: s3 :: _ =>
        if (if s0 = 0xF0 then 0x90 else 0x80) ≤ s1 ∧ s1 ≤ (if s0 = 0xF4 then 0x8F else 0xBF) ∧
            0x80 ≤ s2 ∧ s2 ≤ 0xBF ∧ 0x80 ≤ s3 ∧ s3 ≤ 0xBF then
          (s0 % 0x08 * 0x40000 + s1 % 0x40 * 0x1000 + s2 % 0x40 * 0x40 + s3 % 0x40, 4)
        else (RuneError, 1)
      | _ => (RuneError, 1)
    else (RuneError, 1)

/-- The runes `for _, c := range s` visits, at most `n` of them. -/
def runesUpTo : Nat → GoString → List Nat
  | 0, _ => []
  | _ + 1, [] => []
  | n + 1, b :: s =>
    (decodeRune (b :: s)).1 :: runesUpTo n ((b :: s).drop (decodeRune (b :: s)).2)

/-- The runes `for _, c := range s` visits: each step takes at least one byte, so
`len(s)` steps reach the end. -/
def runes (s : GoString) : List Nat := runesUpTo s.length s

/-- Go `utf8.AppendRune`: the UTF-8 bytes of a rune, those of `RuneError` for a
surrogate or a value above U+10FFFF. -/
def appendRune (r : Nat) : GoString :=
  if (0xD800 ≤ r ∧ r ≤ 0xDFFF) ∨ 0x10FFFF < r then utf8EncodeRune RuneError
  else utf8EncodeRune r

/-- The bytes of a sequence of runes, each one mapped first. -/
def mapRunes (mapping : Nat → Nat) : List Nat → GoString
  | [] => []
  | r :: rs => appendRune (mapping r) ++ mapRunes mapping rs

/-- Go `strings.Map(mapping, s)` for a mapping that drops no rune: the runes of
`s`, an ill-formed byte as `RuneError`, each mapped and written in UTF-8. -/
def stringsMap (mapping : Nat → Nat) (s : GoString) : GoString := mapRunes mapping (runes s)

/-- The entries of Go `unicode.ToUpper` that the examples below use: `'a'..'z'`
go to `'A'..'Z'`, U+0131 (dotless i) goes to `'I'` and U+017F (long s) to `'S'`.
Every other rune is returned as it is, which the standard library does for the
runes without an upper-case form only; the examples hold no other rune. -/
def unicodeToUpperSample (r : Nat) : Nat :=
  if 97 ≤ r ∧ r ≤ 122 then r - (97 - 65)
  else if r = 0x131 then 0x49
  else if r = 0x17F then 0x53
  else r

/-- Go `unicode.ToUpper`: an ASCII rune in `'a'..'z'` is lowered by `'a' - 'A'` and
any other ASCII rune is returned as it is; a rune above `unicode.MaxASCII` is
looked up in the case tables of the standard library, here the parameter
`table`. -/
def unicodeToUpper (table : Nat → Nat) (r : Nat) : Nat :=
  if r ≤ 0x7F then (if 97 ≤ r ∧ r ≤ 122 then r - (97 - 65) else r) else table r

/-! ## Checks on lists of strings -/

/-- The bytes of a string read as one number, most significant byte first. -/
def byteValue (s : GoString) : Nat := s.foldl (fun a x => a * 256 + x) 0

/-- Adjacent elements increase strictly. -/
def increasing : List Nat → Bool
  | a :: b :: l => decide (a < b) && increasing (b :: l)
  | _ => true

/-- Every string of the list is less than the one after it, in the order of Go's
`<` on strings. -/
def sortedStrings : List GoString → Bool
  | a :: b :: l => strLt a b && sortedStrings (b :: l)
  | _ => true

/-- The digits of a string read as one decimal number. -/
def decimalValue (s : GoString) : Nat := s.foldl (fun a x => a * 10 + (x - 48)) 0

/-- No number of the list is one of the numbers marked in the bit set `seen` and
no number stands twice in the list. -/
def distinctFrom : List Nat → Nat → Bool
  | [], _ => true
  | a :: l, seen => !(seen.testBit a) && distinctFrom l (seen ||| 1 <<< a)

/-! ## Map lookups -/

/-- A lookup misses exactly when the key is not among the keys of the literal. -/
theorem mapGet_eq_none_iff {K V : Type} [DecidableEq K] (m : List (K × V)) (x : K) :
    mapGet m x = none ↔ x ∉ mapKeys m := by
  induction m with
  | nil => simp [mapGet, mapKeys]
  | cons p m ih =>
    obtain ⟨k, v⟩ := p
    by_cases h : x = k
    · simp [mapGet, mapKeys, h]
    · simpa [mapGet, mapKeys, h] using ih

/-- A lookup that hits returns a value listed with that key. -/
theorem mapGet_some_mem {K V : Type} [DecidableEq K] (m : List (K × V)) (x : K) (v : V)
    (h : mapGet m x = some v) : (x, v) ∈ m := by
  induction m with
  | nil => simp [mapGet] at h
  | cons p m ih =>
    obtain ⟨k, w⟩ := p
    by_cases hk : x = k
    · simp [mapGet, hk] at h
      simp [hk, h]
    · simp [mapGet, hk] at h
      exact List.mem_cons_of_mem _ (ih h)

/-- A key that hits is one of the keys of the literal. -/
theorem mapGet_some_key {K V : Type} [DecidableEq K] (m : List (K × V)) (x : K) (v : V)
    (h : mapGet m x = some v) : x ∈ mapKeys m := by
  by_contra hx
  rw [(mapGet_eq_none_iff m x).mpr hx] at h
  exact Option.noConfusion h

/-- In a literal without a repeated key, a listed pair is what the lookup of its
key returns. -/
theorem mapGet_of_mem {K V : Type} [DecidableEq K] (m : List (K × V))
    (hn : (mapKeys m).Nodup) (x : K) (v : V) (h : (x, v) ∈ m) : mapGet m x = some v := by
  induction m with
  | nil => simp at h
  | cons p m ih =>
    obtain ⟨k, w⟩ := p
    have hn2 : k ∉ mapKeys m ∧ (mapKeys m).Nodup := by simpa [mapKeys] using hn
    by_cases hk : x = k
    · subst hk
      rcases List.mem_cons.mp h with h1 | h1
      · simp only [Prod.mk.injEq] at h1
        simp [mapGet, h1.2]
      · exact absurd (List.mem_map_of_mem Prod.fst h1) hn2.1
    · rcases List.mem_cons.mp h with h1 | h1
      · simp only [Prod.mk.injEq] at h1
        exact absurd h1.1 hk
      · simpa [mapGet, hk] using ih hn2.2 h1

/-- A list whose adjacent elements increase strictly has increasing pairs. -/
theorem pairwise_of_increasing (l : List Nat) (h : increasing l = true) :
    l.Pairwise (fun a b => a < b) := by
  apply List.chain'_iff_pairwise.mp
  induction l with
  | nil => exact List.chain'_nil
  | cons a l ih =>
    cases l with
    | nil => exact List.chain'_singleton a
    | cons b l =>
      simp only [increasing, Bool.and_eq_true, decide_eq_true_eq] at h
      exact List.chain'_cons.mpr ⟨h.1, ih h.2⟩

/-- A list of strings whose values as numbers increase strictly has no
repeated string. -/
theorem nodup_of_byteValue_increasing (l : List GoString)
    (h : increasing (l.map byteValue) = true) : l.Nodup :=
  List.Nodup.of_map byteValue ((pairwise_of_increasing _ h).imp (fun hab => Nat.ne_of_lt hab))

/-! ## Facts of the country tables -/

/-- The keys of `countryCodesDetails` are 1, 2, ..., 249 in this order. -/
theorem countryCodesDetails_keys :
    countryCodesDetails.map (fun p => p.1.val) = List.range' 1 249 := by decide!

/-- The reverse index lists, in the order of the forward table, each record's
Alpha2 code with the record's identifier. -/
theorem stringToCountryCode_eq :
    stringToCountryCode = countryCodesDetails.map (fun p => (p.2.Alpha2, p.1)) := by decide!

/-- Every Alpha2 code of the forward table is two bytes in `'A'..'Z'`. -/
theorem countryCodesDetails_Alpha2 :
    ∀ p ∈ countryCodesDetails, p.2.Alpha2.length = 2 ∧ ∀ x ∈ p.2.Alpha2, 65 ≤ x ∧ x ≤ 90 := by
  decide!

/-- The keys of the country reverse index, read as numbers, increase strictly. -/
theorem stringToCountryCode_increasing :
    increasing ((mapKeys stringToCountryCode).map byteValue) = true := by decide!

/-- The forward table has no repeated key. -/
theorem countryCodesDetails_nodup : (mapKeys countryCodesDetails).Nodup := by
  apply List.Nodup.of_map (fun c : CountryCode => c.val)
  have h := countryCodesDetails_keys
  simp only [mapKeys, List.map_map] at h ⊢
  have h2 : (List.map ((fun c : CountryCode => c.val) ∘ Prod.fst) countryCodesDetails) =
      List.range' 1 249 := h
  rw [h2]
  exact List.nodup_range' 1 249

/-- The identifiers with a record are those from 1 to 249. -/
theorem countryCodesDetails_mem_keys (c : CountryCode) :
    c ∈ mapKeys countryCodesDetails ↔ (1 ≤ c.val ∧ c.val ≤ 249) := by
  have h : c.val ∈ countryCodesDetails.map (fun p => p.1.val) ↔ c ∈ mapKeys countryCodesDetails := by
    simp only [mapKeys, List.mem_map]
    constructor
    · rintro ⟨p, hp, hv⟩
      exact ⟨p, hp, Fin.ext hv⟩
    · rintro ⟨p, hp, hv⟩
      exact ⟨p, hp, by rw [hv]⟩
  rw [← h, countryCodesDetails_keys, List.mem_range'_1]
  omega

/-- The accessor `String` of the identifier of a listed record is the record's
Alpha2 code. -/
theorem country_String_of_mem (c : CountryCode) (d : CountryCodeDetails)
    (h : (c, d) ∈ countryCodesDetails) : CountryCode.String c = d.Alpha2 := by
  unfold CountryCode.String mapIndex
  rw [mapGet_of_mem _ countryCodesDetails_nodup c d h]
  rfl

/-- An identifier without a record has the empty string as its `String`. -/
theorem country_String_of_invalid (c : CountryCode) (h : ¬ (1 ≤ c.val ∧ c.val ≤ 249)) :
    CountryCode.String c = [] := by
  unfold CountryCode.String mapIndex
  rw [(mapGet_eq_none_iff _ c).mpr (fun hc => h ((countryCodesDetails_mem_keys c).mp hc))]
  rfl

/-- An identifier from 1 to 249 has a record; its `String` is that record's
Alpha2 code, two bytes in `'A'..'Z'`, and the reverse index maps it back. -/
theorem country_String_of_valid (c : CountryCode) (h : 1 ≤ c.val ∧ c.val ≤ 249) :
    (CountryCode.String c).length = 2 ∧ (∀ x ∈ CountryCode.String c, 65 ≤ x ∧ x ≤ 90) ∧
    (CountryCode.String c, c) ∈ stringToCountryCode := by
  have hk := (countryCodesDetails_mem_keys c).mpr h
  simp only [mapKeys, List.mem_map] at hk
  obtain ⟨⟨c1, d⟩, hp, hc⟩ := hk
  simp only at hc
  subst hc
  rw [country_String_of_mem c1 d hp]
  refine ⟨(countryCodesDetails_Alpha2 _ hp).1, (countryCodesDetails_Alpha2 _ hp).2, ?_⟩
  rw [stringToCountryCode_eq]
  exact List.mem_map.mpr ⟨(c1, d), hp, rfl⟩

/-- Every entry of the country reverse index maps a string to an identifier
from 1 to 249 whose `String` is that string. -/
theorem stringToCountryCode_String (k : GoString) (c : CountryCode)
    (h : (k, c) ∈ stringToCountryCode) :
    CountryCode.String c = k ∧ 1 ≤ c.val ∧ c.val ≤ 249 := by
  rw [stringToCountryCode_eq] at h
  obtain ⟨⟨c1, d⟩, hp, he⟩ := List.mem_map.mp h
  simp only [Prod.mk.injEq] at he
  rw [← he.1, ← he.2]
  exact ⟨country_String_of_mem c1 d hp,
    (countryCodesDetails_mem_keys c1).mp (List.mem_map.mpr ⟨(c1, d), hp, rfl⟩)⟩

/-- The country reverse index has 249 keys, pairwise distinct, each of two bytes
in `'A'..'Z'`. -/
theorem stringToCountryCode_keys :
    (mapKeys stringToCountryCode).length = 249 ∧
    (mapKeys stringToCountryCode).Nodup ∧
    ∀ k ∈ mapKeys stringToCountryCode, k.length = 2 ∧ ∀ x ∈ k, 65 ≤ x ∧ x ≤ 90 := by
  refine ⟨?_, nodup_of_byteValue_increasing _ stringToCountryCode_increasing, ?_⟩
  · have h := congrArg List.length countryCodesDetails_keys
    rw [stringToCountryCode_eq]
    simpa [mapKeys] using h
  · intro k hk
    simp only [mapKeys, List.mem_map] at hk
    obtain ⟨⟨k1, c⟩, hp, he⟩ := hk
    simp only at he
    subst he
    rw [stringToCountryCode_eq] at hp
    obtain ⟨q, hq, he⟩ := List.mem_map.mp hp
    simp only [Prod.mk.injEq] at he
    rw [← he.1]
    exact countryCodesDetails_Alpha2 q hq

/-! ## Facts of the currency tables -/

/-- The keys of `currencyCodesDetails` are 1, 2, ..., 178 in this order. -/
theorem currencyCodesDetails_keys :
    currencyCodesDetails.map (fun p => p.1.val) = List.range' 1 178 := by decide!

/-- The reverse index lists, in the order of the forward table, each record's
code with the record's identifier. -/
theorem stringToCurrencyCode_eq :
    stringToCurrencyCode = currencyCodesDetails.map (fun p => (p.2.Code, p.1)) := by decide!

/-- Every code of the forward table is three bytes in `'A'..'Z'`. -/
theorem currencyCodesDetails_Code :
    ∀ p ∈ currencyCodesDetails, p.2.Code.length = 3 ∧ ∀ x ∈ p.2.Code, 65 ≤ x ∧ x ≤ 90 := by
  decide!

/-- The keys of the currency reverse index, read as numbers, increase strictly. -/
theorem stringToCurrencyCode_increasing :
    increasing ((mapKeys stringToCurrencyCode).map byteValue) = true := by decide!

/-- The forward table has no repeated key. -/
theorem currencyCodesDetails_nodup : (mapKeys currencyCodesDetails).Nodup := by
  apply List.Nodup.of_map (fun c : CurrencyCode => c.val)
  have h := currencyCodesDetails_keys
  simp only [mapKeys, List.map_map] at h ⊢
  have h2 : (List.map ((fun c : CurrencyCode => c.val) ∘ Prod.fst) currencyCodesDetails) =
      List.range' 1 178 := h
  rw [h2]
  exact List.nodup_range' 1 178

/-- The identifiers with a record are those from 1 to 178. -/
theorem currencyCodesDetails_mem_keys (c : CurrencyCode) :
    c ∈ mapKeys currencyCodesDetails ↔ (1 ≤ c.val ∧ c.val ≤ 178) := by
  have h : c.val ∈ currencyCodesDetails.map (fun p => p.1.val) ↔ c ∈ mapKeys currencyCodesDetails := by
    simp only [mapKeys, List.mem_map]
    constructor
    · rintro ⟨p, hp, hv⟩
      exact ⟨p, hp, Fin.ext hv⟩
    · rintro ⟨p, hp, hv⟩
      exact ⟨p, hp, by rw [hv]⟩
  rw [← h, currencyCodesDetails_keys, List.mem_range'_1]
  omega

/-- The accessor `String` of the identifier of a listed record is the record's
code. -/
theorem currency_String_of_mem (c : CurrencyCode) (d : CurrencyCodeDetails)
    (h : (c, d) ∈ currencyCodesDetails) : CurrencyCode.String c = d.Code := by
  unfold CurrencyCode.String mapIndex
  rw [mapGet_of_mem _ currencyCodesDetails_nodup c d h]
  rfl

/-- An identifier without a record has the empty string as its `String`. -/
theorem currency_String_of_invalid (c : CurrencyCode) (h : ¬ (1 ≤ c.val ∧ c.val ≤ 178)) :
    CurrencyCode.String c = [] := by
  unfold CurrencyCode.String mapIndex
  rw [(mapGet_eq_none_iff _ c).mpr (fun hc => h ((currencyCodesDetails_mem_keys c).mp hc))]
  rfl

/-- An identifier from 1 to 178 has a record; its `String` is that record's
code, three bytes in `'A'..'Z'`, and the reverse index maps it back. -/
theorem currency_String_of_valid (c : CurrencyCode) (h : 1 ≤ c.val ∧ c.val ≤ 178) :
    (CurrencyCode.String c).length = 3 ∧ (∀ x ∈ CurrencyCode.String c, 65 ≤ x ∧ x ≤ 90) ∧
    (CurrencyCode.String c, c) ∈ stringToCurrencyCode := by
  have hk := (currencyCodesDetails_mem_keys c).mpr h
  simp only [mapKeys, List.mem_map] at hk
  obtain ⟨⟨c1, d⟩, hp, hc⟩ := hk
  simp only at hc
  subst hc
  rw [currency_String_of_mem c1 d hp]
  refine ⟨(currencyCodesDetails_Code _ hp).1, (currencyCodesDetails_Code _ hp).2, ?_⟩
  rw [stringToCurrencyCode_eq]
  exact List.mem_map.mpr ⟨(c1, d), hp, rfl⟩

/-- Every entry of the currency reverse index maps a string to an identifier
from 1 to 178 whose `String` is that string. -/
theorem stringToCurrencyCode_String (k : GoString) (c : CurrencyCode)
    (h : (k, c) ∈ stringToCurrencyCode) :
    CurrencyCode.String c = k ∧ 1 ≤ c.val ∧ c.val ≤ 178 := by
  rw [stringToCurrencyCode_eq] at h
  obtain ⟨⟨c1, d⟩, hp, he⟩ := List.mem_map.mp h
  simp only [Prod.mk.injEq] at he
  rw [← he.1, ← he.2]
  exact ⟨currency_String_of_mem c1 d hp,
    (currencyCodesDetails_mem_keys c1).mp (List.mem_map.mpr ⟨(c1, d), hp, rfl⟩)⟩

/-- The currency reverse index has 178 keys, pairwise distinct, each of three bytes
in `'A'..'Z'`. -/
theorem stringToCurrencyCode_keys :
    (mapKeys stringToCurrencyCode).length = 178 ∧
    (mapKeys stringToCurrencyCode).Nodup ∧
    ∀ k ∈ mapKeys stringToCurrencyCode, k.length = 3 ∧ ∀ x ∈ k, 65 ≤ x ∧ x ≤ 90 := by
  refine ⟨?_, nodup_of_byteValue_increasing _ stringToCurrencyCode_increasing, ?_⟩
  · have h := congrArg List.length currencyCodesDetails_keys
    rw [stringToCurrencyCode_eq]
    simpa [mapKeys] using h
  · intro k hk
    simp only [mapKeys, List.mem_map] at hk
    obtain ⟨⟨k1, c⟩, hp, he⟩ := hk
    simp only at he
    subst he
    rw [stringToCurrencyCode_eq] at hp
    obtain ⟨q, hq, he⟩ := List.mem_map.mp hp
    simp only [Prod.mk.injEq] at he
    rw [← he.1]
    exact currencyCodesDetails_Code q hq

/-! ## Encoding and decoding, case by case -/

/-- A miss in the reverse index: the error, and the receiver as it was. -/
theorem country_unmarshal_of_none (c0 : CountryCode) (b : GoString)
    (h : mapGet stringToCountryCode b = none) :
    CountryCode.UnmarshalJSON c0 b = (c0, some ErrUnmarshalJSON) := by
  unfold CountryCode.UnmarshalJSON
  split
  · rfl
  · rw [h]

/-- A hit in the reverse index: no error, and the receiver set to the value found. -/
theorem country_unmarshal_of_some (c0 code : CountryCode) (b : GoString)
    (h : mapGet stringToCountryCode b = some code) :
    CountryCode.UnmarshalJSON c0 b = (code, none) := by
  have hb : b ≠ [] := by
    intro hb
    have hk := mapGet_some_key _ _ _ h
    rw [hb] at hk
    exact absurd (stringToCountryCode_keys.2.2 _ hk).1 (by decide)
  unfold CountryCode.UnmarshalJSON
  rw [if_neg (by simpa using hb), h]

/-- A miss in the reverse index: the error, and the receiver as it was. -/
theorem currency_unmarshal_of_none (c0 : CurrencyCode) (b : GoString)
    (h : mapGet stringToCurrencyCode b = none) :
    CurrencyCode.UnmarshalJSON c0 b = (c0, some ErrUnmarshalJSON) := by
  unfold CurrencyCode.UnmarshalJSON
  split
  · rfl
  · rw [h]

/-- A hit in the reverse index: no error, and the receiver set to the value found. -/
theorem currency_unmarshal_of_some (c0 code : CurrencyCode) (b : GoString)
    (h : mapGet stringToCurrencyCode b = some code) :
    CurrencyCode.UnmarshalJSON c0 b = (code, none) := by
  have hb : b ≠ [] := by
    intro hb
    have hk := mapGet_some_key _ _ _ h
    rw [hb] at hk
    exact absurd (stringToCurrencyCode_keys.2.2 _ hk).1 (by decide)
  unfold CurrencyCode.UnmarshalJSON
  rw [if_neg (by simpa using hb), h]

/-- The literal of one double quote is the byte 34. -/
theorem lit_quote : lit "\"" = [34] := by decide

/-- The empty literal is the empty string. -/
theorem lit_empty : lit "" = [] := by decide

/-- A string that starts with a double quote is a key of neither reverse index. -/
theorem quoted_not_key (s : GoString) :
    mapGet stringToCountryCode (34 :: s) = none ∧ mapGet stringToCurrencyCode (34 :: s) = none := by
  constructor
  · rw [mapGet_eq_none_iff]
    intro hk
    have h := (stringToCountryCode_keys.2.2 _ hk).2 34 (List.mem_cons_self 34 s)
    omega
  · rw [mapGet_eq_none_iff]
    intro hk
    have h := (stringToCurrencyCode_keys.2.2 _ hk).2 34 (List.mem_cons_self 34 s)
    omega

/-- Encoding an identifier from 1 to 249: its `String` between two double quotes. -/
theorem country_marshal_of_valid (c : CountryCode) (h : 1 ≤ c.val ∧ c.val ≤ 249) :
    CountryCode.MarshalJSON c = (some ([34] ++ CountryCode.String c ++ [34]), none) := by
  have hl := (country_String_of_valid c h).1
  have hne : CountryCode.String c ≠ [] := by
    intro he
    rw [he] at hl
    exact absurd hl (by decide)
  simp only [CountryCode.MarshalJSON, lit_empty, lit_quote, if_neg hne]

/-- Encoding any other country identifier: no bytes and `ErrMarshalJSON`. -/
theorem country_marshal_of_invalid (c : CountryCode) (h : ¬ (1 ≤ c.val ∧ c.val ≤ 249)) :
    CountryCode.MarshalJSON c = (none, some ErrMarshalJSON) := by
  simp only [CountryCode.MarshalJSON, lit_empty, country_String_of_invalid c h, if_true]

/-- Encoding an identifier from 1 to 178: its `String` between two double quotes. -/
theorem currency_marshal_of_valid (c : CurrencyCode) (h : 1 ≤ c.val ∧ c.val ≤ 178) :
    CurrencyCode.MarshalJSON c = (some ([34] ++ CurrencyCode.String c ++ [34]), none) := by
  have hl := (currency_String_of_valid c h).1
  have hne : CurrencyCode.String c ≠ [] := by
    intro he
    rw [he] at hl
    exact absurd hl (by decide)
  simp only [CurrencyCode.MarshalJSON, lit_empty, lit_quote, if_neg hne]

/-- Encoding any other currency identifier: no bytes and `ErrMarshalJSON`. -/
theorem currency_marshal_of_invalid (c : CurrencyCode) (h : ¬ (1 ≤ c.val ∧ c.val ≤ 178)) :
    CurrencyCode.MarshalJSON c = (none, some ErrMarshalJSON) := by
  simp only [CurrencyCode.MarshalJSON, lit_empty, currency_String_of_invalid c h, if_true]

/-! ## The claims -/

/-- C1 (the code breaks it): a round trip through the text or JSON codec of a
country identifier does not give the identifier back. `MarshalText` and
`MarshalJSON` of `US` return the four bytes `"US"`, quotes included, and
`UnmarshalText` and `UnmarshalJSON` of these bytes return `ErrUnmarshalJSON`;
the same happens for every identifier from 1 to 249, whatever the receiver. -/
theorem country_round_trip_fails :
    CountryCode.MarshalText US = (some (lit "\"US\""), none) ∧
    CountryCode.UnmarshalText 0 (lit "\"US\"") = (0, some ErrUnmarshalJSON) ∧
    CountryCode.MarshalJSON US = (some (lit "\"US\""), none) ∧
    CountryCode.UnmarshalJSON 0 (lit "\"US\"") = (0, some ErrUnmarshalJSON) ∧
    ∀ c c0 : CountryCode, 1 ≤ c.val ∧ c.val ≤ 249 →
      ∃ b, CountryCode.MarshalText c = (some b, none) ∧
        CountryCode.UnmarshalText c0 b = (c0, some ErrUnmarshalJSON) := by
  refine ⟨by decide!, by decide!, by decide!, by decide!, ?_⟩
  intro c c0 h
  exact ⟨_, country_marshal_of_valid c h, country_unmarshal_of_none c0 _ (quoted_not_key _).1⟩

/-- C2 (the code breaks it): a round trip through the text or JSON codec of a
currency identifier does not give the identifier back. `MarshalText` and
`MarshalJSON` of `USD` return the five bytes `"USD"`, quotes included, and
`UnmarshalText` and `UnmarshalJSON` of these bytes return `ErrUnmarshalJSON`;
the same happens for every identifier from 1 to 178, whatever the receiver. -/
theorem currency_round_trip_fails :
    CurrencyCode.MarshalText USD = (some (lit "\"USD\""), none) ∧
    CurrencyCode.UnmarshalText 0 (lit "\"USD\"") = (0, some ErrUnmarshalJSON) ∧
    CurrencyCode.MarshalJSON USD = (some (lit "\"USD\""), none) ∧
    CurrencyCode.UnmarshalJSON 0 (lit "\"USD\"") = (0, some ErrUnmarshalJSON) ∧
    ∀ c c0 : CurrencyCode, 1 ≤ c.val ∧ c.val ≤ 178 →
      ∃ b, CurrencyCode.MarshalText c = (some b, none) ∧
        CurrencyCode.UnmarshalText c0 b = (c0, some ErrUnmarshalJSON) := by
  refine ⟨by decide!, by decide!, by decide!, by decide!, ?_⟩
  intro c c0 h
  exact ⟨_, currency_marshal_of_valid c h, currency_unmarshal_of_none c0 _ (quoted_not_key _).2⟩

/-- C3: `CountryCode.MarshalJSON` on each of the 256 values. For `c` from 1 to
249 it returns no error and the four bytes double quote, the two bytes of
`c.String()` (both in `'A'..'Z'`), double quote; for any other `c` it returns
nil bytes and `ErrMarshalJSON`. It fails exactly when `c.String()` is empty, and
for `US` the bytes are `"US"`. -/
theorem CountryCode_MarshalJSON_spec (c : CountryCode) :
    ((1 ≤ c.val ∧ c.val ≤ 249) →
      (CountryCode.String c).length = 2 ∧
      (∀ x ∈ CountryCode.String c, 65 ≤ x ∧ x ≤ 90) ∧
      CountryCode.MarshalJSON c = (some ([34] ++ CountryCode.String c ++ [34]), none)) ∧
    (¬ (1 ≤ c.val ∧ c.val ≤ 249) → CountryCode.MarshalJSON c = (none, some ErrMarshalJSON)) ∧
    ((CountryCode.MarshalJSON c).2 ≠ none ↔ CountryCode.String c = []) ∧
    CountryCode.MarshalJSON US = (some [34, 85, 83, 34], none) := by
  refine ⟨fun h => ⟨(country_String_of_valid c h).1, (country_String_of_valid c h).2.1,
    country_marshal_of_valid c h⟩, country_marshal_of_invalid c, ?_, by decide!⟩
  by_cases h : 1 ≤ c.val ∧ c.val ≤ 249
  · rw [country_marshal_of_valid c h]
    have hl := (country_String_of_valid c h).1
    constructor
    · intro hn
      exact absurd rfl hn
    · intro he
      rw [he] at hl
      exact absurd hl (by decide)
  · rw [country_marshal_of_invalid c h]
    exact ⟨fun _ => country_String_of_invalid c h, fun _ => by simp⟩

/-- C4: `CurrencyCode.MarshalJSON` on each of the 256 values. For `c` from 1
(`AED`) to 178 (`ZMW`) it returns no error and the five bytes double quote, the
three bytes of `c.String()` (all in `'A'..'Z'`), double quote; for any other `c`
it returns nil bytes and `ErrMarshalJSON`. It fails exactly when `c.String()` is
empty, and for `USD` the bytes are `"USD"`. -/
theorem CurrencyCode_MarshalJSON_spec (c : CurrencyCode) :
    ((1 ≤ c.val ∧ c.val ≤ 178) →
      (CurrencyCode.String c).length = 3 ∧
      (∀ x ∈ CurrencyCode.String c, 65 ≤ x ∧ x ≤ 90) ∧
      CurrencyCode.MarshalJSON c = (some ([34] ++ CurrencyCode.String c ++ [34]), none)) ∧
    (¬ (1 ≤ c.val ∧ c.val ≤ 178) → CurrencyCode.MarshalJSON c = (none, some ErrMarshalJSON)) ∧
    ((CurrencyCode.MarshalJSON c).2 ≠ none ↔ CurrencyCode.String c = []) ∧
    AED.val = 1 ∧ ZMW.val = 178 ∧
    CurrencyCode.MarshalJSON USD = (some [34, 85, 83, 68, 34], none) := by
  refine ⟨fun h => ⟨(currency_String_of_valid c h).1, (currency_String_of_valid c h).2.1,
    currency_marshal_of_valid c h⟩, currency_marshal_of_invalid c, ?_, by decide, by decide,
    by decide!⟩
  by_cases h : 1 ≤ c.val ∧ c.val ≤ 178
  · rw [currency_marshal_of_valid c h]
    have hl := (currency_String_of_valid c h).1
    constructor
    · intro hn
      exact absurd rfl hn
    · intro he
      rw [he] at hl
      exact absurd hl (by decide)
  · rw [currency_marshal_of_invalid c h]
    exact ⟨fun _ => currency_String_of_invalid c h, fun _ => by simp⟩

/-- C5 (the code breaks it): `MarshalText` does not emit the bare short code.
For `US` it returns the four bytes `"US"` and for `USD` the five bytes `"USD"`,
the double quotes included, while `String()` is `US` and `USD`; for no valid
identifier of either registry does `MarshalText` return the bytes of
`String()`. -/
theorem MarshalText_emits_quotes :
    CountryCode.String US = lit "US" ∧
    CountryCode.MarshalText US = (some (lit "\"US\""), none) ∧
    CurrencyCode.String USD = lit "USD" ∧
    CurrencyCode.MarshalText USD = (some (lit "\"USD\""), none) ∧
    (∀ c : CountryCode, 1 ≤ c.val ∧ c.val ≤ 249 →
      (CountryCode.MarshalText c).1 ≠ some (CountryCode.String c)) ∧
    (∀ c : CurrencyCode, 1 ≤ c.val ∧ c.val ≤ 178 →
      (CurrencyCode.MarshalText c).1 ≠ some (CurrencyCode.String c)) := by
  refine ⟨by decide!, by decide!, by decide!, by decide!, ?_, ?_⟩
  · intro c h he
    have h1 : CountryCode.MarshalText c = _ := country_marshal_of_valid c h
    rw [h1] at he
    have hl := congrArg List.length (Option.some.inj he)
    simp only [List.length_append, List.length_cons, List.length_nil] at hl
    omega
  · intro c h he
    have h1 : CurrencyCode.MarshalText c = _ := currency_marshal_of_valid c h
    rw [h1] at he
    have hl := congrArg List.length (Option.some.inj he)
    simp only [List.length_append, List.length_cons, List.length_nil] at hl
    omega

/-- C6: `CountryCode.UnmarshalJSON` and `UnmarshalText` on any receiver value
`c0` and any bytes `b`. The call returns no error exactly when `b` is, byte for
byte, a key of `stringToCountryCode`; then the receiver becomes an identifier
whose `String()` is `b`. In every other case the error is `ErrUnmarshalJSON`,
for the empty `b` too. The keys are 249 distinct strings of two bytes in
`'A'..'Z'`. `UnmarshalText` is the same function. -/
theorem CountryCode_Unmarshal_spec (c0 : CountryCode) (b : GoString) :
    ((CountryCode.UnmarshalJSON c0 b).2 = none ↔ b ∈ mapKeys stringToCountryCode) ∧
    ((CountryCode.UnmarshalJSON c0 b).2 = none →
      CountryCode.String (CountryCode.UnmarshalJSON c0 b).1 = b) ∧
    ((CountryCode.UnmarshalJSON c0 b).2 ≠ none →
      (CountryCode.UnmarshalJSON c0 b).2 = some ErrUnmarshalJSON) ∧
    (CountryCode.UnmarshalJSON c0 []).2 = some ErrUnmarshalJSON ∧
    CountryCode.UnmarshalText c0 b = CountryCode.UnmarshalJSON c0 b ∧
    (mapKeys stringToCountryCode).length = 249 ∧
    (mapKeys stringToCountryCode).Nodup ∧
    (∀ k ∈ mapKeys stringToCountryCode, k.length = 2 ∧ ∀ x ∈ k, 65 ≤ x ∧ x ≤ 90) := by
  refine ⟨?_, ?_, ?_, rfl, rfl, stringToCountryCode_keys⟩
  · cases hg : mapGet stringToCountryCode b with
    | none =>
      rw [country_unmarshal_of_none c0 b hg]
      exact ⟨fun h => Option.noConfusion h, fun h => absurd h ((mapGet_eq_none_iff _ b).mp hg)⟩
    | some code =>
      rw [country_unmarshal_of_some c0 code b hg]
      exact ⟨fun _ => mapGet_some_key _ _ _ hg, fun _ => rfl⟩
  · cases hg : mapGet stringToCountryCode b with
    | none =>
      rw [country_unmarshal_of_none c0 b hg]
      exact fun h => Option.noConfusion h
    | some code =>
      rw [country_unmarshal_of_some c0 code b hg]
      exact fun _ => (stringToCountryCode_String b code (mapGet_some_mem _ _ _ hg)).1
  · cases hg : mapGet stringToCountryCode b with
    | none =>
      rw [country_unmarshal_of_none c0 b hg]
      exact fun _ => rfl
    | some code =>
      rw [country_unmarshal_of_some c0 code b hg]
      exact fun h => absurd rfl h

/-- A sample of C6: the bytes `US` decode to the identifier `US`, whose `String()`
is `US` again. -/
theorem CountryCode_Unmarshal_spec_witness :
    (CountryCode.UnmarshalJSON 0 (lit "US")).2 = none ∧
    CountryCode.String (CountryCode.UnmarshalJSON 0 (lit "US")).1 = lit "US" :=
  ⟨by decide!, (CountryCode_Unmarshal_spec 0 (lit "US")).2.1 (by decide!)⟩

/-- C7: `CurrencyCode.UnmarshalJSON` and `UnmarshalText` on any receiver value
`c0` and any bytes `b`. The call returns no error exactly when `b` is, byte for
byte, a key of `stringToCurrencyCode`; then the receiver becomes an identifier
whose `String()` is `b`. In every other case the error is `ErrUnmarshalJSON`,
for the empty `b` too. The keys are 178 distinct strings of three bytes in
`'A'..'Z'`. `UnmarshalText` is the same function. -/
theorem CurrencyCode_Unmarshal_spec (c0 : CurrencyCode) (b : GoString) :
    ((CurrencyCode.UnmarshalJSON c0 b).2 = none ↔ b ∈ mapKeys stringToCurrencyCode) ∧
    ((CurrencyCode.UnmarshalJSON c0 b).2 = none →
      CurrencyCode.String (CurrencyCode.UnmarshalJSON c0 b).1 = b) ∧
    ((CurrencyCode.UnmarshalJSON c0 b).2 ≠ none →
      (CurrencyCode.UnmarshalJSON c0 b).2 = some ErrUnmarshalJSON) ∧
    (CurrencyCode.UnmarshalJSON c0 []).2 = some ErrUnmarshalJSON ∧
    CurrencyCode.UnmarshalText c0 b = CurrencyCode.UnmarshalJSON c0 b ∧
    (mapKeys stringToCurrencyCode).length = 178 ∧
    (mapKeys stringToCurrencyCode).Nodup ∧
    (∀ k ∈ mapKeys stringToCurrencyCode, k.length = 3 ∧ ∀ x ∈ k, 65 ≤ x ∧ x ≤ 90) := by
  refine ⟨?_, ?_, ?_, rfl, rfl, stringToCurrencyCode_keys⟩
  · cases hg : mapGet stringToCurrencyCode b with
    | none =>
      rw [currency_unmarshal_of_none c0 b hg]
      exact ⟨fun h => Option.noConfusion h, fun h => absurd h ((mapGet_eq_none_iff _ b).mp hg)⟩
    | some code =>
      rw [currency_unmarshal_of_some c0 code b hg]
      exact ⟨fun _ => mapGet_some_key _ _ _ hg, fun _ => rfl⟩
  · cases hg : mapGet stringToCurrencyCode b with
    | none =>
      rw [currency_unmarshal_of_none c0 b hg]
      exact fun h => Option.noConfusion h
    | some code =>
      rw [currency_unmarshal_of_some c0 code b hg]
      exact fun _ => (stringToCurrencyCode_String b code (mapGet_some_mem _ _ _ hg)).1
  · cases hg : mapGet stringToCurrencyCode b with
    | none =>
      rw [currency_unmarshal_of_none c0 b hg]
      exact fun _ => rfl
    | some code =>
      rw [currency_unmarshal_of_some c0 code b hg]
      exact fun h => absurd rfl h

/-- A sample of C7: the bytes `USD` decode to the identifier `USD`, whose
`String()` is `USD` again. -/
theorem CurrencyCode_Unmarshal_spec_witness :
    (CurrencyCode.UnmarshalJSON 0 (lit "USD")).2 = none ∧
    CurrencyCode.String (CurrencyCode.UnmarshalJSON 0 (lit "USD")).1 = lit "USD" :=
  ⟨by decide!, (CurrencyCode_Unmarshal_spec 0 (lit "USD")).2.1 (by decide!)⟩

/-- C8 (the code breaks it): `UnmarshalJSON` does not accept the JSON string
form. On the wire form `"US"` (and `"USD"`), quotes included, it returns
`ErrUnmarshalJSON`, and on the bare bytes `US` (and `USD`), which are no JSON
string, it succeeds. No input that `UnmarshalJSON` accepts begins with a double
quote, and the short code of every valid identifier wrapped in double quotes is
rejected. -/
theorem UnmarshalJSON_rejects_json_string :
    CountryCode.UnmarshalJSON 0 (lit "\"US\"") = (0, some ErrUnmarshalJSON) ∧
    CountryCode.UnmarshalJSON 0 (lit "US") = (US, none) ∧
    CurrencyCode.UnmarshalJSON 0 (lit "\"USD\"") = (0, some ErrUnmarshalJSON) ∧
    CurrencyCode.UnmarshalJSON 0 (lit "USD") = (USD, none) ∧
    (∀ (c0 : CountryCode) (b : GoString),
      (CountryCode.UnmarshalJSON c0 b).2 = none → b.head? ≠ some 34) ∧
    (∀ (c0 : CurrencyCode) (b : GoString),
      (CurrencyCode.UnmarshalJSON c0 b).2 = none → b.head? ≠ some 34) ∧
    (∀ c c0 : CountryCode, CountryCode.UnmarshalJSON c0
      (lit "\"" ++ CountryCode.String c ++ lit "\"") = (c0, some ErrUnmarshalJSON)) ∧
    (∀ c c0 : CurrencyCode, CurrencyCode.UnmarshalJSON c0
      (lit "\"" ++ CurrencyCode.String c ++ lit "\"") = (c0, some ErrUnmarshalJSON)) := by
  refine ⟨by decide!, by decide!, by decide!, by decide!, ?_, ?_, ?_, ?_⟩
  · intro c0 b h hb
    cases b with
    | nil => simp at hb
    | cons x s =>
      simp only [List.head?_cons, Option.some.injEq] at hb
      rw [hb, country_unmarshal_of_none c0 _ (quoted_not_key s).1] at h
      exact Option.noConfusion h
  · intro c0 b h hb
    cases b with
    | nil => simp at hb
    | cons x s =>
      simp only [List.head?_cons, Option.some.injEq] at hb
      rw [hb, currency_unmarshal_of_none c0 _ (quoted_not_key s).2] at h
      exact Option.noConfusion h
  · intro c c0
    rw [lit_quote]
    exact country_unmarshal_of_none c0 _ (quoted_not_key _).1
  · intro c c0
    rw [lit_quote]
    exact currency_unmarshal_of_none c0 _ (quoted_not_key _).2

/-- C9: a decoding that fails leaves the receiver as it was. For every receiver
value `c0` and every bytes `b`, when `UnmarshalJSON` or `UnmarshalText` of
`CountryCode` or of `CurrencyCode` returns an error, the receiver's value after
the call is `c0`. -/
theorem Unmarshal_error_keeps_receiver (c0 : Fin 256) (b : GoString) :
    ((CountryCode.UnmarshalJSON c0 b).2 ≠ none → (CountryCode.UnmarshalJSON c0 b).1 = c0) ∧
    ((CountryCode.UnmarshalText c0 b).2 ≠ none → (CountryCode.UnmarshalText c0 b).1 = c0) ∧
    ((CurrencyCode.UnmarshalJSON c0 b).2 ≠ none → (CurrencyCode.UnmarshalJSON c0 b).1 = c0) ∧
    ((CurrencyCode.UnmarshalText c0 b).2 ≠ none → (CurrencyCode.UnmarshalText c0 b).1 = c0) := by
  have h1 : (CountryCode.UnmarshalJSON c0 b).2 ≠ none → (CountryCode.UnmarshalJSON c0 b).1 = c0 := by
    cases hg : mapGet stringToCountryCode b with
    | none =>
      rw [country_unmarshal_of_none c0 b hg]
      exact fun _ => rfl
    | some code =>
      rw [country_unmarshal_of_some c0 code b hg]
      exact fun h => absurd rfl h
  have h2 : (CurrencyCode.UnmarshalJSON c0 b).2 ≠ none →
      (CurrencyCode.UnmarshalJSON c0 b).1 = c0 := by
    cases hg : mapGet stringToCurrencyCode b with
    | none =>
      rw [currency_unmarshal_of_none c0 b hg]
      exact fun _ => rfl
    | some code =>
      rw [currency_unmarshal_of_some c0 code b hg]
      exact fun h => absurd rfl h
  exact ⟨h1, h1, h2, h2⟩

/-- A sample of C9: decoding the bytes `"DE"`, quotes included, into a receiver
that holds `US` fails and the receiver still holds `US`. -/
theorem Unmarshal_error_keeps_receiver_witness :
    (CountryCode.UnmarshalJSON US (lit "\"DE\"")).2 ≠ none ∧
    (CountryCode.UnmarshalJSON US (lit "\"DE\"")).1 = US :=
  ⟨by decide!, (Unmarshal_error_keeps_receiver US (lit "\"DE\"")).1 (by decide!)⟩

/-- C10 as worded, with lengths in characters, fails. The string `u` + U+017F
(long s) has two characters and three bytes, and `strings.ToUpper` gives the key
`US` for it; it is not longer than two characters and its upper-case form is a
key, yet `StringToCountryCode` returns `ErrInvalidStringCode`, because the guard
`len(code) > 2` counts bytes. -/
theorem StringToCountryCode_characters_counterexample :
    runes (lit "uſ") = [0x75, 0x17F] ∧
    (lit "uſ").length = 3 ∧
    ToUpper (stringsMap unicodeToUpperSample) (lit "uſ") = lit "US" ∧
    lit "US" ∈ mapKeys stringToCountryCode ∧
    StringToCountryCode (stringsMap unicodeToUpperSample) (lit "uſ") =
      (0, some ErrInvalidStringCode) ∧
    ¬ ((StringToCountryCode (stringsMap unicodeToUpperSample) (lit "uſ")).2 =
        some ErrInvalidStringCode ↔
      (2 < (runes (lit "uſ")).length ∨
        ToUpper (stringsMap unicodeToUpperSample) (lit "uſ") ∉
          mapKeys stringToCountryCode)) := by
  have h1 : runes (lit "uſ") = [0x75, 0x17F] := by decide
  have h2 : ToUpper (stringsMap unicodeToUpperSample) (lit "uſ") = lit "US" := by decide
  have h3 : lit "US" ∈ mapKeys stringToCountryCode := by decide!
  have h4 : StringToCountryCode (stringsMap unicodeToUpperSample) (lit "uſ") =
      (0, some ErrInvalidStringCode) := by decide!
  refine ⟨h1, by decide, h2, h3, h4, ?_⟩
  rw [h4, h1, h2]
  intro h
  rcases h.mp rfl with h | h
  · exact absurd h (by decide)
  · exact h h3

/-- C10, amended: with lengths in bytes, `StringToCountryCode` returns
`ErrInvalidStringCode` exactly when `len(s) > 2` or `strings.ToUpper(s)` is not a
key of `stringToCountryCode`, and it returns no other error. In particular a
string of two bytes whose upper-case form is a key is accepted. -/
theorem StringToCountryCode_error_iff (mapUpper : GoString → GoString) (s : GoString) :
    ((StringToCountryCode mapUpper s).2 = some ErrInvalidStringCode ↔
      (2 < s.length ∨ ToUpper mapUpper s ∉ mapKeys stringToCountryCode)) ∧
    ((StringToCountryCode mapUpper s).2 = some ErrInvalidStringCode ∨
      (StringToCountryCode mapUpper s).2 = none) ∧
    (s.length = 2 → ToUpper mapUpper s ∈ mapKeys stringToCountryCode →
      (StringToCountryCode mapUpper s).2 = none) := by
  have key : (StringToCountryCode mapUpper s).2 = some ErrInvalidStringCode ↔
      (2 < s.length ∨ ToUpper mapUpper s ∉ mapKeys stringToCountryCode) := by
    unfold StringToCountryCode
    by_cases hl : s.length > 2
    · simp [hl]
    · rw [if_neg hl]
      cases hg : mapGet stringToCountryCode (ToUpper mapUpper s) with
      | none =>
        have hk := (mapGet_eq_none_iff _ _).mp hg
        simp [hk]
      | some c =>
        have hk := mapGet_some_key _ _ _ hg
        simp [hk, hl]
  have total : (StringToCountryCode mapUpper s).2 = some ErrInvalidStringCode ∨
      (StringToCountryCode mapUpper s).2 = none := by
    unfold StringToCountryCode
    by_cases hl : s.length > 2
    · simp [hl]
    · rw [if_neg hl]
      cases hg : mapGet stringToCountryCode (ToUpper mapUpper s) with
      | none => simp
      | some c => simp
  refine ⟨key, total, ?_⟩
  intro hl hk
  rcases total with h | h
  · rcases key.mp h with h2 | h2
    · omega
    · exact absurd hk h2
  · exact h

/-- A sample of C10: the two bytes `us`, whose upper-case form `US` is a key, are
accepted. -/
theorem StringToCountryCode_error_iff_witness :
    (lit "us").length = 2 ∧ ToUpper id (lit "us") ∈ mapKeys stringToCountryCode ∧
    (StringToCountryCode id (lit "us")).2 = none :=
  ⟨by decide, by decide!,
    (StringToCountryCode_error_iff id (lit "us")).2.2 (by decide) (by decide!)⟩

/-! ## The order of strings -/

/-- No string is less than itself. -/
theorem strLt_irrefl (a : GoString) : strLt a a = false := by
  induction a with
  | nil => rfl
  | cons x s ih => simp [strLt, ih]

/-- Of two strings neither of which is less than the other, each is the other. -/
theorem strLt_total (a b : GoString) (h1 : strLt a b = false) (h2 : strLt b a = false) :
    a = b := by
  induction a generalizing b with
  | nil =>
    cases b with
    | nil => rfl
    | cons y t => simp [strLt] at h1
  | cons x s ih =>
    cases b with
    | nil => simp [strLt] at h2
    | cons y t =>
      simp only [strLt] at h1 h2
      by_cases hxy : x < y
      · simp [hxy] at h1
      · by_cases hyx : y < x
        · simp [hyx] at h2
        · have hx : x = y := by omega
          subst hx
          simp only [Nat.lt_irrefl, if_false] at h1 h2
          rw [ih t h1 h2]

/-- A string less than a second one that is less than a third is less than the
third. -/
theorem strLt_trans (a b c : GoString) (h1 : strLt a b = true) (h2 : strLt b c = true) :
    strLt a c = true := by
  induction a generalizing b c with
  | nil =>
    cases c with
    | nil =>
      cases b with
      | nil => simp [strLt] at h1
      | cons y t => simp [strLt] at h2
    | cons z u => rfl
  | cons x s ih =>
    cases b with
    | nil => simp [strLt] at h1
    | cons y t =>
      cases c with
      | nil => simp [strLt] at h2
      | cons z u =>
        simp only [strLt] at h1 h2 ⊢
        by_cases hxy : x < y
        · by_cases hyz : y < z
          · have : x < z := by omega
            simp [this]
          · by_cases hzy : z < y
            · simp [hyz, hzy] at h2
            · have : x < z := by omega
              simp [this]
        · by_cases hyx : y < x
          · simp [hxy, hyx] at h1
          · have hx : x = y := by omega
            subst hx
            simp only [Nat.lt_irrefl, if_false] at h1
            by_cases hxz : x < z
            · simp [hxz]
            · by_cases hzx : z < x
              · simp [hxz, hzx] at h2
              · simp only [hxz, hzx, if_false] at h2 ⊢
                exact ih t u h1 h2

/-- A string less than another is not greater than it. -/
theorem strLt_asymm (a b : GoString) (h : strLt a b = true) : strLt b a = false := by
  cases hb : strLt b a with
  | false => rfl
  | true =>
    have := strLt_trans a b a h hb
    rw [strLt_irrefl] at this
    exact Bool.noConfusion this

/-- In a list that `sortedStrings` accepts, every string is less than every later
one. -/
theorem pairwise_of_sortedStrings (l : List GoString) (h : sortedStrings l = true) :
    l.Pairwise (fun a b => strLt a b = true) := by
  induction l with
  | nil => exact List.Pairwise.nil
  | cons a l ih =>
    cases l with
    | nil => exact List.pairwise_singleton _ a
    | cons b l =>
      simp only [sortedStrings, Bool.and_eq_true] at h
      have ih2 := ih h.2
      refine List.Pairwise.cons ?_ ih2
      intro c hc
      rcases List.mem_cons.mp hc with hc | hc
      · rw [hc]
        exact h.1
      · exact strLt_trans a b c h.1 ((List.pairwise_cons.mp ih2).1 c hc)

/-! ## Sorting -/

/-- The insertion sort leaves a list in which no element is less than an earlier
one as it is. -/
theorem sortSlice_of_sorted {α : Type} (less : α → α → Bool) (l : List α)
    (h : l.Pairwise (fun a b => less b a = false)) : sortSlice less l = l := by
  induction l with
  | nil => rfl
  | cons a l ih =>
    have h2 := List.pairwise_cons.mp h
    rw [sortSlice, ih h2.2]
    cases l with
    | nil => rfl
    | cons b l => simp [insertByLess, h2.1 b (List.mem_cons_self b l)]

/-! ## Upper case -/

/-- On a string of ASCII bytes `strings.ToUpper` does not reach the Unicode
tables. -/
theorem ToUpper_ascii (mapUpper : GoString → GoString) (s : GoString)
    (h : s.all (fun c => decide (c < 0x80)) = true) : ToUpper mapUpper s = ToUpper id s := by
  simp only [ToUpper, h, if_true]

/-- On a string of ASCII bytes `strings.ToUpper` keeps the length. -/
theorem ToUpper_ascii_length (mapUpper : GoString → GoString) (s : GoString)
    (h : s.all (fun c => decide (c < 0x80)) = true) : (ToUpper mapUpper s).length = s.length := by
  simp only [ToUpper, h, if_true, List.length_map]

/-- A string of bytes in `'A'..'Z'` is its own upper-case form. -/
theorem ToUpper_of_upper (mapUpper : GoString → GoString) (s : GoString)
    (h : ∀ x ∈ s, 65 ≤ x ∧ x ≤ 90) : ToUpper mapUpper s = s := by
  have ha : s.all (fun c => decide (c < 0x80)) = true := by
    rw [List.all_eq_true]
    intro x hx
    have := h x hx
    simp only [decide_eq_true_eq]
    omega
  simp only [ToUpper, ha, if_true]
  have hm : ∀ x ∈ s, (fun c => if 97 ≤ c ∧ c ≤ 122 then c - (97 - 65) else c) x = id x := by
    intro x hx
    have := h x hx
    have hn : ¬ (97 ≤ x ∧ x ≤ 122) := by omega
    simp only [hn, if_false, id]
  rw [List.map_congr_left hm, List.map_id]

/-! ## Parsing, case by case -/

/-- An input of more than two bytes is refused. -/
theorem country_parse_of_long (mapUpper : GoString → GoString) (s : GoString)
    (h : 2 < s.length) : StringToCountryCode mapUpper s = (0, some ErrInvalidStringCode) := by
  simp only [StringToCountryCode, gt_iff_lt, h, if_true]

/-- An input of at most two bytes whose upper-case form is no key is refused. -/
theorem country_parse_of_none (mapUpper : GoString → GoString) (s : GoString)
    (hg : mapGet stringToCountryCode (ToUpper mapUpper s) = none) :
    StringToCountryCode mapUpper s = (0, some ErrInvalidStringCode) := by
  unfold StringToCountryCode
  split
  · rfl
  · rw [hg]

/-- An input of at most two bytes whose upper-case form is a key gives the value
of that key. -/
theorem country_parse_of_some (mapUpper : GoString → GoString) (s : GoString) (c : CountryCode)
    (h : s.length ≤ 2) (hg : mapGet stringToCountryCode (ToUpper mapUpper s) = some c) :
    StringToCountryCode mapUpper s = (c, none) := by
  unfold StringToCountryCode
  rw [if_neg (by omega), hg]

/-- An input of more than three bytes is refused. -/
theorem currency_parse_of_long (mapUpper : GoString → GoString) (s : GoString)
    (h : 3 < s.length) : StringToCurrencyCode mapUpper s = (0, some ErrInvalidStringCode) := by
  simp only [StringToCurrencyCode, gt_iff_lt, h, if_true]

/-- An input of at most three bytes whose upper-case form is no key is refused. -/
theorem currency_parse_of_none (mapUpper : GoString → GoString) (s : GoString)
    (hg : mapGet stringToCurrencyCode (ToUpper mapUpper s) = none) :
    StringToCurrencyCode mapUpper s = (0, some ErrInvalidStringCode) := by
  unfold StringToCurrencyCode
  split
  · rfl
  · rw [hg]

/-- An input of at most three bytes whose upper-case form is a key gives the
value of that key. -/
theorem currency_parse_of_some (mapUpper : GoString → GoString) (s : GoString)
    (c : CurrencyCode) (h : s.length ≤ 3)
    (hg : mapGet stringToCurrencyCode (ToUpper mapUpper s) = some c) :
    StringToCurrencyCode mapUpper s = (c, none) := by
  unfold StringToCurrencyCode
  rw [if_neg (by omega), hg]

/-- On an ASCII input the parse functions do not depend on the Unicode tables. -/
theorem parse_ascii (mapUpper : GoString → GoString) (s : GoString)
    (h : s.all (fun c => decide (c < 0x80)) = true) :
    StringToCountryCode mapUpper s = StringToCountryCode id s ∧
    StringToCurrencyCode mapUpper s = StringToCurrencyCode id s := by
  simp only [StringToCountryCode, StringToCurrencyCode, ToUpper_ascii mapUpper s h, and_self]

/-- The reverse index maps the `String` of a valid country identifier to it. -/
theorem country_mapGet_String (c : CountryCode) (h : 1 ≤ c.val ∧ c.val ≤ 249) :
    mapGet stringToCountryCode (CountryCode.String c) = some c :=
  mapGet_of_mem _ stringToCountryCode_keys.2.1 _ _ (country_String_of_valid c h).2.2

/-- The reverse index maps the `String` of a valid currency identifier to it. -/
theorem currency_mapGet_String (c : CurrencyCode) (h : 1 ≤ c.val ∧ c.val ≤ 178) :
    mapGet stringToCurrencyCode (CurrencyCode.String c) = some c :=
  mapGet_of_mem _ stringToCurrencyCode_keys.2.1 _ _ (currency_String_of_valid c h).2.2

/-- C11 as worded, with lengths in characters, fails. The string `u` + U+017F
(long s) + `d` has three characters and four bytes, and `strings.ToUpper` gives
the key `USD` for it; it is not longer than three characters and its upper-case
form is a key, yet `StringToCurrencyCode` returns `ErrInvalidStringCode`, because
the guard `len(code) > 3` counts bytes. -/
theorem StringToCurrencyCode_characters_counterexample :
    runes (lit "uſd") = [0x75, 0x17F, 0x64] ∧
    (lit "uſd").length = 4 ∧
    ToUpper (stringsMap unicodeToUpperSample) (lit "uſd") = lit "USD" ∧
    lit "USD" ∈ mapKeys stringToCurrencyCode ∧
    StringToCurrencyCode (stringsMap unicodeToUpperSample) (lit "uſd") =
      (0, some ErrInvalidStringCode) ∧
    ¬ ((StringToCurrencyCode (stringsMap unicodeToUpperSample) (lit "uſd")).2 =
        some ErrInvalidStringCode ↔
      (3 < (runes (lit "uſd")).length ∨
        ToUpper (stringsMap unicodeToUpperSample) (lit "uſd") ∉
          mapKeys stringToCurrencyCode)) := by
  have h1 : runes (lit "uſd") = [0x75, 0x17F, 0x64] := by decide
  have h2 : ToUpper (stringsMap unicodeToUpperSample) (lit "uſd") = lit "USD" := by decide
  have h3 : lit "USD" ∈ mapKeys stringToCurrencyCode := by decide!
  have h4 : StringToCurrencyCode (stringsMap unicodeToUpperSample) (lit "uſd") =
      (0, some ErrInvalidStringCode) := by decide!
  refine ⟨h1, by decide, h2, h3, h4, ?_⟩
  rw [h4, h1, h2]
  intro h
  rcases h.mp rfl with h | h
  · exact absurd h (by decide)
  · exact h h3

/-- C11, amended: with lengths in bytes, `StringToCurrencyCode` returns
`ErrInvalidStringCode` exactly when `len(s) > 3` or `strings.ToUpper(s)` is not a
key of `stringToCurrencyCode`, and it returns no other error. In particular a
string of three bytes whose upper-case form is a key is accepted. -/
theorem StringToCurrencyCode_error_iff (mapUpper : GoString → GoString) (s : GoString) :
    ((StringToCurrencyCode mapUpper s).2 = some ErrInvalidStringCode ↔
      (3 < s.length ∨ ToUpper mapUpper s ∉ mapKeys stringToCurrencyCode)) ∧
    ((StringToCurrencyCode mapUpper s).2 = some ErrInvalidStringCode ∨
      (StringToCurrencyCode mapUpper s).2 = none) ∧
    (s.length = 3 → ToUpper mapUpper s ∈ mapKeys stringToCurrencyCode →
      (StringToCurrencyCode mapUpper s).2 = none) := by
  by_cases hl : 3 < s.length
  · rw [currency_parse_of_long mapUpper s hl]
    exact ⟨⟨fun _ => Or.inl hl, fun _ => rfl⟩, Or.inl rfl, fun h3 => by omega⟩
  · cases hg : mapGet stringToCurrencyCode (ToUpper mapUpper s) with
    | none =>
      have hk := (mapGet_eq_none_iff _ _).mp hg
      rw [currency_parse_of_none mapUpper s hg]
      exact ⟨⟨fun _ => Or.inr hk, fun _ => rfl⟩, Or.inl rfl, fun _ h => absurd h hk⟩
    | some c =>
      have hk := mapGet_some_key _ _ _ hg
      rw [currency_parse_of_some mapUpper s c (by omega) hg]
      refine ⟨⟨fun h => Option.noConfusion h, fun h => ?_⟩, Or.inr rfl, fun _ _ => rfl⟩
      rcases h with h | h
      · exact absurd h hl
      · exact absurd hk h

/-- A sample of C11: the three bytes `usd`, whose upper-case form `USD` is a key,
are accepted. -/
theorem StringToCurrencyCode_error_iff_witness :
    (lit "usd").length = 3 ∧ ToUpper id (lit "usd") ∈ mapKeys stringToCurrencyCode ∧
    (StringToCurrencyCode id (lit "usd")).2 = none :=
  ⟨by decide, by decide!,
    (StringToCurrencyCode_error_iff id (lit "usd")).2.2 (by decide) (by decide!)⟩

/-- C12: parse, then look up. When `StringToCountryCode(s)` returns no error, the
`String()` of the identifier it returns is `strings.ToUpper(s)`; the same holds
for `StringToCurrencyCode`. -/
theorem parse_then_String (mapUpper : GoString → GoString) (s : GoString) :
    ((StringToCountryCode mapUpper s).2 = none →
      CountryCode.String (StringToCountryCode mapUpper s).1 = ToUpper mapUpper s) ∧
    ((StringToCurrencyCode mapUpper s).2 = none →
      CurrencyCode.String (StringToCurrencyCode mapUpper s).1 = ToUpper mapUpper s) := by
  constructor
  · by_cases hl : 2 < s.length
    · rw [country_parse_of_long mapUpper s hl]
      exact fun h => Option.noConfusion h
    · cases hg : mapGet stringToCountryCode (ToUpper mapUpper s) with
      | none =>
        rw [country_parse_of_none mapUpper s hg]
        exact fun h => Option.noConfusion h
      | some c =>
        rw [country_parse_of_some mapUpper s c (by omega) hg]
        exact fun _ => (stringToCountryCode_String _ c (mapGet_some_mem _ _ _ hg)).1
  · by_cases hl : 3 < s.length
    · rw [currency_parse_of_long mapUpper s hl]
      exact fun h => Option.noConfusion h
    · cases hg : mapGet stringToCurrencyCode (ToUpper mapUpper s) with
      | none =>
        rw [currency_parse_of_none mapUpper s hg]
        exact fun h => Option.noConfusion h
      | some c =>
        rw [currency_parse_of_some mapUpper s c (by omega) hg]
        exact fun _ => (stringToCurrencyCode_String _ c (mapGet_some_mem _ _ _ hg)).1

/-- A sample of C12: `us` parses, and the `String()` of the result is `US`, the
upper-case form of `us`. -/
theorem parse_then_String_witness :
    (StringToCountryCode id (lit "us")).2 = none ∧
    CountryCode.String (StringToCountryCode id (lit "us")).1 = ToUpper id (lit "us") ∧
    ToUpper id (lit "us") = lit "US" :=
  ⟨by decide!, (parse_then_String id (lit "us")).1 (by decide!), by decide⟩

/-- C13 as stated fails: the two strings `u` + U+017F (long s), of three bytes,
and `us` have the same upper-case form `US`, and `StringToCountryCode` refuses
the first for its length and returns `US` for the second. The same happens in
the currency registry with `u` + U+017F + `d`, of four bytes, and `usd`. -/
theorem parse_case_insensitive_counterexample :
    (lit "uſ").length = 3 ∧
    ToUpper (stringsMap unicodeToUpperSample) (lit "uſ") =
      ToUpper (stringsMap unicodeToUpperSample) (lit "us") ∧
    StringToCountryCode (stringsMap unicodeToUpperSample) (lit "uſ") =
      (0, some ErrInvalidStringCode) ∧
    StringToCountryCode (stringsMap unicodeToUpperSample) (lit "us") = (US, none) ∧
    (lit "uſd").length = 4 ∧
    ToUpper (stringsMap unicodeToUpperSample) (lit "uſd") =
      ToUpper (stringsMap unicodeToUpperSample) (lit "usd") ∧
    StringToCurrencyCode (stringsMap unicodeToUpperSample) (lit "uſd") =
      (0, some ErrInvalidStringCode) ∧
    StringToCurrencyCode (stringsMap unicodeToUpperSample) (lit "usd") = (USD, none) := by
  refine ⟨by decide, by decide, by decide!, by decide!, by decide, by decide, by decide!,
    by decide!⟩

/-- C13, amended: two strings with the same `strings.ToUpper` form get the same
identifier and the same error from `StringToCountryCode` when both are at most
two bytes long or both are longer, and from `StringToCurrencyCode` when both are
at most three bytes long or both are longer. Two ASCII strings with the same
upper-case form always do. -/
theorem parse_case_insensitive (mapUpper : GoString → GoString) (s t : GoString)
    (h : ToUpper mapUpper s = ToUpper mapUpper t) :
    ((s.length ≤ 2 ↔ t.length ≤ 2) →
      StringToCountryCode mapUpper s = StringToCountryCode mapUpper t) ∧
    ((s.length ≤ 3 ↔ t.length ≤ 3) →
      StringToCurrencyCode mapUpper s = StringToCurrencyCode mapUpper t) ∧
    (s.all (fun c => decide (c < 0x80)) = true → t.all (fun c => decide (c < 0x80)) = true →
      StringToCountryCode mapUpper s = StringToCountryCode mapUpper t ∧
      StringToCurrencyCode mapUpper s = StringToCurrencyCode mapUpper t) := by
  have h1 : (s.length ≤ 2 ↔ t.length ≤ 2) →
      StringToCountryCode mapUpper s = StringToCountryCode mapUpper t := by
    intro hl
    by_cases hs : 2 < s.length
    · rw [country_parse_of_long mapUpper s hs, country_parse_of_long mapUpper t (by omega)]
    · have ht : ¬ 2 < t.length := by omega
      simp only [StringToCountryCode, gt_iff_lt, hs, ht, if_false, h]
  have h2 : (s.length ≤ 3 ↔ t.length ≤ 3) →
      StringToCurrencyCode mapUpper s = StringToCurrencyCode mapUpper t := by
    intro hl
    by_cases hs : 3 < s.length
    · rw [currency_parse_of_long mapUpper s hs, currency_parse_of_long mapUpper t (by omega)]
    · have ht : ¬ 3 < t.length := by omega
      simp only [StringToCurrencyCode, gt_iff_lt, hs, ht, if_false, h]
  refine ⟨h1, h2, ?_⟩
  intro hs ht
  have hlen : s.length = t.length := by
    rw [← ToUpper_ascii_length mapUpper s hs, ← ToUpper_ascii_length mapUpper t ht, h]
  exact ⟨h1 (by omega), h2 (by omega)⟩

/-- A sample of C13: `us`, `US` and `Us` all parse to `US`. -/
theorem parse_case_insensitive_witness :
    ToUpper id (lit "us") = ToUpper id (lit "Us") ∧
    StringToCountryCode id (lit "us") = StringToCountryCode id (lit "Us") ∧
    StringToCountryCode id (lit "us") = (US, none) ∧
    StringToCountryCode id (lit "US") = (US, none) ∧
    StringToCountryCode id (lit "Us") = (US, none) :=
  ⟨by decide, (parse_case_insensitive id (lit "us") (lit "Us") (by decide)).1 (by decide),
    by decide!, by decide!, by decide!⟩

/-- C14: the reverse index resolves every short code to its own identifier. For
every country identifier `c` from 1 to 249, `StringToCountryCode(c.String())`
returns `c` and no error; for every currency identifier `c` from 1 to 178,
`StringToCurrencyCode(c.String())` returns `c` and no error. -/
theorem parse_String (mapUpper : GoString → GoString) :
    (∀ c : CountryCode, 1 ≤ c.val ∧ c.val ≤ 249 →
      StringToCountryCode mapUpper (CountryCode.String c) = (c, none)) ∧
    (∀ c : CurrencyCode, 1 ≤ c.val ∧ c.val ≤ 178 →
      StringToCurrencyCode mapUpper (CurrencyCode.String c) = (c, none)) := by
  constructor
  · intro c h
    have hv := country_String_of_valid c h
    apply country_parse_of_some mapUpper _ c (by omega)
    rw [ToUpper_of_upper mapUpper _ hv.2.1]
    exact country_mapGet_String c h
  · intro c h
    have hv := currency_String_of_valid c h
    apply currency_parse_of_some mapUpper _ c (by omega)
    rw [ToUpper_of_upper mapUpper _ hv.2.1]
    exact currency_mapGet_String c h

/-! ## The list of country codes -/

/-- The keys of the country reverse index stand in increasing order. -/
theorem stringToCountryCode_sorted : sortedStrings (mapKeys stringToCountryCode) = true := by
  decide!

/-- The values of the reverse index are the keys of the forward table, in the
same order. -/
theorem stringToCountryCode_values :
    stringToCountryCode.map Prod.snd = mapKeys countryCodesDetails := by
  rw [stringToCountryCode_eq]
  simp [mapKeys, List.map_map, Function.comp_def]

/-- The keys of the reverse index are the `String` of its values. -/
theorem stringToCountryCode_keys_eq :
    mapKeys stringToCountryCode = (stringToCountryCode.map Prod.snd).map CountryCode.String := by
  simp only [mapKeys, List.map_map]
  apply List.map_congr_left
  intro p hp
  exact (stringToCountryCode_String p.1 p.2 hp).1.symm

/-- Two country identifiers from 1 to 249 with the same `String` are the same. -/
theorem country_String_injective (a b : CountryCode) (ha : 1 ≤ a.val ∧ a.val ≤ 249)
    (hb : 1 ≤ b.val ∧ b.val ≤ 249) (h : CountryCode.String a = CountryCode.String b) :
    a = b := by
  have h1 := country_mapGet_String a ha
  have h2 := country_mapGet_String b hb
  rw [h, h2] at h1
  exact (Option.some.inj h1).symm

/-- In the order of the literal, the `String` of every value of the reverse
index is less than that of every later value. -/
theorem stringToCountryCode_values_pairwise :
    (stringToCountryCode.map Prod.snd).Pairwise (fun a b => countryLess a b = true) := by
  have h := pairwise_of_sortedStrings _ stringToCountryCode_sorted
  rw [stringToCountryCode_keys_eq] at h
  exact List.pairwise_map.mp h

/-- The values of the reverse index in the order of the literal are a result
that `sort.Slice` may leave for them. -/
theorem stringToCountryCode_values_sorted :
    SortSliceResult countryLess (stringToCountryCode.map Prod.snd)
      (stringToCountryCode.map Prod.snd) :=
  ⟨List.Perm.refl _, stringToCountryCode_values_pairwise.imp
    (fun hab => strLt_asymm _ _ hab)⟩

/-- With the map visited in the order of the literal, `ListCountryCodes` returns
the values in that order. -/
theorem ListCountryCodes_eq : ListCountryCodes = stringToCountryCode.map Prod.snd :=
  sortSlice_of_sorted countryLess _ stringToCountryCode_values_sorted.2

/-- The list that `ListCountryCodes` computes is one of those a call may return. -/
theorem ListCountryCodes_returns : ListCountryCodesReturns ListCountryCodes := by
  refine ⟨stringToCountryCode, List.Perm.refl _, ?_⟩
  rw [ListCountryCodes_eq]
  exact stringToCountryCode_values_sorted

/-- A list that `ListCountryCodes` may return is a rearrangement of the keys of
the forward table in which no element is less than an earlier one. -/
theorem ListCountryCodesReturns_perm (out : List CountryCode)
    (h : ListCountryCodesReturns out) :
    out.Perm (mapKeys countryCodesDetails) ∧
    out.Pairwise (fun a b => countryLess b a = false) := by
  obtain ⟨order, ho, hp, hs⟩ := h
  refine ⟨?_, hs⟩
  rw [← stringToCountryCode_values]
  exact hp.trans (ho.map Prod.snd)

/-- A permutation of the values of the reverse index that has no inversion has
length 249, has at every pair of adjacent positions `i`, `i + 1` a `String()` at
`i` that is less, byte-wise, than the one at `i + 1`, and has no duplicates. -/
theorem ListCountryCodesReturns_sorted (out : List CountryCode)
    (h : ListCountryCodesReturns out) :
    out.length = 249 ∧
    (∀ (i : Nat) (hi : i + 1 < out.length),
      strLt (CountryCode.String out[i]) (CountryCode.String out[i + 1]) = true) ∧
    out.Nodup := by
  obtain ⟨hp, hs⟩ := ListCountryCodesReturns_perm out h
  have hn : out.Nodup := hp.nodup_iff.mpr countryCodesDetails_nodup
  have hlen : out.length = 249 := by
    rw [hp.length_eq]
    have := congrArg List.length countryCodesDetails_keys
    simpa [mapKeys] using this
  refine ⟨hlen, ?_, hn⟩
  intro i hi
  have hi0 : i < out.length := by omega
  have hva : 1 ≤ (out[i]).val ∧ (out[i]).val ≤ 249 :=
    (countryCodesDetails_mem_keys _).mp (hp.mem_iff.mp (List.getElem_mem hi0))
  have hvb : 1 ≤ (out[i + 1]).val ∧ (out[i + 1]).val ≤ 249 :=
    (countryCodesDetails_mem_keys _).mp (hp.mem_iff.mp (List.getElem_mem hi))
  have hle : countryLess out[i + 1] out[i] = false :=
    List.pairwise_iff_getElem.mp hs i (i + 1) hi0 hi (by omega)
  have hne : out[i] ≠ out[i + 1] :=
    List.pairwise_iff_getElem.mp hn i (i + 1) hi0 hi (by omega)
  cases hlt : strLt (CountryCode.String out[i]) (CountryCode.String out[i + 1]) with
  | true => rfl
  | false =>
    exact absurd (country_String_injective _ _ hva hvb (strLt_total _ _ hlt hle)) hne

/-- C16: `ListCountryCodes` is complete and sound. In every list a call may
return, an identifier occurs exactly when it is from 1 to 249, that is when it
has a record in `countryCodesDetails`, that is when its `String()` is not
empty; the zero identifier does not occur. -/
theorem ListCountryCodes_mem (out : List CountryCode) (h : ListCountryCodesReturns out) :
    (∀ c : CountryCode, (c ∈ out ↔ (1 ≤ c.val ∧ c.val ≤ 249)) ∧
      (c ∈ out ↔ c ∈ mapKeys countryCodesDetails) ∧
      (c ∈ out ↔ CountryCode.String c ≠ [])) ∧
    (0 : CountryCode) ∉ out := by
  obtain ⟨hp, _⟩ := ListCountryCodesReturns_perm out h
  have hv : ∀ c : CountryCode, c ∈ out ↔ (1 ≤ c.val ∧ c.val ≤ 249) :=
    fun c => hp.mem_iff.trans (countryCodesDetails_mem_keys c)
  refine ⟨fun c => ⟨hv c, hp.mem_iff, ?_⟩, ?_⟩
  · rw [hv c]
    constructor
    · intro hc he
      have hl := (country_String_of_valid c hc).1
      rw [he] at hl
      exact absurd hl (by decide)
    · intro hne
      by_contra hc
      exact hne (country_String_of_invalid c hc)
  · intro h0
    have := (hv 0).mp h0
    exact absurd this.1 (by decide)

/-- A sample of C16: in the list `ListCountryCodes` computes, `US` occurs and the
zero identifier does not. -/
theorem ListCountryCodes_mem_witness :
    ListCountryCodesReturns ListCountryCodes ∧ US ∈ ListCountryCodes ∧
    (0 : CountryCode) ∉ ListCountryCodes :=
  ⟨ListCountryCodes_returns,
    ((ListCountryCodes_mem ListCountryCodes ListCountryCodes_returns).1 US).1.mpr (by decide),
    (ListCountryCodes_mem ListCountryCodes ListCountryCodes_returns).2⟩

/-! ## Records and identifiers -/

/-- The keys of the forward tables are the constants of the two blocks, in the
order of their declaration. -/
theorem table_keys_eq_constants :
    mapKeys countryCodesDetails = countryCodeConstants ∧
    mapKeys currencyCodesDetails = currencyCodeConstants := by decide!

/-- A country identifier has no record exactly when it is 0 or above 249. -/
theorem country_no_record_iff (c : CountryCode) :
    mapGet countryCodesDetails c = none ↔ (c.val = 0 ∨ 249 < c.val) := by
  rw [mapGet_eq_none_iff, countryCodesDetails_mem_keys]
  omega

/-- A currency identifier has no record exactly when it is 0 or above 178. -/
theorem currency_no_record_iff (c : CurrencyCode) :
    mapGet currencyCodesDetails c = none ↔ (c.val = 0 ∨ 178 < c.val) := by
  rw [mapGet_eq_none_iff, currencyCodesDetails_mem_keys]
  omega

/-- C17: the accessors are total and give the empty string where there is no
record. A country identifier has no record exactly when it is 0 or above 249,
and then `String()`, `Alpha3()`, `Name()`, `Number()` and `Flag()` are all
empty; a currency identifier has no record exactly when it is 0 or above 178,
the value of `ZMW`, and then `String()`, `Name()`, `Number()` and `Flag()` are
all empty. -/
theorem accessors_empty_without_record (c : Fin 256) :
    (mapGet countryCodesDetails c = none ↔ (c.val = 0 ∨ 249 < c.val)) ∧
    (mapGet countryCodesDetails c = none →
      CountryCode.String c = [] ∧ CountryCode.Alpha3 c = [] ∧ CountryCode.Name c = [] ∧
      CountryCode.Number c = [] ∧ CountryCode.Flag c = []) ∧
    (mapGet currencyCodesDetails c = none ↔ (c.val = 0 ∨ 178 < c.val)) ∧
    ZMW.val = 178 ∧
    (mapGet currencyCodesDetails c = none →
      CurrencyCode.String c = [] ∧ CurrencyCode.Name c = [] ∧
      CurrencyCode.Number c = [] ∧ CurrencyCode.Flag c = []) := by
  refine ⟨country_no_record_iff c, ?_, currency_no_record_iff c, by decide, ?_⟩
  · intro h
    simp only [CountryCode.String, CountryCode.Alpha3, CountryCode.Name, CountryCode.Number,
      CountryCode.Flag, mapIndex, h]
    exact ⟨rfl, rfl, rfl, rfl, rfl⟩
  · intro h
    simp only [CurrencyCode.String, CurrencyCode.Name, CurrencyCode.Number,
      CurrencyCode.Flag, mapIndex, h]
    exact ⟨rfl, rfl, rfl, rfl⟩

/-- A sample of C17: the identifiers 0 and 250 have no country record and an
empty `String()`, and 0 and 179 have no currency record and an empty `Name()`. -/
theorem accessors_empty_without_record_witness :
    CountryCode.String 0 = [] ∧ CountryCode.Flag 250 = [] ∧
    CurrencyCode.String 0 = [] ∧ CurrencyCode.Name 179 = [] :=
  ⟨((accessors_empty_without_record 0).2.1
      ((accessors_empty_without_record 0).1.mpr (Or.inl (by decide)))).1,
    ((accessors_empty_without_record 250).2.1
      ((accessors_empty_without_record 250).1.mpr (Or.inr (by decide)))).2.2.2.2,
    ((accessors_empty_without_record 0).2.2.2.2
      ((accessors_empty_without_record 0).2.2.1.mpr (Or.inl (by decide)))).1,
    ((accessors_empty_without_record 179).2.2.2.2
      ((accessors_empty_without_record 179).2.2.1.mpr (Or.inr (by decide)))).2.1⟩

/-- C18: identifiers are sequential from 1 and each has exactly one record. The
country constants, in the order of their declaration, have the values 1 (`AD`),
2, ..., 249 (`ZW`), none of them wrapped around the byte; the keys of
`countryCodesDetails` are these constants, each once, so an identifier is a key
exactly when it is from 1 to 249. The currency constants have the values 1
(`AED`), 2, ..., 178 (`ZMW`) and are the keys of `currencyCodesDetails`, each
once. 0 is a key of neither table. -/
theorem identifiers_sequential :
    countryCodeConstants.map (fun c => c.val) = List.range' 1 249 ∧
    AD.val = 1 ∧ ZW.val = 249 ∧
    mapKeys countryCodesDetails = countryCodeConstants ∧
    (mapKeys countryCodesDetails).Nodup ∧
    (∀ c : CountryCode, c ∈ mapKeys countryCodesDetails ↔ (1 ≤ c.val ∧ c.val ≤ 249)) ∧
    currencyCodeConstants.map (fun c => c.val) = List.range' 1 178 ∧
    AED.val = 1 ∧ ZMW.val = 178 ∧
    mapKeys currencyCodesDetails = currencyCodeConstants ∧
    (mapKeys currencyCodesDetails).Nodup ∧
    (∀ c : CurrencyCode, c ∈ mapKeys currencyCodesDetails ↔ (1 ≤ c.val ∧ c.val ≤ 178)) ∧
    (0 : CountryCode) ∉ mapKeys countryCodesDetails ∧
    (0 : CurrencyCode) ∉ mapKeys currencyCodesDetails := by
  refine ⟨?_, by decide, by decide, table_keys_eq_constants.1, countryCodesDetails_nodup,
    countryCodesDetails_mem_keys, ?_, by decide, by decide, table_keys_eq_constants.2,
    currencyCodesDetails_nodup, currencyCodesDetails_mem_keys, ?_, ?_⟩
  · rw [← table_keys_eq_constants.1, ← countryCodesDetails_keys]
    simp [mapKeys, List.map_map, Function.comp_def]
  · rw [← table_keys_eq_constants.2, ← currencyCodesDetails_keys]
    simp [mapKeys, List.map_map, Function.comp_def]
  · intro h
    exact absurd ((countryCodesDetails_mem_keys 0).mp h).1 (by decide)
  · intro h
    exact absurd ((currencyCodesDetails_mem_keys 0).mp h).1 (by decide)

/-- C19: the forward table and the reverse index of each registry agree.
`stringToCountryCode` maps a string `s` to `c` exactly when `countryCodesDetails`
has a record for `c` whose Alpha2 is `s`, and `stringToCurrencyCode` maps `s` to
`c` exactly when `currencyCodesDetails` has a record for `c` whose Code is `s`.
Each reverse index has as many entries as its forward table, and no entry of a
reverse index has the value 0. -/
theorem forward_reverse_consistent :
    (∀ (s : GoString) (c : CountryCode), mapGet stringToCountryCode s = some c ↔
      ∃ d, mapGet countryCodesDetails c = some d ∧ d.Alpha2 = s) ∧
    (∀ (s : GoString) (c : CurrencyCode), mapGet stringToCurrencyCode s = some c ↔
      ∃ d, mapGet currencyCodesDetails c = some d ∧ d.Code = s) ∧
    stringToCountryCode.length = countryCodesDetails.length ∧
    stringToCurrencyCode.length = currencyCodesDetails.length ∧
    (∀ p ∈ stringToCountryCode, p.2 ≠ 0) ∧
    (∀ p ∈ stringToCurrencyCode, p.2 ≠ 0) := by
  refine ⟨?_, ?_, ?_, ?_, ?_, ?_⟩
  · intro s c
    constructor
    · intro h
      have hm := mapGet_some_mem _ _ _ h
      rw [stringToCountryCode_eq] at hm
      obtain ⟨⟨c1, d⟩, hp, he⟩ := List.mem_map.mp hm
      simp only [Prod.mk.injEq] at he
      rw [← he.2]
      exact ⟨d, mapGet_of_mem _ countryCodesDetails_nodup c1 d hp, he.1⟩
    · rintro ⟨d, hd, hs⟩
      apply mapGet_of_mem _ stringToCountryCode_keys.2.1
      rw [stringToCountryCode_eq, ← hs]
      exact List.mem_map.mpr ⟨(c, d), mapGet_some_mem _ _ _ hd, rfl⟩
  · intro s c
    constructor
    · intro h
      have hm := mapGet_some_mem _ _ _ h
      rw [stringToCurrencyCode_eq] at hm
      obtain ⟨⟨c1, d⟩, hp, he⟩ := List.mem_map.mp hm
      simp only [Prod.mk.injEq] at he
      rw [← he.2]
      exact ⟨d, mapGet_of_mem _ currencyCodesDetails_nodup c1 d hp, he.1⟩
    · rintro ⟨d, hd, hs⟩
      apply mapGet_of_mem _ stringToCurrencyCode_keys.2.1
      rw [stringToCurrencyCode_eq, ← hs]
      exact List.mem_map.mpr ⟨(c, d), mapGet_some_mem _ _ _ hd, rfl⟩
  · rw [stringToCountryCode_eq, List.length_map]
  · rw [stringToCurrencyCode_eq, List.length_map]
  · intro p hp h0
    have h := (stringToCountryCode_String p.1 p.2 hp).2.1
    rw [h0] at h
    exact absurd h (by decide)
  · intro p hp h0
    have h := (stringToCurrencyCode_String p.1 p.2 hp).2.1
    rw [h0] at h
    exact absurd h (by decide)

/-- C20: decoding is stricter than parsing. Whenever `CountryCode.UnmarshalText`
accepts bytes `b` and sets the receiver to `c`, `StringToCountryCode(string(b))`
returns the same `c` and no error; the same holds for the currency registry.
The inputs `us` and `usd` are parsed and are refused by `UnmarshalText`. -/
theorem unmarshal_stricter_than_parse (mapUpper : GoString → GoString) (c0 : Fin 256)
    (b : GoString) :
    ((CountryCode.UnmarshalText c0 b).2 = none →
      StringToCountryCode mapUpper b = ((CountryCode.UnmarshalText c0 b).1, none)) ∧
    ((CurrencyCode.UnmarshalText c0 b).2 = none →
      StringToCurrencyCode mapUpper b = ((CurrencyCode.UnmarshalText c0 b).1, none)) ∧
    StringToCountryCode mapUpper (lit "us") = (US, none) ∧
    CountryCode.UnmarshalText c0 (lit "us") = (c0, some ErrUnmarshalJSON) ∧
    StringToCurrencyCode mapUpper (lit "usd") = (USD, none) ∧
    CurrencyCode.UnmarshalText c0 (lit "usd") = (c0, some ErrUnmarshalJSON) := by
  refine ⟨?_, ?_, ?_, ?_, ?_, ?_⟩
  · show (CountryCode.UnmarshalJSON c0 b).2 = none →
      StringToCountryCode mapUpper b = ((CountryCode.UnmarshalJSON c0 b).1, none)
    cases hg : mapGet stringToCountryCode b with
    | none =>
      rw [country_unmarshal_of_none c0 b hg]
      exact fun h => Option.noConfusion h
    | some code =>
      rw [country_unmarshal_of_some c0 code b hg]
      intro _
      have hk := stringToCountryCode_keys.2.2 b (mapGet_some_key _ _ _ hg)
      apply country_parse_of_some mapUpper b code (by omega)
      rw [ToUpper_of_upper mapUpper b hk.2]
      exact hg
  · show (CurrencyCode.UnmarshalJSON c0 b).2 = none →
      StringToCurrencyCode mapUpper b = ((CurrencyCode.UnmarshalJSON c0 b).1, none)
    cases hg : mapGet stringToCurrencyCode b with
    | none =>
      rw [currency_unmarshal_of_none c0 b hg]
      exact fun h => Option.noConfusion h
    | some code =>
      rw [currency_unmarshal_of_some c0 code b hg]
      intro _
      have hk := stringToCurrencyCode_keys.2.2 b (mapGet_some_key _ _ _ hg)
      apply currency_parse_of_some mapUpper b code (by omega)
      rw [ToUpper_of_upper mapUpper b hk.2]
      exact hg
  · rw [(parse_ascii mapUpper (lit "us") (by decide)).1]
    decide!
  · exact country_unmarshal_of_none c0 _ (by decide!)
  · rw [(parse_ascii mapUpper (lit "usd") (by decide)).2]
    decide!
  · exact currency_unmarshal_of_none c0 _ (by decide!)

/-- A sample of C20: `UnmarshalText` accepts the bytes `US`, and
`StringToCountryCode` returns the same identifier for them. -/
theorem unmarshal_stricter_than_parse_witness :
    (CountryCode.UnmarshalText 0 (lit "US")).2 = none ∧
    StringToCountryCode id (lit "US") = ((CountryCode.UnmarshalText 0 (lit "US")).1, none) :=
  ⟨by decide!, (unmarshal_stricter_than_parse id 0 (lit "US")).1 (by decide!)⟩

/-! ## Records of valid identifiers -/

/-- A country identifier from 1 to 249 has a listed record, which is what the
one-value index of the forward table returns. -/
theorem country_record_of_valid (c : CountryCode) (h : 1 ≤ c.val ∧ c.val ≤ 249) :
    ∃ d, (c, d) ∈ countryCodesDetails ∧ mapIndex countryCodesDetails c = d := by
  have hk := (countryCodesDetails_mem_keys c).mpr h
  simp only [mapKeys, List.mem_map] at hk
  obtain ⟨⟨c1, d⟩, hp, hc⟩ := hk
  simp only at hc
  subst hc
  refine ⟨d, hp, ?_⟩
  unfold mapIndex
  rw [mapGet_of_mem _ countryCodesDetails_nodup c1 d hp]
  rfl

/-- A currency identifier from 1 to 178 has a listed record, which is what the
one-value index of the forward table returns. -/
theorem currency_record_of_valid (c : CurrencyCode) (h : 1 ≤ c.val ∧ c.val ≤ 178) :
    ∃ d, (c, d) ∈ currencyCodesDetails ∧ mapIndex currencyCodesDetails c = d := by
  have hk := (currencyCodesDetails_mem_keys c).mpr h
  simp only [mapKeys, List.mem_map] at hk
  obtain ⟨⟨c1, d⟩, hp, hc⟩ := hk
  simp only at hc
  subst hc
  refine ⟨d, hp, ?_⟩
  unfold mapIndex
  rw [mapGet_of_mem _ currencyCodesDetails_nodup c1 d hp]
  rfl

/-- Two currency identifiers from 1 to 178 with the same `String` are the same. -/
theorem currency_String_injective (a b : CurrencyCode) (ha : 1 ≤ a.val ∧ a.val ≤ 178)
    (hb : 1 ≤ b.val ∧ b.val ≤ 178) (h : CurrencyCode.String a = CurrencyCode.String b) :
    a = b := by
  have h1 := currency_mapGet_String a ha
  have h2 := currency_mapGet_String b hb
  rw [h, h2] at h1
  exact (Option.some.inj h1).symm

/-- Every Number of the country table is three bytes in `'0'..'9'`. -/
theorem countryCodesDetails_Number :
    ∀ p ∈ countryCodesDetails, p.2.Number.length = 3 ∧ ∀ x ∈ p.2.Number, 48 ≤ x ∧ x ≤ 57 := by
  decide!

/-- Every Flag of the country table is the UTF-8 form of two runes, U+1F1E6 plus
the distance of the first byte of Alpha2 from `'A'`, then the same for the
second byte; read back rune by rune it gives these two runes. -/
theorem countryCodesDetails_Flag :
    ∀ p ∈ countryCodesDetails,
      p.2.Flag = mapRunes (fun x => 0x1F1E6 + (x - 65)) p.2.Alpha2 ∧
      runes p.2.Flag = p.2.Alpha2.map (fun x => 0x1F1E6 + (x - 65)) := by
  decide!

/-- Every Flag of the currency table is empty or holds eight runes, none of them
a regional indicator. -/
theorem currencyCodesDetails_Flag :
    ∀ p ∈ currencyCodesDetails, p.2.Flag = [] ∨
      ((runes p.2.Flag).length = 8 ∧
        ∀ r ∈ runes p.2.Flag, ¬ (0x1F1E6 ≤ r ∧ r ≤ 0x1F1FF)) := by
  decide!

/-! ## More claims -/

/-- C21: the country scenario. `StringToCountryCode("US")` returns the constant
`US` and no error, and for that identifier `String()` is `US`, `Alpha3()` is
`USA` and `Number()` is `840`. -/
theorem scenario_US (mapUpper : GoString → GoString) :
    StringToCountryCode mapUpper (lit "US") = (US, none) ∧
    CountryCode.String US = lit "US" ∧
    CountryCode.Alpha3 US = lit "USA" ∧
    CountryCode.Number US = lit "840" := by
  refine ⟨?_, by decide!, by decide!, by decide!⟩
  rw [(parse_ascii mapUpper (lit "US") (by decide)).1]
  decide!

/-- C22: the currency scenarios. `StringToCurrencyCode("JPY")` returns `JPY`,
whose record has the Name `Japanese yen` and Decimals 0;
`StringToCurrencyCode("BHD")` returns `BHD`, whose record has the Name
`Bahraini dinar` and Decimals 3. -/
theorem scenario_JPY_BHD (mapUpper : GoString → GoString) :
    StringToCurrencyCode mapUpper (lit "JPY") = (JPY, none) ∧
    (mapIndex currencyCodesDetails JPY).Name = lit "Japanese yen" ∧
    CurrencyCode.Name JPY = lit "Japanese yen" ∧
    (mapIndex currencyCodesDetails JPY).Decimals = 0 ∧
    StringToCurrencyCode mapUpper (lit "BHD") = (BHD, none) ∧
    (mapIndex currencyCodesDetails BHD).Name = lit "Bahraini dinar" ∧
    CurrencyCode.Name BHD = lit "Bahraini dinar" ∧
    (mapIndex currencyCodesDetails BHD).Decimals = 3 := by
  refine ⟨?_, by decide!, by decide!, by decide!, ?_, by decide!, by decide!, by decide!⟩
  · rw [(parse_ascii mapUpper (lit "JPY") (by decide)).2]
    decide!
  · rw [(parse_ascii mapUpper (lit "BHD") (by decide)).2]
    decide!

/-- C23: a parse that fails returns the identifier 0 and `ErrInvalidStringCode`,
in both registries; a parse that succeeds returns an identifier that is not 0.
The empty string and `USDX` fail in both registries and `ZZZ` fails in the
country registry. -/
theorem parse_failure_sentinel (mapUpper : GoString → GoString) (s : GoString) :
    ((StringToCountryCode mapUpper s).2 ≠ none →
      StringToCountryCode mapUpper s = (0, some ErrInvalidStringCode)) ∧
    ((StringToCurrencyCode mapUpper s).2 ≠ none →
      StringToCurrencyCode mapUpper s = (0, some ErrInvalidStringCode)) ∧
    ((StringToCountryCode mapUpper s).2 = none → (StringToCountryCode mapUpper s).1 ≠ 0) ∧
    ((StringToCurrencyCode mapUpper s).2 = none → (StringToCurrencyCode mapUpper s).1 ≠ 0) ∧
    StringToCountryCode mapUpper (lit "") = (0, some ErrInvalidStringCode) ∧
    StringToCurrencyCode mapUpper (lit "") = (0, some ErrInvalidStringCode) ∧
    StringToCountryCode mapUpper (lit "USDX") = (0, some ErrInvalidStringCode) ∧
    StringToCurrencyCode mapUpper (lit "USDX") = (0, some ErrInvalidStringCode) ∧
    StringToCountryCode mapUpper (lit "ZZZ") = (0, some ErrInvalidStringCode) := by
  have hc : ((StringToCountryCode mapUpper s).2 ≠ none →
      StringToCountryCode mapUpper s = (0, some ErrInvalidStringCode)) ∧
      ((StringToCountryCode mapUpper s).2 = none → (StringToCountryCode mapUpper s).1 ≠ 0) := by
    by_cases hl : 2 < s.length
    · rw [country_parse_of_long mapUpper s hl]
      exact ⟨fun _ => rfl, fun h => Option.noConfusion h⟩
    · cases hg : mapGet stringToCountryCode (ToUpper mapUpper s) with
      | none =>
        rw [country_parse_of_none mapUpper s hg]
        exact ⟨fun _ => rfl, fun h => Option.noConfusion h⟩
      | some c =>
        rw [country_parse_of_some mapUpper s c (by omega) hg]
        refine ⟨fun h => absurd rfl h, fun _ h0 => ?_⟩
        have hv := (stringToCountryCode_String _ c (mapGet_some_mem _ _ _ hg)).2.1
        simp only at h0
        rw [h0] at hv
        exact absurd hv (by decide)
  have hu : ((StringToCurrencyCode mapUpper s).2 ≠ none →
      StringToCurrencyCode mapUpper s = (0, some ErrInvalidStringCode)) ∧
      ((StringToCurrencyCode mapUpper s).2 = none →
        (StringToCurrencyCode mapUpper s).1 ≠ 0) := by
    by_cases hl : 3 < s.length
    · rw [currency_parse_of_long mapUpper s hl]
      exact ⟨fun _ => rfl, fun h => Option.noConfusion h⟩
    · cases hg : mapGet stringToCurrencyCode (ToUpper mapUpper s) with
      | none =>
        rw [currency_parse_of_none mapUpper s hg]
        exact ⟨fun _ => rfl, fun h => Option.noConfusion h⟩
      | some c =>
        rw [currency_parse_of_some mapUpper s c (by omega) hg]
        refine ⟨fun h => absurd rfl h, fun _ h0 => ?_⟩
        have hv := (stringToCurrencyCode_String _ c (mapGet_some_mem _ _ _ hg)).2.1
        simp only at h0
        rw [h0] at hv
        exact absurd hv (by decide)
  refine ⟨hc.1, hu.1, hc.2, hu.2, ?_, ?_, ?_, ?_, ?_⟩
  · rw [(parse_ascii mapUpper (lit "") (by decide)).1]
    decide!
  · rw [(parse_ascii mapUpper (lit "") (by decide)).2]
    decide!
  · exact country_parse_of_long mapUpper _ (by decide)
  · exact currency_parse_of_long mapUpper _ (by decide)
  · exact country_parse_of_long mapUpper _ (by decide)

/-- A sample of C23: `USA` fails in the country registry with the identifier 0
and `ErrInvalidStringCode`, and `us` succeeds with an identifier that is not 0. -/
theorem parse_failure_sentinel_witness :
    (StringToCountryCode id (lit "USA")).2 ≠ none ∧
    StringToCountryCode id (lit "USA") = (0, some ErrInvalidStringCode) ∧
    (StringToCountryCode id (lit "us")).2 = none ∧
    (StringToCountryCode id (lit "us")).1 ≠ 0 :=
  ⟨by decide!, (parse_failure_sentinel id (lit "USA")).1 (by decide!), by decide!,
    (parse_failure_sentinel id (lit "us")).2.2.1 (by decide!)⟩

/-- C24: `Error.Error` returns the underlying text. For every `e` of type
`Error`, `e.Error()` is `string(e)`; the three errors of the package have the
texts `failed to marshal json`, `failed to unmarshal json` and
`invalid string representation of the code`, and differ from each other. -/
theorem Error_Error_text (e : Error) :
    Error.Error e = e.text ∧
    Error.Error ErrMarshalJSON = lit "failed to marshal json" ∧
    Error.Error ErrUnmarshalJSON = lit "failed to unmarshal json" ∧
    Error.Error ErrInvalidStringCode = lit "invalid string representation of the code" ∧
    Error.Error ⟨lit "test error"⟩ = lit "test error" ∧
    ErrMarshalJSON ≠ ErrUnmarshalJSON ∧
    ErrMarshalJSON ≠ ErrInvalidStringCode ∧
    ErrUnmarshalJSON ≠ ErrInvalidStringCode := by
  refine ⟨rfl, rfl, rfl, rfl, rfl, by decide, by decide, by decide⟩

/-- C25: short codes are canonical. The `String()` of a country identifier from 1
to 249 is two bytes in `'A'..'Z'`, that of a currency identifier from 1 to 178
is three bytes in `'A'..'Z'`, and in each registry two different valid
identifiers have different short codes. -/
theorem short_codes_canonical :
    (∀ c : CountryCode, 1 ≤ c.val ∧ c.val ≤ 249 →
      (CountryCode.String c).length = 2 ∧ ∀ x ∈ CountryCode.String c, 65 ≤ x ∧ x ≤ 90) ∧
    (∀ c : CurrencyCode, 1 ≤ c.val ∧ c.val ≤ 178 →
      (CurrencyCode.String c).length = 3 ∧ ∀ x ∈ CurrencyCode.String c, 65 ≤ x ∧ x ≤ 90) ∧
    (∀ a b : CountryCode, 1 ≤ a.val ∧ a.val ≤ 249 → 1 ≤ b.val ∧ b.val ≤ 249 → a ≠ b →
      CountryCode.String a ≠ CountryCode.String b) ∧
    (∀ a b : CurrencyCode, 1 ≤ a.val ∧ a.val ≤ 178 → 1 ≤ b.val ∧ b.val ≤ 178 → a ≠ b →
      CurrencyCode.String a ≠ CurrencyCode.String b) :=
  ⟨fun c h => ⟨(country_String_of_valid c h).1, (country_String_of_valid c h).2.1⟩,
    fun c h => ⟨(currency_String_of_valid c h).1, (currency_String_of_valid c h).2.1⟩,
    fun a b ha hb hne he => hne (country_String_injective a b ha hb he),
    fun a b ha hb hne he => hne (currency_String_injective a b ha hb he)⟩

/-- C26: country numeric codes have a fixed width. The `Number()` of a country
identifier from 1 to 249 is three bytes in `'0'..'9'`, padded with zeros on the
left as in `004` for `AF` and `020` for `AD`. -/
theorem country_Number_three_digits (c : CountryCode) (h : 1 ≤ c.val ∧ c.val ≤ 249) :
    (CountryCode.Number c).length = 3 ∧ ∀ x ∈ CountryCode.Number c, 48 ≤ x ∧ x ≤ 57 := by
  obtain ⟨d, hp, hd⟩ := country_record_of_valid c h
  have hn : CountryCode.Number c = d.Number := by
    unfold CountryCode.Number
    rw [hd]
  rw [hn]
  exact countryCodesDetails_Number (c, d) hp

/-- A sample of C26: the `Number()` of `AF` is `004`, three digits. -/
theorem country_Number_three_digits_witness :
    CountryCode.Number AF = lit "004" ∧ CountryCode.Number AD = lit "020" ∧
    (CountryCode.Number AF).length = 3 ∧ ∀ x ∈ CountryCode.Number AF, 48 ≤ x ∧ x ≤ 57 :=
  ⟨by decide!, by decide!, country_Number_three_digits AF (by decide)⟩

/-- C27 (the code breaks it): currency numeric codes do not have a fixed width.
The `Number()` of `ALL` is the one byte `8` and that of `AMD` the two bytes
`51`, not `008` and `051`; the country table has `008` for `AL`. The records
whose Number is not three bytes long are those of sixteen currencies, all with
a number below 100 written without its leading zeros; `XFU` has `Nil`. -/
theorem currency_Number_not_padded :
    CurrencyCode.Number ALL = lit "8" ∧
    CurrencyCode.Number AMD = lit "51" ∧
    CountryCode.Number AL = lit "008" ∧
    CurrencyCode.Number XFU = lit "Nil" ∧
    (currencyCodesDetails.filter (fun p => p.2.Number.length != 3)).map Prod.fst =
      [ALL, AMD, ARS, AUD, BBD, BDT, BHD, BMD, BND, BOB, BSD, BTN, BWP, BZD, DZD, SBD] ∧
    (∀ p ∈ currencyCodesDetails, p.2.Number = lit "Nil" ∨
      (1 ≤ p.2.Number.length ∧ p.2.Number.length ≤ 3 ∧ ∀ x ∈ p.2.Number, 48 ≤ x ∧ x ≤ 57)) := by
  refine ⟨by decide!, by decide!, by decide!, by decide!, by decide!, by decide!⟩

/-- C28: country flags are the emoji flag of the code. For a country identifier
from 1 to 249, `Flag()` is not empty and is the UTF-8 form of exactly two
runes, both regional indicators: U+1F1E6 plus the distance of the first byte of
`String()` from `'A'`, then U+1F1E6 plus that of the second byte. -/
theorem country_Flag_regional_indicators (c : CountryCode) (h : 1 ≤ c.val ∧ c.val ≤ 249) :
    CountryCode.Flag c ≠ [] ∧
    (∃ x y, CountryCode.String c = [x, y] ∧
      runes (CountryCode.Flag c) = [0x1F1E6 + (x - 65), 0x1F1E6 + (y - 65)] ∧
      CountryCode.Flag c = appendRune (0x1F1E6 + (x - 65)) ++ appendRune (0x1F1E6 + (y - 65))) ∧
    (∀ r ∈ runes (CountryCode.Flag c), 0x1F1E6 ≤ r ∧ r ≤ 0x1F1FF) := by
  obtain ⟨d, hp, hd⟩ := country_record_of_valid c h
  have hf : CountryCode.Flag c = d.Flag := by
    unfold CountryCode.Flag
    rw [hd]
  have hs : CountryCode.String c = d.Alpha2 := country_String_of_mem c d hp
  have ha := countryCodesDetails_Alpha2 (c, d) hp
  have hfl := countryCodesDetails_Flag (c, d) hp
  simp only at ha hfl
  rw [hf, hs]
  obtain ⟨x, y, hxy⟩ : ∃ x y, d.Alpha2 = [x, y] := by
    match hm : d.Alpha2, ha.1 with
    | [x, y], _ => exact ⟨x, y, rfl⟩
  rw [hxy] at ha hfl
  have hx := ha.2 x (by simp)
  have hy := ha.2 y (by simp)
  have hr : runes d.Flag = [0x1F1E6 + (x - 65), 0x1F1E6 + (y - 65)] := by
    rw [hfl.2]
    rfl
  refine ⟨?_, ⟨x, y, hxy, hr, ?_⟩, ?_⟩
  · intro he
    rw [he] at hr
    have h0 : runes ([] : GoString) = [] := rfl
    rw [h0] at hr
    exact List.noConfusion hr
  · rw [hfl.1]
    simp [mapRunes]
  · intro r hrm
    rw [hr] at hrm
    simp only [List.mem_cons, List.mem_singleton, List.not_mem_nil, or_false] at hrm
    rcases hrm with hrm | hrm <;> omega

/-- A sample of C28: the `Flag()` of `US` is the eight bytes of U+1F1FA U+1F1F8. -/
theorem country_Flag_regional_indicators_witness :
    CountryCode.Flag US = [0xF0, 0x9F, 0x87, 0xBA, 0xF0, 0x9F, 0x87, 0xB8] ∧
    CountryCode.String US = [85, 83] ∧
    ∀ r ∈ runes (CountryCode.Flag US), 0x1F1E6 ≤ r ∧ r ≤ 0x1F1FF :=
  ⟨by decide!, by decide!, (country_Flag_regional_indicators US (by decide)).2.2⟩

/-- C29 (the code breaks it): the flags of the currency table are not emoji
flags. `USD.Flag()` is eighteen bytes that read as the eight runes U+00F0 U+0178
U+2021 U+00BA U+00F0 U+0178 U+2021 U+00B8, the bytes of the flag of `US` each
taken as a character of its own; it is not `US.Flag()`, whose eight bytes read
as the two regional indicators U+1F1FA U+1F1F8. Every flag of the currency
table that is not empty holds eight runes, none of them a regional indicator. -/
theorem currency_Flag_not_emoji :
    (CurrencyCode.Flag USD).length = 18 ∧
    runes (CurrencyCode.Flag USD) = [0xF0, 0x178, 0x2021, 0xBA, 0xF0, 0x178, 0x2021, 0xB8] ∧
    CountryCode.Flag US = [0xF0, 0x9F, 0x87, 0xBA, 0xF0, 0x9F, 0x87, 0xB8] ∧
    runes (CountryCode.Flag US) = [0x1F1FA, 0x1F1F8] ∧
    CurrencyCode.Flag USD ≠ CountryCode.Flag US ∧
    (∀ c : CurrencyCode, CurrencyCode.Flag c ≠ [] →
      (runes (CurrencyCode.Flag c)).length = 8 ∧
      ∀ r ∈ runes (CurrencyCode.Flag c), ¬ (0x1F1E6 ≤ r ∧ r ≤ 0x1F1FF)) := by
  refine ⟨by decide!, by decide!, by decide!, by decide!, by decide!, ?_⟩
  intro c hne
  by_cases h : 1 ≤ c.val ∧ c.val ≤ 178
  · obtain ⟨d, hp, hd⟩ := currency_record_of_valid c h
    have hf : CurrencyCode.Flag c = d.Flag := by
      unfold CurrencyCode.Flag
      rw [hd]
    rw [hf] at hne ⊢
    rcases currencyCodesDetails_Flag (c, d) hp with he | he
    · exact absurd he hne
    · exact he
  · have hn : mapGet currencyCodesDetails c = none :=
      (currency_no_record_iff c).mpr (by omega)
    exact absurd (by simp only [CurrencyCode.Flag, mapIndex, hn]; rfl) hne

/-- C30: the currency entries without a flag are kept with an empty flag. For
the precious metals `XAU`, `XAG`, `XPT`, `XPD`, the bond market units `XBA`,
`XBB`, `XBC`, `XBD`, the funds codes `BOV`, `CLF`, `MXV`, `USN`, `USS`, `UYI` and
the codes `XTS` and `XXX`, `Flag()` is the empty string, the identifier is one
from 1 to 178 and `String()` is not empty. -/
theorem flagless_currencies (c : CurrencyCode)
    (h : c ∈ [XAU, XAG, XPT, XPD, XBA, XBB, XBC, XBD, BOV, CLF, MXV, USN, USS, UYI, XTS, XXX]) :
    CurrencyCode.Flag c = [] ∧ CurrencyCode.String c ≠ [] ∧ (1 ≤ c.val ∧ c.val ≤ 178) := by
  have hall : ∀ c ∈ [XAU, XAG, XPT, XPD, XBA, XBB, XBC, XBD, BOV, CLF, MXV, USN, USS, UYI,
      XTS, XXX], CurrencyCode.Flag c = [] ∧ CurrencyCode.String c ≠ [] ∧
      (1 ≤ c.val ∧ c.val ≤ 178) := by decide!
  exact hall c h

/-- A sample of C30: `XAU` has an empty `Flag()` and the `String()` `XAU`. -/
theorem flagless_currencies_witness :
    CurrencyCode.Flag XAU = [] ∧ CurrencyCode.String XAU ≠ [] ∧
    (1 ≤ XAU.val ∧ XAU.val ≤ 178) ∧ CurrencyCode.String XAU = lit "XAU" :=
  ⟨(flagless_currencies XAU (by decide)).1, (flagless_currencies XAU (by decide)).2.1,
    (flagless_currencies XAU (by decide)).2.2, by decide!⟩

/-! ## Lists without a repeated element -/

/-- A list that `distinctFrom` accepts has no repeated number and none of the
numbers marked in the bit set. -/
theorem nodup_of_distinctFrom (l : List Nat) (seen : Nat) (h : distinctFrom l seen = true) :
    l.Nodup ∧ ∀ a ∈ l, seen.testBit a = false := by
  induction l generalizing seen with
  | nil => exact ⟨List.nodup_nil, fun a ha => absurd ha (List.not_mem_nil a)⟩
  | cons a l ih =>
    simp only [distinctFrom, Bool.and_eq_true, Bool.not_eq_true'] at h
    obtain ⟨hn, hl⟩ := ih _ h.2
    have ha : a ∉ l := by
      intro hm
      have hb := hl a hm
      rw [Nat.testBit_lor, Nat.one_shiftLeft, Nat.testBit_two_pow_self, Bool.or_true] at hb
      exact Bool.noConfusion hb
    refine ⟨List.nodup_cons.mpr ⟨ha, hn⟩, ?_⟩
    intro b hb
    rcases List.mem_cons.mp hb with hb | hb
    · rw [hb]
      exact h.1
    · have hb2 := hl b hb
      rw [Nat.testBit_lor, Bool.or_eq_false_iff] at hb2
      exact hb2.1

/-- Two elements of a list with the same image under a function whose images,
taken over the list, are accepted by `distinctFrom` are the same element. -/
theorem eq_of_distinct_image {α : Type} (f : α → Nat) (l : List α)
    (h : distinctFrom (l.map f) 0 = true) (x y : α) (hx : x ∈ l) (hy : y ∈ l)
    (he : f x = f y) : x = y :=
  List.inj_on_of_nodup_map (nodup_of_distinctFrom _ 0 h).1 hx hy he

/-! ## Numbers and names of the tables -/

/-- The Numbers of the country table, read as decimal numbers, are pairwise
different. -/
theorem countryCodesDetails_Number_distinct :
    distinctFrom (countryCodesDetails.map (fun p => decimalValue p.2.Number)) 0 = true := by
  decide!

/-- The Names of the country table, read as numbers and reduced modulo 5754, are
pairwise different. -/
theorem countryCodesDetails_Name_distinct :
    distinctFrom (countryCodesDetails.map (fun p => byteValue p.2.Name % 5754)) 0 = true := by
  decide!

/-- The Names of the currency table, read as numbers and reduced modulo 2361,
are pairwise different. -/
theorem currencyCodesDetails_Name_distinct :
    distinctFrom (currencyCodesDetails.map (fun p => byteValue p.2.Name % 2361)) 0 = true := by
  decide!

/-- The keys of the currency reverse index stand in increasing order. -/
theorem stringToCurrencyCode_sorted : sortedStrings (mapKeys stringToCurrencyCode) = true := by
  decide!

/-- The `Name` of a country identifier with a listed record is that record's
Name, and its `Number` that record's Number. -/
theorem country_Name_Number_of_mem (c : CountryCode) (d : CountryCodeDetails)
    (h : (c, d) ∈ countryCodesDetails) :
    CountryCode.Name c = d.Name ∧ CountryCode.Number c = d.Number := by
  unfold CountryCode.Name CountryCode.Number mapIndex
  rw [mapGet_of_mem _ countryCodesDetails_nodup c d h]
  exact ⟨rfl, rfl⟩

/-- The `Name` of a currency identifier with a listed record is that record's
Name. -/
theorem currency_Name_of_mem (c : CurrencyCode) (d : CurrencyCodeDetails)
    (h : (c, d) ∈ currencyCodesDetails) : CurrencyCode.Name c = d.Name := by
  unfold CurrencyCode.Name mapIndex
  rw [mapGet_of_mem _ currencyCodesDetails_nodup c d h]
  rfl

/-- Two country identifiers from 1 to 249 with the same `Number` are the same. -/
theorem country_Number_injective (a b : CountryCode) (ha : 1 ≤ a.val ∧ a.val ≤ 249)
    (hb : 1 ≤ b.val ∧ b.val ≤ 249) (h : CountryCode.Number a = CountryCode.Number b) :
    a = b := by
  obtain ⟨da, hpa, _⟩ := country_record_of_valid a ha
  obtain ⟨db, hpb, _⟩ := country_record_of_valid b hb
  rw [(country_Name_Number_of_mem a da hpa).2, (country_Name_Number_of_mem b db hpb).2] at h
  have he := eq_of_distinct_image (fun p : CountryCode × CountryCodeDetails =>
    decimalValue p.2.Number) _ countryCodesDetails_Number_distinct _ _ hpa hpb
    (by simp only [h])
  exact congrArg Prod.fst he

/-- Two country identifiers from 1 to 249 with the same `Name` are the same. -/
theorem country_Name_injective (a b : CountryCode) (ha : 1 ≤ a.val ∧ a.val ≤ 249)
    (hb : 1 ≤ b.val ∧ b.val ≤ 249) (h : CountryCode.Name a = CountryCode.Name b) :
    a = b := by
  obtain ⟨da, hpa, _⟩ := country_record_of_valid a ha
  obtain ⟨db, hpb, _⟩ := country_record_of_valid b hb
  rw [(country_Name_Number_of_mem a da hpa).1, (country_Name_Number_of_mem b db hpb).1] at h
  have he := eq_of_distinct_image (fun p : CountryCode × CountryCodeDetails =>
    byteValue p.2.Name % 5754) _ countryCodesDetails_Name_distinct _ _ hpa hpb
    (by simp only [h])
  exact congrArg Prod.fst he

/-- Two currency identifiers from 1 to 178 with the same `Name` are the same. -/
theorem currency_Name_injective (a b : CurrencyCode) (ha : 1 ≤ a.val ∧ a.val ≤ 178)
    (hb : 1 ≤ b.val ∧ b.val ≤ 178) (h : CurrencyCode.Name a = CurrencyCode.Name b) :
    a = b := by
  obtain ⟨da, hpa, _⟩ := currency_record_of_valid a ha
  obtain ⟨db, hpb, _⟩ := currency_record_of_valid b hb
  rw [currency_Name_of_mem a da hpa, currency_Name_of_mem b db hpb] at h
  have he := eq_of_distinct_image (fun p : CurrencyCode × CurrencyCodeDetails =>
    byteValue p.2.Name % 2361) _ currencyCodesDetails_Name_distinct _ _ hpa hpb
    (by simp only [h])
  exact congrArg Prod.fst he

/-! ## The last claims -/

/-- C31: country numeric codes are unique. Two different country identifiers
from 1 to 249 have different `Number()`. -/
theorem country_Number_unique (a b : CountryCode) (ha : 1 ≤ a.val ∧ a.val ≤ 249)
    (hb : 1 ≤ b.val ∧ b.val ≤ 249) (hne : a ≠ b) :
    CountryCode.Number a ≠ CountryCode.Number b :=
  fun h => hne (country_Number_injective a b ha hb h)

/-- A sample of C31: `AD` and `AE` have the different numbers `020` and `784`. -/
theorem country_Number_unique_witness :
    CountryCode.Number AD = lit "020" ∧ CountryCode.Number AE = lit "784" ∧
    CountryCode.Number AD ≠ CountryCode.Number AE :=
  ⟨by decide!, by decide!, country_Number_unique AD AE (by decide) (by decide) (by decide)⟩

/-- C32 as stated fails: in neither registry are there two different valid
identifiers with the same `Name()`. -/
theorem shared_names_counterexample :
    ¬ ((∃ a b : CountryCode, (1 ≤ a.val ∧ a.val ≤ 249) ∧ (1 ≤ b.val ∧ b.val ≤ 249) ∧ a ≠ b ∧
        CountryCode.Name a = CountryCode.Name b) ∨
      (∃ a b : CurrencyCode, (1 ≤ a.val ∧ a.val ≤ 178) ∧ (1 ≤ b.val ∧ b.val ≤ 178) ∧ a ≠ b ∧
        CurrencyCode.Name a = CurrencyCode.Name b)) := by
  rintro (⟨a, b, ha, hb, hne, h⟩ | ⟨a, b, ha, hb, hne, h⟩)
  · exact hne (country_Name_injective a b ha hb h)
  · exact hne (currency_Name_injective a b ha hb h)

/-- C32, amended: display names are not shared. In each registry two different
valid identifiers have different `Name()`. -/
theorem names_unique :
    (∀ a b : CountryCode, 1 ≤ a.val ∧ a.val ≤ 249 → 1 ≤ b.val ∧ b.val ≤ 249 → a ≠ b →
      CountryCode.Name a ≠ CountryCode.Name b) ∧
    (∀ a b : CurrencyCode, 1 ≤ a.val ∧ a.val ≤ 178 → 1 ≤ b.val ∧ b.val ≤ 178 → a ≠ b →
      CurrencyCode.Name a ≠ CurrencyCode.Name b) :=
  ⟨fun a b ha hb hne h => hne (country_Name_injective a b ha hb h),
    fun a b ha hb hne h => hne (currency_Name_injective a b ha hb h)⟩

/-- C36: `MarshalJSON` is injective on valid identifiers. Two different country
identifiers from 1 to 249 are encoded to different bytes, and so are two
different currency identifiers from 1 to 178. -/
theorem MarshalJSON_injective :
    (∀ a b : CountryCode, 1 ≤ a.val ∧ a.val ≤ 249 → 1 ≤ b.val ∧ b.val ≤ 249 → a ≠ b →
      (CountryCode.MarshalJSON a).1 ≠ (CountryCode.MarshalJSON b).1) ∧
    (∀ a b : CurrencyCode, 1 ≤ a.val ∧ a.val ≤ 178 → 1 ≤ b.val ∧ b.val ≤ 178 → a ≠ b →
      (CurrencyCode.MarshalJSON a).1 ≠ (CurrencyCode.MarshalJSON b).1) := by
  constructor
  · intro a b ha hb hne h
    rw [country_marshal_of_valid a ha, country_marshal_of_valid b hb] at h
    simp only [Option.some.injEq, List.append_assoc, List.singleton_append, List.cons.injEq,
      true_and] at h
    exact hne (country_String_injective a b ha hb (List.append_cancel_right (List.cons.inj h).2))
  · intro a b ha hb hne h
    rw [currency_marshal_of_valid a ha, currency_marshal_of_valid b hb] at h
    simp only [Option.some.injEq, List.append_assoc, List.singleton_append, List.cons.injEq,
      true_and] at h
    exact hne (currency_String_injective a b ha hb (List.append_cancel_right (List.cons.inj h).2))

/-- C37: the text and the JSON codec are the same function. For every
identifier of either registry `MarshalText()` returns the bytes and the error of
`MarshalJSON()`, and for every receiver value and every bytes `b`,
`UnmarshalText(b)` returns the error of `UnmarshalJSON(b)` and leaves the same
receiver value. -/
theorem text_codec_is_json_codec (c : Fin 256) (b : GoString) :
    CountryCode.MarshalText c = CountryCode.MarshalJSON c ∧
    CurrencyCode.MarshalText c = CurrencyCode.MarshalJSON c ∧
    CountryCode.UnmarshalText c b = CountryCode.UnmarshalJSON c b ∧
    CurrencyCode.UnmarshalText c b = CurrencyCode.UnmarshalJSON c b :=
  ⟨rfl, rfl, rfl, rfl⟩

/-! ## Sorting by short code -/

/-- A string less than a second one is less than every string that is not less
than the second one. -/
theorem strLt_of_lt_of_not_lt (x a b : GoString) (h1 : strLt x a = true)
    (h2 : strLt b a = false) : strLt x b = true := by
  cases hxb : strLt x b with
  | true => rfl
  | false =>
    cases hbx : strLt b x with
    | false =>
      have he := strLt_total x b hxb hbx
      rw [he, h2] at h1
      exact Bool.noConfusion h1
    | true =>
      have := strLt_trans b x a hbx h1
      rw [h2] at this
      exact Bool.noConfusion this

/-- The insertion puts the new element among the old ones. -/
theorem insertByLess_perm {α : Type} (less : α → α → Bool) (a : α) (l : List α) :
    (insertByLess less a l).Perm (a :: l) := by
  induction l with
  | nil => exact List.Perm.refl _
  | cons b l ih =>
    simp only [insertByLess]
    split
    · exact ((List.Perm.cons b ih).trans (List.Perm.swap a b l))
    · exact List.Perm.refl _

/-- The insertion sort rearranges its input. -/
theorem sortSlice_perm {α : Type} (less : α → α → Bool) (l : List α) :
    (sortSlice less l).Perm l := by
  induction l with
  | nil => exact List.Perm.refl _
  | cons a l ih => exact (insertByLess_perm less a _).trans (List.Perm.cons a ih)

/-- The insertion keeps a list free of an element less than an earlier one, for a
comparison that never holds both ways and that carries over from an element to
every element not less than it. -/
theorem insertByLess_sorted {α : Type} (less : α → α → Bool)
    (hasymm : ∀ a b, less a b = true → less b a = false)
    (hneg : ∀ x a b, less x a = true → less b a = false → less x b = true)
    (a : α) (l : List α) (h : l.Pairwise (fun x y => less y x = false)) :
    (insertByLess less a l).Pairwise (fun x y => less y x = false) := by
  induction l with
  | nil => exact List.pairwise_singleton _ a
  | cons b l ih =>
    have h2 := List.pairwise_cons.mp h
    simp only [insertByLess]
    split
    · rename_i hba
      refine List.Pairwise.cons ?_ (ih h2.2)
      intro y hy
      rcases List.mem_cons.mp ((insertByLess_perm less a l).mem_iff.mp hy) with hy | hy
      · rw [hy]
        exact hasymm b a hba
      · exact h2.1 y hy
    · rename_i hba
      have hba2 : less b a = false := by simpa using hba
      refine List.Pairwise.cons ?_ h
      intro y hy
      rcases List.mem_cons.mp hy with hy | hy
      · rw [hy]
        exact hba2
      · cases hya : less y a with
        | false => rfl
        | true =>
          have := hneg y a b hya hba2
          rw [h2.1 y hy] at this
          exact Bool.noConfusion this

/-- The insertion sort leaves what `sort.Slice` guarantees, for a comparison that
never holds both ways and that carries over from an element to every element
not less than it. -/
theorem sortSlice_result {α : Type} (less : α → α → Bool)
    (hasymm : ∀ a b, less a b = true → less b a = false)
    (hneg : ∀ x a b, less x a = true → less b a = false → less x b = true)
    (l : List α) : SortSliceResult less l (sortSlice less l) := by
  refine ⟨sortSlice_perm less l, ?_⟩
  induction l with
  | nil => exact List.Pairwise.nil
  | cons a l ih => exact insertByLess_sorted less hasymm hneg a _ ih

/-- For every order in which the map is visited, the list that the body of
`ListCountryCodes` computes is one of those a call may return. -/
theorem ListCountryCodesIn_returns (order : List (GoString × CountryCode))
    (h : order.Perm stringToCountryCode) : ListCountryCodesReturns (ListCountryCodesIn order) :=
  ⟨order, h, sortSlice_result countryLess (fun _ _ hab => strLt_asymm _ _ hab)
    (fun _ _ _ h1 h2 => strLt_of_lt_of_not_lt _ _ _ h1 h2) _⟩

/-- Every list that `ListCountryCodes` may return is the list of the values of
the reverse index in the order of the literal. -/
theorem ListCountryCodesReturns_eq (out : List CountryCode) (h : ListCountryCodesReturns out) :
    out = stringToCountryCode.map Prod.snd := by
  obtain ⟨hp, hs⟩ := ListCountryCodesReturns_perm out h
  rw [← stringToCountryCode_values] at hp
  refine List.Perm.eq_of_sorted ?_ hs stringToCountryCode_values_sorted.2 hp
  intro a b ha hb hab hba
  have hva := (countryCodesDetails_mem_keys a).mp
    (stringToCountryCode_values ▸ hp.mem_iff.mp ha)
  have hvb := (countryCodesDetails_mem_keys b).mp (stringToCountryCode_values ▸ hb)
  exact country_String_injective a b hva hvb (strLt_total _ _ hba hab)

/-- Two strict orders that both hold from each element of a list to every later
one agree on the elements of the list. -/
theorem order_iff_of_pairwise {α : Type} (lt1 lt2 : α → α → Prop) (l : List α)
    (h : l.Pairwise (fun a b => lt1 a b ∧ lt2 a b))
    (as1 : ∀ a b, lt1 a b → ¬ lt1 b a) (as2 : ∀ a b, lt2 a b → ¬ lt2 b a)
    (a b : α) (ha : a ∈ l) (hb : b ∈ l) : lt1 a b ↔ lt2 a b := by
  by_cases hab : a = b
  · subst hab
    exact ⟨fun h1 => absurd h1 (as1 a a h1), fun h2 => absurd h2 (as2 a a h2)⟩
  · have hq : l.Pairwise (fun a b => (lt1 a b ∧ lt2 a b) ∨ (lt1 b a ∧ lt2 b a)) :=
      h.imp (fun hab => Or.inl hab)
    have hsym : Symmetric (fun a b : α => (lt1 a b ∧ lt2 a b) ∨ (lt1 b a ∧ lt2 b a)) :=
      fun _ _ hxy => hxy.symm
    rcases hq.forall hsym ha hb hab with h1 | h1
    · exact ⟨fun _ => h1.2, fun _ => h1.1⟩
    · exact ⟨fun h2 => absurd h2 (as1 b a h1.1), fun h2 => absurd h2 (as2 b a h1.2)⟩

/-- On country identifiers from 1 to 249 the order of the identifiers is the
order of their `String`. -/
theorem country_order_iff (a b : CountryCode) (ha : 1 ≤ a.val ∧ a.val ≤ 249)
    (hb : 1 ≤ b.val ∧ b.val ≤ 249) :
    a < b ↔ strLt (CountryCode.String a) (CountryCode.String b) = true := by
  have h1 : (stringToCountryCode.map Prod.snd).Pairwise (fun a b : CountryCode => a < b) := by
    rw [stringToCountryCode_values]
    have h := List.pairwise_lt_range' 1 249
    rw [← countryCodesDetails_keys] at h
    have h2 : (List.map (fun c : CountryCode => c.val) (mapKeys countryCodesDetails)).Pairwise
        (fun a b => a < b) := by
      simpa [mapKeys, List.map_map, Function.comp_def] using h
    exact ((List.pairwise_map (f := fun c : CountryCode => c.val)).mp h2).imp
      (fun hab => Fin.lt_def.mpr hab)
  have hmem : ∀ c : CountryCode, 1 ≤ c.val ∧ c.val ≤ 249 →
      c ∈ stringToCountryCode.map Prod.snd := by
    intro c hc
    rw [stringToCountryCode_values]
    exact (countryCodesDetails_mem_keys c).mpr hc
  exact order_iff_of_pairwise (fun a b : CountryCode => a < b)
    (fun a b => countryLess a b = true) _ (h1.and stringToCountryCode_values_pairwise)
    (fun a b hab => by simp only [Fin.lt_def] at hab ⊢; omega)
    (fun a b hab hba => by
      have h3 : strLt (CountryCode.String b) (CountryCode.String a) = false :=
        strLt_asymm _ _ hab
      have h4 : strLt (CountryCode.String b) (CountryCode.String a) = true := hba
      rw [h3] at h4
      exact Bool.noConfusion h4)
    a b (hmem a ha) (hmem b hb)

/-- The values of the currency reverse index are the keys of the forward table,
in the same order. -/
theorem stringToCurrencyCode_values :
    stringToCurrencyCode.map Prod.snd = mapKeys currencyCodesDetails := by
  rw [stringToCurrencyCode_eq]
  simp [mapKeys, List.map_map, Function.comp_def]

/-- The keys of the currency reverse index are the `String` of its values. -/
theorem stringToCurrencyCode_keys_eq :
    mapKeys stringToCurrencyCode =
      (stringToCurrencyCode.map Prod.snd).map CurrencyCode.String := by
  simp only [mapKeys, List.map_map]
  apply List.map_congr_left
  intro p hp
  exact (stringToCurrencyCode_String p.1 p.2 hp).1.symm

/-- In the order of the literal, the `String` of every value of the currency
reverse index is less than that of every later value. -/
theorem stringToCurrencyCode_values_pairwise :
    (stringToCurrencyCode.map Prod.snd).Pairwise
      (fun a b => strLt (CurrencyCode.String a) (CurrencyCode.String b) = true) := by
  have h := pairwise_of_sortedStrings _ stringToCurrencyCode_sorted
  rw [stringToCurrencyCode_keys_eq] at h
  exact List.pairwise_map.mp h

/-- On currency identifiers from 1 to 178 the order of the identifiers is the
order of their `String`. -/
theorem currency_order_iff (a b : CurrencyCode) (ha : 1 ≤ a.val ∧ a.val ≤ 178)
    (hb : 1 ≤ b.val ∧ b.val ≤ 178) :
    a < b ↔ strLt (CurrencyCode.String a) (CurrencyCode.String b) = true := by
  have h1 : (stringToCurrencyCode.map Prod.snd).Pairwise
      (fun a b : CurrencyCode => a < b) := by
    rw [stringToCurrencyCode_values]
    have h := List.pairwise_lt_range' 1 178
    rw [← currencyCodesDetails_keys] at h
    have h2 : (List.map (fun c : CurrencyCode => c.val) (mapKeys currencyCodesDetails)).Pairwise
        (fun a b => a < b) := by
      simpa [mapKeys, List.map_map, Function.comp_def] using h
    exact ((List.pairwise_map (f := fun c : CurrencyCode => c.val)).mp h2).imp
      (fun hab => Fin.lt_def.mpr hab)
  have hmem : ∀ c : CurrencyCode, 1 ≤ c.val ∧ c.val ≤ 178 →
      c ∈ stringToCurrencyCode.map Prod.snd := by
    intro c hc
    rw [stringToCurrencyCode_values]
    exact (currencyCodesDetails_mem_keys c).mpr hc
  exact order_iff_of_pairwise (fun a b : CurrencyCode => a < b)
    (fun a b => strLt (CurrencyCode.String a) (CurrencyCode.String b) = true) _
    (h1.and stringToCurrencyCode_values_pairwise)
    (fun a b hab => by simp only [Fin.lt_def] at hab ⊢; omega)
    (fun a b hab hba => by
      have h3 : strLt (CurrencyCode.String b) (CurrencyCode.String a) = false :=
        strLt_asymm _ _ hab
      have h4 : strLt (CurrencyCode.String b) (CurrencyCode.String a) = true := hba
      rw [h3] at h4
      exact Bool.noConfusion h4)
    a b (hmem a ha) (hmem b hb)

/-- A permutation of the values of the reverse index that has no inversion is
the list of the constants in the order of their declaration: at every index `i`
below 249 it holds the identifier `i + 1`. For identifiers `a`, `b` from 1 to
249, `a < b` exactly when `a.String() < b.String()`. -/
theorem ListCountryCodesReturns_identifier_order (out : List CountryCode)
    (h : ListCountryCodesReturns out) :
    out = countryCodeConstants ∧
    out.map (fun c => c.val) = List.range' 1 249 ∧
    (∀ (i : Nat) (hi : i < out.length), (out[i]).val = i + 1) ∧
    (∀ a b : CountryCode, 1 ≤ a.val ∧ a.val ≤ 249 → 1 ≤ b.val ∧ b.val ≤ 249 →
      (a < b ↔ strLt (CountryCode.String a) (CountryCode.String b) = true)) := by
  have he : out = mapKeys countryCodesDetails := by
    rw [← stringToCountryCode_values]
    exact ListCountryCodesReturns_eq out h
  have hm : out.map (fun c => c.val) = List.range' 1 249 := by
    rw [he, ← countryCodesDetails_keys]
    simp [mapKeys, List.map_map, Function.comp_def]
  refine ⟨he.trans table_keys_eq_constants.1, hm, ?_, country_order_iff⟩
  intro i hi
  have h1 : (out.map (fun c => c.val))[i]? = (List.range' 1 249)[i]? := by rw [hm]
  have hlen : i < 249 := by
    have := congrArg List.length hm
    simp only [List.length_map, List.length_range'] at this
    omega
  rw [List.getElem?_map, List.getElem?_eq_getElem hi, List.getElem?_range' 1 1 hlen] at h1
  simp only [Option.map_some', Option.some.injEq] at h1
  omega

/-- C15: `ListCountryCodes` is sorted. Whatever the order in which `range` visits
the map, the list that the body computes — the values appended in that order,
then sorted by `sort.Slice` with `less` on `String()` — has length 249, has at
every pair of adjacent positions `i`, `i + 1` a `String()` at `i` that is less,
byte-wise, than the one at `i + 1`, and has no duplicates. The same holds of
every list that a `sort.Slice` other than the one modelled may leave: a
permutation of the appended values without inversions. -/
theorem ListCountryCodes_sorted (order : List (GoString × CountryCode))
    (h : order.Perm stringToCountryCode) :
    (ListCountryCodesIn order).length = 249 ∧
    (∀ (i : Nat) (hi : i + 1 < (ListCountryCodesIn order).length),
      strLt (CountryCode.String (ListCountryCodesIn order)[i])
        (CountryCode.String (ListCountryCodesIn order)[i + 1]) = true) ∧
    (ListCountryCodesIn order).Nodup ∧
    (∀ out : List CountryCode, SortSliceResult countryLess (order.map Prod.snd) out →
      out.length = 249 ∧
      (∀ (i : Nat) (hi : i + 1 < out.length),
        strLt (CountryCode.String out[i]) (CountryCode.String out[i + 1]) = true) ∧
      out.Nodup) := by
  have h1 := ListCountryCodesReturns_sorted _ (ListCountryCodesIn_returns order h)
  exact ⟨h1.1, h1.2.1, h1.2.2, fun out ho => ListCountryCodesReturns_sorted out ⟨order, h, ho⟩⟩

/-- A sample of C15: when `range` visits the map from its last entry `ZW` to its
first entry `AD`, the values are appended in descending order, and the list the
body computes from them has length 249, ascends from its first to its second
position, and has no duplicates. -/
theorem ListCountryCodes_sorted_witness :
    stringToCountryCode.reverse.Perm stringToCountryCode ∧
    stringToCountryCode.reverse.head? = some (lit "ZW", ZW) ∧
    stringToCountryCode.reverse.getLast? = some (lit "AD", AD) ∧
    (ListCountryCodesIn stringToCountryCode.reverse).length = 249 ∧
    (∀ a b : CountryCode,
      (ListCountryCodesIn stringToCountryCode.reverse)[0]? = some a →
      (ListCountryCodesIn stringToCountryCode.reverse)[0 + 1]? = some b →
      strLt (CountryCode.String a) (CountryCode.String b) = true) ∧
    (ListCountryCodesIn stringToCountryCode.reverse).Nodup :=
  ⟨List.reverse_perm stringToCountryCode, by decide!, by decide!,
    (ListCountryCodes_sorted stringToCountryCode.reverse
      (List.reverse_perm stringToCountryCode)).1,
    fun a b ha hb => by
      obtain ⟨_, e0⟩ := List.getElem?_eq_some.mp ha
      obtain ⟨h1, e1⟩ := List.getElem?_eq_some.mp hb
      subst e0
      subst e1
      exact (ListCountryCodes_sorted stringToCountryCode.reverse
        (List.reverse_perm stringToCountryCode)).2.1 0 h1,
    (ListCountryCodes_sorted stringToCountryCode.reverse
      (List.reverse_perm stringToCountryCode)).2.2.1⟩

/-- C34: in the country registry the alphabetical order is the order of the
identifiers. Whatever the order in which `range` visits the map, the list that
the body of `ListCountryCodes` computes is the list of the constants in the
order of their declaration: at every index `i` below 249 it holds the identifier
`i + 1`. So is every list that a `sort.Slice` other than the one modelled may
leave. For identifiers `a`, `b` from 1 to 249, `a < b` exactly when
`a.String() < b.String()`. -/
theorem ListCountryCodes_identifier_order (order : List (GoString × CountryCode))
    (h : order.Perm stringToCountryCode) :
    ListCountryCodesIn order = countryCodeConstants ∧
    (ListCountryCodesIn order).map (fun c => c.val) = List.range' 1 249 ∧
    (ListCountryCodesIn order).length = 249 ∧
    (∀ (i : Nat) (hi : i < (ListCountryCodesIn order).length),
      ((ListCountryCodesIn order)[i]).val = i + 1) ∧
    (∀ out : List CountryCode, SortSliceResult countryLess (order.map Prod.snd) out →
      out = countryCodeConstants ∧ ∀ (i : Nat) (hi : i < out.length), (out[i]).val = i + 1) ∧
    (∀ a b : CountryCode, 1 ≤ a.val ∧ a.val ≤ 249 → 1 ≤ b.val ∧ b.val ≤ 249 →
      (a < b ↔ strLt (CountryCode.String a) (CountryCode.String b) = true)) := by
  have h1 := ListCountryCodesReturns_identifier_order _ (ListCountryCodesIn_returns order h)
  refine ⟨h1.1, h1.2.1, ?_, h1.2.2.1, fun out ho => ?_, h1.2.2.2⟩
  · have := congrArg List.length h1.2.1
    simpa using this
  · have h2 := ListCountryCodesReturns_identifier_order out ⟨order, h, ho⟩
    exact ⟨h2.1, h2.2.2.1⟩

/-- A sample of C34: when `range` visits the map from its last entry `ZW` to its
first entry `AD`, the list the body computes is still the list of the constants,
which starts with `AD`, the identifier 1, and ends with `ZW`, the identifier
249. -/
theorem ListCountryCodes_identifier_order_witness :
    stringToCountryCode.reverse.Perm stringToCountryCode ∧
    (stringToCountryCode.reverse.map Prod.snd).head? = some ZW ∧
    ListCountryCodesIn stringToCountryCode.reverse = countryCodeConstants ∧
    countryCodeConstants.head? = some AD ∧ AD.val = 1 ∧
    countryCodeConstants.getLast? = some ZW ∧ ZW.val = 249 :=
  ⟨List.reverse_perm stringToCountryCode, by decide!,
    (ListCountryCodes_identifier_order stringToCountryCode.reverse
      (List.reverse_perm stringToCountryCode)).1, by decide, by decide, by decide!, by decide⟩

/-- C35: `ListCountryCodes` is deterministic. Any two lists that calls may return,
whatever the order in which the map is visited and however `sort.Slice`
rearranges the values, are equal; and for every order in which the map is
visited, the body run with the insertion sort gives that same list. -/
theorem ListCountryCodes_deterministic (out1 out2 : List CountryCode)
    (h1 : ListCountryCodesReturns out1) (h2 : ListCountryCodesReturns out2) :
    out1 = out2 ∧
    ∀ order : List (GoString × CountryCode), order.Perm stringToCountryCode →
      ListCountryCodesIn order = out1 := by
  have e1 := ListCountryCodesReturns_eq out1 h1
  have e2 := ListCountryCodesReturns_eq out2 h2
  refine ⟨e1.trans e2.symm, ?_⟩
  intro order ho
  rw [e1]
  exact ListCountryCodesReturns_eq _ (ListCountryCodesIn_returns order ho)

/-- A sample of C35: the map visited in the order of the literal and in the
reverse order give the same list. -/
theorem ListCountryCodes_deterministic_witness :
    ListCountryCodesReturns ListCountryCodes ∧
    ListCountryCodesReturns (ListCountryCodesIn stringToCountryCode.reverse) ∧
    ListCountryCodes = ListCountryCodesIn stringToCountryCode.reverse :=
  ⟨ListCountryCodes_returns,
    ListCountryCodesIn_returns _ (List.reverse_perm stringToCountryCode),
    (ListCountryCodes_deterministic ListCountryCodes
      (ListCountryCodesIn stringToCountryCode.reverse) ListCountryCodes_returns
      (ListCountryCodesIn_returns _ (List.reverse_perm stringToCountryCode))).1⟩

/-- C38: the order of the currency identifiers is the order of their short codes.
For currency identifiers `a`, `b` from 1 to 178, `a < b` as numbers exactly when
`a.String() < b.String()` byte-wise; the constants in the order of their
declaration, which have the values 1 to 178, have their `String()` in increasing
order. -/
theorem currency_identifier_order :
    (∀ a b : CurrencyCode, 1 ≤ a.val ∧ a.val ≤ 178 → 1 ≤ b.val ∧ b.val ≤ 178 →
      (a < b ↔ strLt (CurrencyCode.String a) (CurrencyCode.String b) = true)) ∧
    currencyCodeConstants.map (fun c => c.val) = List.range' 1 178 ∧
    (currencyCodeConstants.map CurrencyCode.String).Pairwise
      (fun s t => strLt s t = true) := by
  refine ⟨currency_order_iff, ?_, ?_⟩
  · rw [← table_keys_eq_constants.2, ← currencyCodesDetails_keys]
    simp [mapKeys, List.map_map, Function.comp_def]
  · rw [← table_keys_eq_constants.2, ← stringToCurrencyCode_values,
      ← stringToCurrencyCode_keys_eq]
    exact pairwise_of_sortedStrings _ stringToCurrencyCode_sorted

/-- A parse that returns an error returns the identifier 0 and
`ErrInvalidStringCode`, in both registries. -/
theorem parse_failure_core (table : Nat → Nat) (s : GoString) :
    ((StringToCountryCode (stringsMap (unicodeToUpper table)) s).2 ≠ none →
      StringToCountryCode (stringsMap (unicodeToUpper table)) s =
        (0, some ErrInvalidStringCode)) ∧
    ((StringToCurrencyCode (stringsMap (unicodeToUpper table)) s).2 ≠ none →
      StringToCurrencyCode (stringsMap (unicodeToUpper table)) s =
        (0, some ErrInvalidStringCode)) := by
  constructor
  · by_cases hl : 2 < s.length
    · rw [country_parse_of_long _ s hl]
      exact fun _ => rfl
    · cases hg : mapGet stringToCountryCode (ToUpper (stringsMap (unicodeToUpper table)) s) with
      | none =>
        rw [country_parse_of_none _ s hg]
        exact fun _ => rfl
      | some c =>
        rw [country_parse_of_some _ s c (by omega) hg]
        exact fun h => absurd rfl h
  · by_cases hl : 3 < s.length
    · rw [currency_parse_of_long _ s hl]
      exact fun _ => rfl
    · cases hg : mapGet stringToCurrencyCode (ToUpper (stringsMap (unicodeToUpper table)) s) with
      | none =>
        rw [currency_parse_of_none _ s hg]
        exact fun _ => rfl
      | some c =>
        rw [currency_parse_of_some _ s c (by omega) hg]
        exact fun h => absurd rfl h

/-! ## Upper case of strings that are not ASCII -/

/-- A rune written as ASCII bytes only is an ASCII rune, written as one byte. -/
theorem appendRune_ascii (x : Nat) (h : ∀ y ∈ appendRune x, y < 0x80) :
    x < 0x80 ∧ appendRune x = [x] := by
  unfold appendRune utf8EncodeRune at h
  unfold appendRune utf8EncodeRune
  simp only [RuneError] at h ⊢
  split_ifs at h ⊢
  all_goals simp at h ⊢
  all_goals omega

/-- What `utf8.DecodeRuneInString` takes from a string that is not empty: at
least one byte and no more than there are; an ASCII byte as a rune of its own;
and at a byte that is not ASCII either `RuneError` of width 1 or a rune of at
least two bytes. -/
theorem decodeRune_spec (b : Nat) (rest : GoString) :
    1 ≤ (decodeRune (b :: rest)).2 ∧ (decodeRune (b :: rest)).2 ≤ (b :: rest).length ∧
    (b < 0x80 → decodeRune (b :: rest) = (b, 1)) ∧
    (0x80 ≤ b → decodeRune (b :: rest) = (RuneError, 1) ∨ 2 ≤ (decodeRune (b :: rest)).2) := by
  rcases rest with _ | ⟨s1, _ | ⟨s2, _ | ⟨s3, rest⟩⟩⟩ <;>
    simp only [decodeRune] <;> split_ifs <;> simp <;> omega

/-- When the upper-case form of a string, taken rune by rune, is made of ASCII
bytes only, it is no longer than the string, and shorter when the string holds
a byte that is not ASCII; the case table is assumed not to send `RuneError` to
an ASCII rune. -/
theorem mapRunes_ascii_length (table : Nat → Nat) (hT : 0x80 ≤ table RuneError) (n : Nat)
    (s : GoString) (hn : s.length ≤ n)
    (h : ∀ y ∈ mapRunes (unicodeToUpper table) (runesUpTo n s), y < 0x80) :
    (mapRunes (unicodeToUpper table) (runesUpTo n s)).length ≤ s.length ∧
    ((∃ x ∈ s, 0x80 ≤ x) →
      (mapRunes (unicodeToUpper table) (runesUpTo n s)).length < s.length) := by
  induction n generalizing s with
  | zero =>
    have hs : s = [] := List.eq_nil_of_length_eq_zero (by omega)
    subst hs
    exact ⟨by simp [runesUpTo, mapRunes], fun ⟨x, hx, _⟩ => absurd hx (List.not_mem_nil x)⟩
  | succ n ih =>
    cases s with
    | nil =>
      exact ⟨by simp [runesUpTo, mapRunes], fun ⟨x, hx, _⟩ => absurd hx (List.not_mem_nil x)⟩
    | cons b rest =>
      obtain ⟨hw1, hw2, hascii, hnon⟩ := decodeRune_spec b rest
      simp only [runesUpTo, mapRunes, List.mem_append] at h ⊢
      have hfirst := appendRune_ascii _ (fun y hy => h y (Or.inl hy))
      have hdrop : ((b :: rest).drop (decodeRune (b :: rest)).2).length ≤ n := by
        simp only [List.length_drop, List.length_cons] at hn ⊢
        omega
      have hrec := ih _ hdrop (fun y hy => h y (Or.inr hy))
      rw [hfirst.2]
      simp only [List.singleton_append, List.length_cons, List.length_drop] at hrec ⊢
      simp only [List.length_cons] at hw2
      by_cases hb : b < 0x80
      · have hd := hascii hb
        rw [hd] at hrec ⊢
        simp only [List.drop_succ_cons, List.drop_zero] at hrec ⊢
        refine ⟨by omega, ?_⟩
        rintro ⟨x, hx, hx80⟩
        rcases List.mem_cons.mp hx with hx | hx
        · omega
        · have := hrec.2 ⟨x, hx, hx80⟩
          omega
      · rcases hnon (by omega) with hd | hd
        · rw [hd] at hfirst
          have hup : unicodeToUpper table RuneError = table RuneError := by
            simp [unicodeToUpper, RuneError]
          rw [hup] at hfirst
          omega
        · refine ⟨by omega, fun _ => by omega⟩

/-- An input whose upper-case form is a given string of bytes in `'A'..'Z'`, and
which is no longer than that string, has its length and is made of ASCII
letters. -/
theorem ToUpper_letters (table : Nat → Nat) (hT : 0x80 ≤ table RuneError) (s k : GoString)
    (hlen : s.length ≤ k.length)
    (hk : ToUpper (stringsMap (unicodeToUpper table)) s = k)
    (hku : ∀ x ∈ k, 65 ≤ x ∧ x ≤ 90) :
    s.length = k.length ∧ ∀ x ∈ s, (65 ≤ x ∧ x ≤ 90) ∨ (97 ≤ x ∧ x ≤ 122) := by
  by_cases hall : s.all (fun c => decide (c < 0x80)) = true
  · simp only [ToUpper, hall, if_true] at hk
    refine ⟨by rw [← hk, List.length_map], ?_⟩
    intro x hx
    have hm := hku _ (hk ▸ List.mem_map_of_mem _ hx)
    simp only at hm
    split at hm <;> omega
  · exfalso
    have hex : ∃ x ∈ s, 0x80 ≤ x := by
      rw [List.all_eq_true] at hall
      simp only [decide_eq_true_eq, not_forall, Classical.not_imp, Nat.not_lt] at hall
      obtain ⟨x, hx, hx80⟩ := hall
      exact ⟨x, hx, hx80⟩
    simp only [ToUpper, hall, Bool.false_eq_true, if_false, stringsMap, runes] at hk
    have hlt := (mapRunes_ascii_length table hT s.length s (Nat.le_refl _) (by
      intro y hy
      rw [hk] at hy
      have := hku y hy
      omega)).2 hex
    rw [hk] at hlt
    omega

/-- C33: the inputs the parse functions accept are plain ASCII of the exact
length. With `strings.ToUpper` taken rune by rune over the UTF-8 decoding, for
any case table that does not send `RuneError` (U+FFFD) to an ASCII rune: an
input that `StringToCountryCode` accepts has exactly 2 bytes, both ASCII
letters; an input that `StringToCurrencyCode` accepts has exactly 3 bytes, all
ASCII letters; an input with a byte that is not ASCII is refused by both, also
when its upper-case form is made of ASCII letters. -/
theorem parse_accepts_ascii_letters (table : Nat → Nat) (hT : 0x80 ≤ table RuneError)
    (s : GoString) :
    ((StringToCountryCode (stringsMap (unicodeToUpper table)) s).2 = none →
      s.length = 2 ∧ ∀ x ∈ s, (65 ≤ x ∧ x ≤ 90) ∨ (97 ≤ x ∧ x ≤ 122)) ∧
    ((StringToCurrencyCode (stringsMap (unicodeToUpper table)) s).2 = none →
      s.length = 3 ∧ ∀ x ∈ s, (65 ≤ x ∧ x ≤ 90) ∨ (97 ≤ x ∧ x ≤ 122)) ∧
    ((∃ x ∈ s, 0x80 ≤ x) →
      StringToCountryCode (stringsMap (unicodeToUpper table)) s =
        (0, some ErrInvalidStringCode) ∧
      StringToCurrencyCode (stringsMap (unicodeToUpper table)) s =
        (0, some ErrInvalidStringCode)) := by
  have hc : (StringToCountryCode (stringsMap (unicodeToUpper table)) s).2 = none →
      s.length = 2 ∧ ∀ x ∈ s, (65 ≤ x ∧ x ≤ 90) ∨ (97 ≤ x ∧ x ≤ 122) := by
    by_cases hl : 2 < s.length
    · rw [country_parse_of_long _ s hl]
      exact fun h => Option.noConfusion h
    · cases hg : mapGet stringToCountryCode (ToUpper (stringsMap (unicodeToUpper table)) s) with
      | none =>
        rw [country_parse_of_none _ s hg]
        exact fun h => Option.noConfusion h
      | some c =>
        intro _
        have hk := stringToCountryCode_keys.2.2 _ (mapGet_some_key _ _ _ hg)
        have := ToUpper_letters table hT s _ (by omega) rfl hk.2
        exact ⟨by omega, this.2⟩
  have hu : (StringToCurrencyCode (stringsMap (unicodeToUpper table)) s).2 = none →
      s.length = 3 ∧ ∀ x ∈ s, (65 ≤ x ∧ x ≤ 90) ∨ (97 ≤ x ∧ x ≤ 122) := by
    by_cases hl : 3 < s.length
    · rw [currency_parse_of_long _ s hl]
      exact fun h => Option.noConfusion h
    · cases hg : mapGet stringToCurrencyCode (ToUpper (stringsMap (unicodeToUpper table)) s) with
      | none =>
        rw [currency_parse_of_none _ s hg]
        exact fun h => Option.noConfusion h
      | some c =>
        intro _
        have hk := stringToCurrencyCode_keys.2.2 _ (mapGet_some_key _ _ _ hg)
        have := ToUpper_letters table hT s _ (by omega) rfl hk.2
        exact ⟨by omega, this.2⟩
  refine ⟨hc, hu, ?_⟩
  rintro ⟨x, hx, hx80⟩
  constructor
  · cases he : (StringToCountryCode (stringsMap (unicodeToUpper table)) s).2 with
    | none =>
      have := (hc he).2 x hx
      omega
    | some e =>
      have h1 := (parse_failure_core table s).1 (by rw [he]; exact fun h => Option.noConfusion h)
      exact h1
  · cases he : (StringToCurrencyCode (stringsMap (unicodeToUpper table)) s).2 with
    | none =>
      have := (hu he).2 x hx
      omega
    | some e =>
      have h1 := (parse_failure_core table s).2 (by rw [he]; exact fun h => Option.noConfusion h)
      exact h1

/-- A sample of C33: with a case table that sends U+017F to `S`, the input `us` is
accepted and has two ASCII letters, and the input `u` + U+017F, whose upper-case
form is `US`, is refused. -/
theorem parse_accepts_ascii_letters_witness :
    0x80 ≤ unicodeToUpperSample RuneError ∧
    (StringToCountryCode (stringsMap (unicodeToUpper unicodeToUpperSample)) (lit "us")).2 = none ∧
    (lit "us").length = 2 ∧
    ToUpper (stringsMap (unicodeToUpper unicodeToUpperSample)) (lit "uſ") = lit "US" ∧
    StringToCountryCode (stringsMap (unicodeToUpper unicodeToUpperSample)) (lit "uſ") =
      (0, some ErrInvalidStringCode) :=
  ⟨by decide, by decide!,
    ((parse_accepts_ascii_letters unicodeToUpperSample (by decide) (lit "us")).1 (by decide!)).1,
    by decide,
    ((parse_accepts_ascii_letters unicodeToUpperSample (by decide) (lit "uſ")).2.2
      ⟨0xC5, by decide, by decide⟩).1⟩

end Isocodes
